import Mathlib

/-!
# Breath controller: filter, phase classifier, valve control, adaptive tuner

Shallow embedding of `BreathController` (src/for_linux/linux_port/BreathController.cpp,
member declarations in src/for_Arduino/ESP32_V1.1/BreathController.h).

Modelling conventions
* Arithmetic comes in two readings of the same source lines.
  - Exact reading (`applyMovingAverage`, `applyEWMA`, `detectBreathState`,
    `adaptiveModelAdjustment`, `controlValve` and the drivers built on them): `float` and
    `double` values are exact rationals (`ℚ`) and `int` counters are mathematical
    integers. It gives the value an expression has before any rounding, and is used for
    statements that do not depend on arithmetic or that describe a computed value up to
    its rounding.
  - Machine reading (the names ending in `F`, section "Machine arithmetic"): every
    `float` operation rounds its exact result to IEEE 754 single precision and every
    `double` operation to double precision (round to nearest, ties to even, gradual
    underflow, no fused operations), and `int` increments wrap modulo `2 ^ 32`. It is
    used wherever a comparison, a branch, a counter or an exact value is at stake.
  In both readings values are finite rationals: infinities and NaN as an arithmetic
  result are not represented. A comparison of a `float` with an overflowed sum or
  difference comes out the same in the machine reading; statements about computed values
  carry a magnitude bound (`2 ^ 100`) under which no operation overflows.
* NaN is represented only where the program stores it as a sentinel and tests it
  with `isnan`: the slots of `pressureHistory` and the static `lastPressure`
  are `Option ℚ`, with `none` standing for NaN.
* C arrays are lists; a write is `List.set`, a read inside a loop is `List.getD`.
* Array indices, which the program only ever reduces modulo the array size, are
  naturals.
* `unsigned long` timestamps are naturals; their subtraction wraps modulo `2 ^ w`,
  with the width `w` of `unsigned long` a parameter.
* The function-local statics `lastPressure` and `firstCall` of `detectBreathState`
  are fields of the controller state.
* Serial output and `analogWrite` are effects outside the state and are omitted.
* `update()` is modelled on the controller state only: the sensor I/O of a tick is
  replaced by the list of raw pressures read on the pressure-sensor channels, in
  channel order, and the `millis()` reading.
-/

namespace BreathCtl

/-! ## Constants -/

/-- `constexpr int STORE_SIZE = 10;` -/
def STORE_SIZE : ℕ := 10

/-- `constexpr int FILTER_WINDOW = 5;` -/
def FILTER_WINDOW : ℕ := 5

/-- `constexpr float EWMA_ALPHA = 0.3;` (exact reading; the `float` the program holds is
`EWMA_ALPHA_F`). -/
def EWMA_ALPHA : ℚ := 0.3

/-- `constexpr int ADAPT_CYCLES = 5;` -/
def ADAPT_CYCLES : ℤ := 5

/-- `constexpr float BREATH_THRESHOLD = 0.5;` -/
def BREATH_THRESHOLD : ℚ := 0.5

/-- `constexpr uint8_t MAX_VALVE_OPEN = 255;` -/
def MAX_VALVE_OPEN : ℚ := 255

/-! ## Data model -/

/-- `enum BreathState { INHALE, EXHALE, PEAK, TROUGH };` -/
inductive BreathState where
  | INHALE
  | EXHALE
  | PEAK
  | TROUGH
  deriving DecidableEq

open BreathState

/-- The member variables of `BreathController` used by the control loop, together
with the two function-local statics of `detectBreathState`. -/
structure BreathController where
  storedPressures : List ℚ
  storeIndex : ℕ
  isBaseSet : Bool
  basePressure : ℚ
  pressureHistory : List (Option ℚ)
  historyIndex : ℕ
  filteredPressure : ℚ
  isFilterInitialized : Bool
  currentState : BreathState
  lastBreathTime : ℕ
  breathPeriod : ℚ
  minPressure : ℚ
  maxPressure : ℚ
  breathCount : ℤ
  valveOpening : ℚ
  assistLevel : ℚ
  assistEnabled : Bool
  pressureThreshold : ℚ
  responseFactor : ℚ
  lastPressure : Option ℚ
  firstCall : Bool
  deriving DecidableEq

/-- The controller right after construction: the in-class member initialisers of
the header, the constructor loop that fills `pressureHistory` with NaN, and the
initial values of the statics (`lastPressure = NAN`, `firstCall = true`). -/
def BreathController.init : BreathController where
  storedPressures := List.replicate STORE_SIZE 0
  storeIndex := 0
  isBaseSet := false
  basePressure := 0
  pressureHistory := List.replicate FILTER_WINDOW none
  historyIndex := 0
  filteredPressure := 0
  isFilterInitialized := false
  currentState := EXHALE
  lastBreathTime := 0
  breathPeriod := 3000
  minPressure := 0
  maxPressure := 0
  breathCount := 0
  valveOpening := 0
  assistLevel := 0.5
  assistEnabled := true
  pressureThreshold := BREATH_THRESHOLD
  responseFactor := 1
  lastPressure := none
  firstCall := true

/-! ## Helpers of the hardware abstraction layer -/

/-- `ArduinoHAL::constrain` (LuckfoxArduino.h): two successive tests, lower bound first. -/
def constrain (value min_val max_val : ℚ) : ℚ :=
  if value < min_val then min_val
  else if value > max_val then max_val
  else value

/-- Subtraction of two `unsigned long` values of width `w`. -/
def ulongSub (w a b : ℕ) : ℕ :=
  (a % 2 ^ w + 2 ^ w - b % 2 ^ w) % 2 ^ w

/-! ## Signal filter -/

/-- The summation loop of `applyMovingAverage`: slots holding NaN are skipped. Exact
reading: the sum is the exact sum of the populated slots (`sumValidF` rounds after every
addition). -/
def sumValid (hist : List (Option ℚ)) : ℚ × ℕ :=
  (List.range FILTER_WINDOW).foldl
    (fun acc i =>
      match hist.getD i none with
      | some v => (acc.1 + v, acc.2 + 1)
      | none => acc)
    (0, 0)

/-- `BreathController::applyMovingAverage`, exact reading: the value returned is the
exact mean of the populated slots. The buffer update is the same in both readings;
`applyMovingAverageF` returns the value the `float` loop and division compute. -/
def applyMovingAverage (newValue : ℚ) (s : BreathController) : ℚ × BreathController :=
  let hist := s.pressureHistory.set s.historyIndex (some newValue)
  let idx := (s.historyIndex + 1) % FILTER_WINDOW
  let acc := sumValid hist
  (if acc.2 > 0 then acc.1 / acc.2 else newValue,
   { s with pressureHistory := hist, historyIndex := idx })

/-- `BreathController::applyEWMA`, exact reading (`applyEWMAF` rounds every operation). -/
def applyEWMA (newValue : ℚ) (s : BreathController) : ℚ × BreathController :=
  if !s.isFilterInitialized then
    (newValue, { s with filteredPressure := newValue, isFilterInitialized := true })
  else
    let f := EWMA_ALPHA * newValue + (1 - EWMA_ALPHA) * s.filteredPressure
    (f, { s with filteredPressure := f })

/-! ## Breath phase classifier -/

/-- `BreathController::detectBreathState`. The function returns the new state and
does not assign `currentState` itself (its caller does); `now` is the value
`millis()` would return and is read only on the PEAK to EXHALE branch. Exact reading:
the EXHALE and PEAK guards compare with the exact sum and difference, the period blend is
exact and `breathCount` is an unbounded integer. `detectBreathStateF` has the same
control flow with the `float` sum and difference in the guards, the rounded blend and the
`int` increment. -/
def detectBreathState (w now : ℕ) (pressure : ℚ) (s : BreathController) :
    BreathState × BreathController :=
  match s.firstCall, s.lastPressure with
  | true, _ => (s.currentState, { s with lastPressure := some pressure, firstCall := false })
  | false, none => (s.currentState, { s with lastPressure := some pressure, firstCall := false })
  | false, some lastP =>
    match s.currentState with
    | EXHALE =>
      if pressure > lastP + s.pressureThreshold then
        (INHALE, { s with minPressure := pressure, lastPressure := some pressure })
      else (EXHALE, { s with lastPressure := some pressure })
    | INHALE =>
      if pressure < lastP then
        (PEAK, { s with maxPressure := pressure, lastPressure := some pressure })
      else (INHALE, { s with lastPressure := some pressure })
    | PEAK =>
      if pressure < lastP - s.pressureThreshold then
        let currentTime := now
        let period :=
          if s.lastBreathTime > 0 then
            0.8 * s.breathPeriod + 0.2 * (ulongSub w currentTime s.lastBreathTime : ℚ)
          else s.breathPeriod
        (EXHALE, { s with breathPeriod := period, lastBreathTime := currentTime,
                          breathCount := s.breathCount + 1,
                          lastPressure := some pressure })
      else (PEAK, { s with lastPressure := some pressure })
    | TROUGH =>
      if pressure > lastP then (INHALE, { s with lastPressure := some pressure })
      else (TROUGH, { s with lastPressure := some pressure })

/-- The classifier call as made in `update()`:
`currentState = detectBreathState(filtered_pressure);`. -/
def classify (w now : ℕ) (pressure : ℚ) (s : BreathController) : BreathController :=
  let r := detectBreathState w now pressure s
  { r.2 with currentState := r.1 }

/-! ## Valve actuator controller -/

/-- `BreathController::controlValve` (the state update; the final `analogWrite` is
an output effect). -/
def controlValve (s : BreathController) : BreathController :=
  match s.currentState with
  | INHALE =>
    { s with valveOpening :=
        constrain (s.valveOpening + 10 * s.responseFactor) 0 (MAX_VALVE_OPEN * s.assistLevel) }
  | PEAK => s
  | EXHALE => { s with valveOpening := constrain (s.valveOpening - 20) 0 MAX_VALVE_OPEN }
  | TROUGH => { s with valveOpening := 0 }

/-! ## Adaptive threshold tuner -/

/-- The accumulation loop of `adaptiveModelAdjustment` followed by the division:
the mean of `fabs(storedPressures[i])` over the `STORE_SIZE` slots. Exact reading: the
exact mean (`avgPressureDiffF` rounds after every addition and after the division). -/
def avgPressureDiff (stored : List ℚ) : ℚ :=
  (List.range STORE_SIZE).foldl (fun acc i => acc + |stored.getD i 0|) 0 / STORE_SIZE

/-- `BreathController::adaptiveModelAdjustment`. C++ `%` on `int` truncates toward
zero, which is `Int.tmod`. Exact reading: exact mean, exact products, and clamp bounds
`0.2`, `0.5`, `2.0` as rationals. `adaptiveModelAdjustmentF` has the same control flow
with the `float` mean, the `double` tests and products, and the clamp result stored as a
`float` (so a threshold at the lower bound is the `float` nearest to `0.2`, slightly above
`0.2`). -/
def adaptiveModelAdjustment (s : BreathController) : BreathController :=
  if s.breathCount.tmod ADAPT_CYCLES = 0 then
    let avg := avgPressureDiff s.storedPressures
    let scaled : ℚ × ℚ :=
      if avg > 1.5 * s.pressureThreshold then
        (s.pressureThreshold * 1.1, s.responseFactor * 1.05)
      else if avg < 0.7 * s.pressureThreshold then
        (s.pressureThreshold * 0.9, s.responseFactor * 0.95)
      else (s.pressureThreshold, s.responseFactor)
    { s with pressureThreshold := constrain scaled.1 0.2 2.0,
             responseFactor := constrain scaled.2 0.5 2.0 }
  else s

/-! ## Drivers: repeated invocation -/

/-- Repeated tuner invocations. Before each invocation the environment (the rest of
the control loop) may have put any deviation history and any breath count in place;
each list element supplies the pair in force at that invocation. -/
def tunerRun (s : BreathController) : List (List ℚ × ℤ) → BreathController
  | [] => s
  | (hist, n) :: rest =>
    tunerRun (adaptiveModelAdjustment { s with storedPressures := hist, breathCount := n }) rest

/-- Successive classifier calls as made by `update()`, one per tick; each input is the
`millis()` reading and the filtered pressure of that tick. The result lists the
controller after each call. -/
def classifyRun (w : ℕ) (s : BreathController) : List (ℕ × ℚ) → List BreathController
  | [] => []
  | (now, p) :: rest => classify w now p s :: classifyRun w (classify w now p s) rest

/-- The controller after the whole input sequence of `classifyRun`. -/
def classifyFinal (w : ℕ) (s : BreathController) : List (ℕ × ℚ) → BreathController
  | [] => s
  | (now, p) :: rest => classifyFinal w (classify w now p s) rest

/-- Number of PEAK to EXHALE edges between consecutive entries of a state trace. -/
def peakExhaleEdges : List BreathState → ℕ
  | [] => 0
  | [_] => 0
  | a :: b :: rest =>
    (if a = PEAK ∧ b = EXHALE then 1 else 0) + peakExhaleEdges (b :: rest)

/-- Successive `applyMovingAverage` calls, one per sample: the values returned, in call
order, and the controller after the last call. -/
def movingAverageRun (s : BreathController) : List ℚ → List ℚ × BreathController
  | [] => ([], s)
  | x :: xs =>
    ((applyMovingAverage x s).1 :: (movingAverageRun (applyMovingAverage x s).2 xs).1,
     (movingAverageRun (applyMovingAverage x s).2 xs).2)

/-- A controller that has already made classifier calls: the constructed controller
with `currentState = st`, `firstCall` cleared and `lastPressure = prevP`. Used as a
concrete input in witnesses. -/
def seeded (st : BreathState) (prevP : ℚ) : BreathController :=
  { BreathController.init with currentState := st, firstCall := false, lastPressure := some prevP }

/-- The constructed controller with a given deviation history in place. Used as a
concrete input in witnesses. -/
def withHistory (hist : List ℚ) : BreathController :=
  { BreathController.init with storedPressures := hist }

/-- The part of `update()` that runs on the main pressure channel once the filtered
pressure is known: `currentState = detectBreathState(..)`, then `controlValve()` when
`assistEnabled`, then `adaptiveModelAdjustment()`. -/
def controlTick (w now : ℕ) (pressure : ℚ) (s : BreathController) : BreathController :=
  let s1 := classify w now pressure s
  let s2 := if s1.assistEnabled then controlValve s1 else s1
  adaptiveModelAdjustment s2

/-- Successive classifier calls where the threshold in force may differ from call to
call (the tuner may have changed it in between): each input is the `millis()` reading,
the filtered pressure and the threshold of that call. The result lists the controller
after each call. -/
def classifyRunWith (w : ℕ) (s : BreathController) :
    List (ℕ × ℚ × ℚ) → List BreathController
  | [] => []
  | (now, p, t) :: rest =>
    classify w now p { s with pressureThreshold := t } ::
      classifyRunWith w (classify w now p { s with pressureThreshold := t }) rest

/-- Successive `controlValve` steps; before each step the breath state, the response
factor and the assist level in force are put in place. The result lists the controller
after each step. -/
def valveRun (s : BreathController) : List (BreathState × ℚ × ℚ) → List BreathController
  | [] => []
  | (st, r, a) :: rest =>
    controlValve { s with currentState := st, responseFactor := r, assistLevel := a } ::
      valveRun
        (controlValve { s with currentState := st, responseFactor := r, assistLevel := a }) rest

/-- The two-stage filter as applied in `update()`:
`applyEWMA(applyMovingAverage(pressure_kpa))`. -/
def filterStep (pressure_kpa : ℚ) (s : BreathController) : ℚ × BreathController :=
  applyEWMA (applyMovingAverage pressure_kpa s).1 (applyMovingAverage pressure_kpa s).2

/-- The pressure-sensor branch of the channel loop of `update()` for channel `i`, from the
raw pressure `pressure_kpa` on: filter, set the baseline on the first sample, store the
deviation in `storedPressures[storeIndex]`, and on the main channel (`i == 1`) run the
classifier, the valve control and the tuner. The temperature bookkeeping and the serial
log are omitted. -/
def pressureChannel (w now i : ℕ) (pressure_kpa : ℚ) (s : BreathController) :
    BreathController :=
  let filtered_pressure := (filterStep pressure_kpa s).1
  let s2 := (filterStep pressure_kpa s).2
  let s3 : BreathController :=
    if !s2.isBaseSet then { s2 with basePressure := filtered_pressure, isBaseSet := true }
    else s2
  let pressureDiff := filtered_pressure - s3.basePressure
  let s4 : BreathController :=
    { s3 with storedPressures := s3.storedPressures.set s3.storeIndex pressureDiff }
  if i = 1 then controlTick w now filtered_pressure s4 else s4

/-- The channel loop of `update()`. `reads` lists, in loop order, the channels on which
the pressure-sensor branch is reached (enabled, selected, sensor address `SENSOR_ADDR`)
with the raw pressure computed there; channel 2 is skipped by the loop (`continue`). The
other channels write no modelled field. -/
def channelLoop (w now : ℕ) (reads : List (ℕ × ℚ)) (s : BreathController) :
    BreathController :=
  reads.foldl (fun st r => if r.1 = 2 then st else pressureChannel w now r.1 r.2 st) s

/-- `BreathController::update`, restricted to the controller state modelled here. `mux`
says whether a multiplexer is attached (without one the function returns at once). After
the channel loop, the gas, oxygen and display sections write no modelled field; the last
statement advances `storeIndex`. -/
def update (w now : ℕ) (mux : Bool) (reads : List (ℕ × ℚ)) (s : BreathController) :
    BreathController :=
  if !mux then s
  else
    { channelLoop w now reads s with
      storeIndex := ((channelLoop w now reads s).storeIndex + 1) % STORE_SIZE }

/-- Successive completed `update()` ticks (multiplexer attached); each input is the
`millis()` reading and the pressure reads of that tick. -/
def updateRun (w : ℕ) (s : BreathController) : List (ℕ × List (ℕ × ℚ)) → BreathController
  | [] => s
  | (now, reads) :: rest => updateRun w (update w now true reads s) rest

/-- Position of a state within the breath cycle EXHALE, INHALE, PEAK (TROUGH, which only
leads to INHALE, counts like EXHALE). -/
def phaseRank : BreathState → ℤ
  | EXHALE => 0
  | INHALE => 1
  | PEAK => 2
  | TROUGH => 0

/-- Number of transitions a controller is credited with: three per counted breath plus
the position within the current cycle. -/
def breathProgress (s : BreathController) : ℤ :=
  3 * s.breathCount + phaseRank s.currentState

/-! ## Machine arithmetic

The definitions above read `float` and `int` as exact numbers. The definitions of this
section read the same source lines in the arithmetic the program runs in: every `float`
operation rounds its exact result to IEEE 754 single precision, every `double` operation
to double precision (round to nearest, ties to even, gradual underflow), and `int`
increments wrap modulo `2 ^ 32`. An operand of mixed type is promoted as C++ prescribes:
an `int` or `float` operand of a `double` operation is converted exactly, and the result
of a `double` expression assigned to a `float` is rounded once more. A name ending in `F`
is the machine-arithmetic reading of the function of the same name, with the same control
flow and the same writes. Values are finite rationals: overflow to an infinity and NaN as
an arithmetic result are not represented. -/

/-- Round to the nearest integer, ties to the even one. -/
def roundNE (y : ℚ) : ℤ :=
  if y - ⌊y⌋ < 1 / 2 then ⌊y⌋
  else if 1 / 2 < y - ⌊y⌋ then ⌊y⌋ + 1
  else if ⌊y⌋ % 2 = 0 then ⌊y⌋
  else ⌊y⌋ + 1

/-- Round `x` to the nearest binary floating-point number with `prec` significand bits and
least normal exponent `emin`: the significand is `x` scaled by the power of two that
belongs to the binade of `x` (to the subnormal spacing below `2 ^ emin`), rounded to an
integer, ties to even. -/
def flRound (prec : ℕ) (emin : ℤ) (x : ℚ) : ℚ :=
  if x = 0 then 0
  else
    let q := max (Int.log 2 |x|) emin + 1 - prec
    roundNE (x / 2 ^ q) * 2 ^ q

/-- Rounding to `float` (IEEE 754 binary32). -/
def fl32 (x : ℚ) : ℚ := flRound 24 (-126) x

/-- Rounding to `double` (IEEE 754 binary64). -/
def fl64 (x : ℚ) : ℚ := flRound 53 (-1022) x

/-- The value of an `int` expression: reduction into `[-2 ^ 31, 2 ^ 31)` modulo `2 ^ 32`
(the C++ standard leaves signed overflow undefined; two's-complement targets wrap). -/
def wrapInt32 (n : ℤ) : ℤ := (n + 2 ^ 31) % 2 ^ 32 - 2 ^ 31

/-- `constexpr float EWMA_ALPHA = 0.3;`: the `double` literal converted to `float`. -/
def EWMA_ALPHA_F : ℚ := fl32 (fl64 0.3)

/-- The summation loop of `applyMovingAverage` with `float sum`: `sum += pressureHistory[i]`
rounds after every addition, in slot order. -/
def sumValidF (hist : List (Option ℚ)) : ℚ × ℕ :=
  (List.range FILTER_WINDOW).foldl
    (fun acc i =>
      match hist.getD i none with
      | some v => (fl32 (acc.1 + v), acc.2 + 1)
      | none => acc)
    (0, 0)

/-- `BreathController::applyMovingAverage` in machine arithmetic: `sum / count` is a
`float` division. -/
def applyMovingAverageF (newValue : ℚ) (s : BreathController) : ℚ × BreathController :=
  let hist := s.pressureHistory.set s.historyIndex (some newValue)
  let idx := (s.historyIndex + 1) % FILTER_WINDOW
  let acc := sumValidF hist
  (if acc.2 > 0 then fl32 (acc.1 / acc.2) else newValue,
   { s with pressureHistory := hist, historyIndex := idx })

/-- `BreathController::applyEWMA` in machine arithmetic: `1 - EWMA_ALPHA`, the two products
and their sum are `float` operations. -/
def applyEWMAF (newValue : ℚ) (s : BreathController) : ℚ × BreathController :=
  if !s.isFilterInitialized then
    (newValue, { s with filteredPressure := newValue, isFilterInitialized := true })
  else
    let f := fl32 (fl32 (EWMA_ALPHA_F * newValue)
      + fl32 (fl32 (1 - EWMA_ALPHA_F) * s.filteredPressure))
    (f, { s with filteredPressure := f })

/-- `BreathController::detectBreathState` in machine arithmetic. The guards compare
`pressure` with the `float` sum `lastPressure + pressureThreshold` and the `float`
difference `lastPressure - pressureThreshold`; the breath period is blended in `double`
(the literals `0.8` and `0.2` are `double`, the `unsigned long` difference is converted to
`double`) and stored as `float`; `breathCount++` is an `int` increment. -/
def detectBreathStateF (w now : ℕ) (pressure : ℚ) (s : BreathController) :
    BreathState × BreathController :=
  match s.firstCall, s.lastPressure with
  | true, _ => (s.currentState, { s with lastPressure := some pressure, firstCall := false })
  | false, none => (s.currentState, { s with lastPressure := some pressure, firstCall := false })
  | false, some lastP =>
    match s.currentState with
    | EXHALE =>
      if pressure > fl32 (lastP + s.pressureThreshold) then
        (INHALE, { s with minPressure := pressure, lastPressure := some pressure })
      else (EXHALE, { s with lastPressure := some pressure })
    | INHALE =>
      if pressure < lastP then
        (PEAK, { s with maxPressure := pressure, lastPressure := some pressure })
      else (INHALE, { s with lastPressure := some pressure })
    | PEAK =>
      if pressure < fl32 (lastP - s.pressureThreshold) then
        let currentTime := now
        let period :=
          if s.lastBreathTime > 0 then
            fl32 (fl64 (fl64 (fl64 0.8 * s.breathPeriod)
              + fl64 (fl64 0.2 * fl64 (ulongSub w currentTime s.lastBreathTime : ℚ))))
          else s.breathPeriod
        (EXHALE, { s with breathPeriod := period, lastBreathTime := currentTime,
                          breathCount := wrapInt32 (s.breathCount + 1),
                          lastPressure := some pressure })
      else (PEAK, { s with lastPressure := some pressure })
    | TROUGH =>
      if pressure > lastP then (INHALE, { s with lastPressure := some pressure })
      else (TROUGH, { s with lastPressure := some pressure })

/-- The classifier call as made in `update()`, in machine arithmetic. -/
def classifyF (w now : ℕ) (pressure : ℚ) (s : BreathController) : BreathController :=
  let r := detectBreathStateF w now pressure s
  { r.2 with currentState := r.1 }

/-- The accumulation loop of `adaptiveModelAdjustment` with `float avgPressureDiff`: every
`avgPressureDiff += fabs(storedPressures[i])` rounds, slot 0 first, and so does the final
`avgPressureDiff /= STORE_SIZE`. `fabs` is exact; with its `double` overload the sum of
the two `float` values is formed in `double` and converted back, which gives the same
`float` as the single rounding written here. -/
def avgPressureDiffF (stored : List ℚ) : ℚ :=
  fl32 ((List.range STORE_SIZE).foldl (fun acc i => fl32 (acc + |stored.getD i 0|)) 0
    / STORE_SIZE)

/-- The body of the `if` of `adaptiveModelAdjustment` in machine arithmetic. The literals
are `double`, so the two tests and the four products are `double` operations on the
promoted `float` operands; each compound assignment converts its product back to `float`.
The clamps compare with the `double` bounds and the assignment converts the result to
`float`, so a threshold at the lower bound is stored as the `float` nearest to `0.2`.
(The `float` overload of `constrain` returns the same values on `float` arguments.) -/
def rescaleF (s : BreathController) : BreathController :=
  let avg := avgPressureDiffF s.storedPressures
  let scaled : ℚ × ℚ :=
    if avg > fl64 (fl64 1.5 * s.pressureThreshold) then
      (fl32 (fl64 (s.pressureThreshold * fl64 1.1)), fl32 (fl64 (s.responseFactor * fl64 1.05)))
    else if avg < fl64 (fl64 0.7 * s.pressureThreshold) then
      (fl32 (fl64 (s.pressureThreshold * fl64 0.9)), fl32 (fl64 (s.responseFactor * fl64 0.95)))
    else (s.pressureThreshold, s.responseFactor)
  { s with pressureThreshold := fl32 (constrain scaled.1 (fl64 0.2) (fl64 2.0)),
           responseFactor := fl32 (constrain scaled.2 (fl64 0.5) (fl64 2.0)) }

/-- `BreathController::adaptiveModelAdjustment` in machine arithmetic. -/
def adaptiveModelAdjustmentF (s : BreathController) : BreathController :=
  if s.breathCount.tmod ADAPT_CYCLES = 0 then rescaleF s else s

/-- Successive classifier calls in machine arithmetic; inputs and result as for
`classifyRun`. -/
def classifyRunF (w : ℕ) (s : BreathController) : List (ℕ × ℚ) → List BreathController
  | [] => []
  | (now, p) :: rest => classifyF w now p s :: classifyRunF w (classifyF w now p s) rest

/-- The controller after the whole input sequence of `classifyRunF`. -/
def classifyFinalF (w : ℕ) (s : BreathController) : List (ℕ × ℚ) → BreathController
  | [] => s
  | (now, p) :: rest => classifyFinalF w (classifyF w now p s) rest

/-- Successive classifier calls in machine arithmetic with the threshold in force given
per call; inputs and result as for `classifyRunWith`. -/
def classifyRunWithF (w : ℕ) (s : BreathController) :
    List (ℕ × ℚ × ℚ) → List BreathController
  | [] => []
  | (now, p, t) :: rest =>
    classifyF w now p { s with pressureThreshold := t } ::
      classifyRunWithF w (classifyF w now p { s with pressureThreshold := t }) rest

/-- Successive `applyMovingAverage` calls in machine arithmetic: the values returned, in
call order, and the controller after the last call. -/
def movingAverageRunF (s : BreathController) : List ℚ → List ℚ × BreathController
  | [] => ([], s)
  | x :: xs =>
    ((applyMovingAverageF x s).1 :: (movingAverageRunF (applyMovingAverageF x s).2 xs).1,
     (movingAverageRunF (applyMovingAverageF x s).2 xs).2)

/-- The two-stage filter of `update()` in machine arithmetic. -/
def filterStepF (pressure_kpa : ℚ) (s : BreathController) : ℚ × BreathController :=
  applyEWMAF (applyMovingAverageF pressure_kpa s).1 (applyMovingAverageF pressure_kpa s).2

/-- Successive `filterStepF` calls, one per raw sample: the filtered values, in call order,
and the controller after the last call. -/
def filterRunF (s : BreathController) : List ℚ → List ℚ × BreathController
  | [] => ([], s)
  | x :: xs =>
    ((filterStepF x s).1 :: (filterRunF (filterStepF x s).2 xs).1,
     (filterRunF (filterStepF x s).2 xs).2)

/-- The `float` sum of a list taken front to back from `0`, rounding after every
addition. -/
def floatSum (l : List ℚ) : ℚ := l.foldl (fun acc v => fl32 (acc + v)) 0

/-- Bound on the error of one rounding to `float` of a value of magnitude at most `M`:
half a unit in the last place relative to `M`, or half the subnormal spacing. -/
def roundSlack (M : ℚ) : ℚ := M / 2 ^ 24 + 1 / 2 ^ 150

/-! ## Predicates used in the statements -/

/-- The parameter bounds the tuner is meant to maintain. -/
def ParamsInBounds (s : BreathController) : Prop :=
  0.2 ≤ s.pressureThreshold ∧ s.pressureThreshold ≤ 2.0 ∧
  0.5 ≤ s.responseFactor ∧ s.responseFactor ≤ 2.0

/-- The ring buffer is full and `a, b, c, d, e` are the last five samples written, oldest
first: the slot at `historyIndex`, the next one to be overwritten, holds the oldest. -/
def RingFull (s : BreathController) (a b c d e : ℚ) : Prop :=
  (s.historyIndex = 0 ∧ s.pressureHistory = [some a, some b, some c, some d, some e]) ∨
  (s.historyIndex = 1 ∧ s.pressureHistory = [some e, some a, some b, some c, some d]) ∨
  (s.historyIndex = 2 ∧ s.pressureHistory = [some d, some e, some a, some b, some c]) ∨
  (s.historyIndex = 3 ∧ s.pressureHistory = [some c, some d, some e, some a, some b]) ∨
  (s.historyIndex = 4 ∧ s.pressureHistory = [some b, some c, some d, some e, some a])

/-- Every sample of `ps` is related by `R` to the sample before it, the sample before
the first one being the controller's stored previous pressure when the controller is
past its seed call (otherwise the first sample only seeds). -/
def Gradual (R : ℚ → ℚ → Prop) (s : BreathController) (ps : List ℚ) : Prop :=
  match s.firstCall, s.lastPressure with
  | false, some l => List.Chain R l ps
  | _, _ => List.Chain' R ps

/-- Every populated history slot, and the EWMA state once initialised, lies in `[lo, hi]`. -/
def FilterWithin (lo hi : ℚ) (s : BreathController) : Prop :=
  (∀ v, some v ∈ s.pressureHistory → lo ≤ v ∧ v ≤ hi) ∧
  (s.isFilterInitialized = true → lo ≤ s.filteredPressure ∧ s.filteredPressure ≤ hi)

/-- Every populated history slot lies in `[lo, hi]` and the EWMA state, once initialised,
lies in `[lo - ε, hi + ε]`. -/
def FilterNear (lo hi ε : ℚ) (s : BreathController) : Prop :=
  (∀ v, some v ∈ s.pressureHistory → lo ≤ v ∧ v ≤ hi) ∧
  (s.isFilterInitialized = true →
    lo - ε ≤ s.filteredPressure ∧ s.filteredPressure ≤ hi + ε)

/-! ## Basic facts -/

theorem constrain_ge {lo hi : ℚ} (v : ℚ) (h : lo ≤ hi) : lo ≤ constrain v lo hi := by
  unfold constrain
  split_ifs with h1 h2
  · exact le_refl lo
  · exact h
  · exact not_lt.mp h1

theorem constrain_le {lo hi : ℚ} (v : ℚ) (h : lo ≤ hi) : constrain v lo hi ≤ hi := by
  unfold constrain
  split_ifs with h1 h2
  · exact h
  · exact le_refl hi
  · exact not_lt.mp h2

theorem adaptiveModelAdjustment_bounds (s : BreathController) (h : ParamsInBounds s) :
    ParamsInBounds (adaptiveModelAdjustment s) := by
  unfold adaptiveModelAdjustment
  split_ifs with hc
  · refine ⟨constrain_ge _ (by norm_num), constrain_le _ (by norm_num),
      constrain_ge _ (by norm_num), constrain_le _ (by norm_num)⟩
  · exact h

theorem tunerRun_bounds (inputs : List (List ℚ × ℤ)) :
    ∀ s : BreathController, ParamsInBounds s → ParamsInBounds (tunerRun s inputs) := by
  induction inputs with
  | nil => intro s h; exact h
  | cons x rest ih =>
    intro s h
    obtain ⟨hist, n⟩ := x
    exact ih _ (adaptiveModelAdjustment_bounds _ h)

/-! ### Classifier: one lemma per branch of `detectBreathState` -/

theorem detect_first (w now : ℕ) (p : ℚ) (s : BreathController) (h : s.firstCall = true) :
    detectBreathState w now p s
      = (s.currentState, { s with lastPressure := some p, firstCall := false }) := by
  unfold detectBreathState
  simp [h]

theorem detect_exhale (w now : ℕ) (p prevP : ℚ) (s : BreathController)
    (hf : s.firstCall = false) (hl : s.lastPressure = some prevP)
    (hs : s.currentState = EXHALE) :
    detectBreathState w now p s
      = if p > prevP + s.pressureThreshold then
          (INHALE, { s with minPressure := p, lastPressure := some p })
        else (EXHALE, { s with lastPressure := some p }) := by
  unfold detectBreathState
  simp [hf, hl, hs]

theorem detect_inhale (w now : ℕ) (p prevP : ℚ) (s : BreathController)
    (hf : s.firstCall = false) (hl : s.lastPressure = some prevP)
    (hs : s.currentState = INHALE) :
    detectBreathState w now p s
      = if p < prevP then
          (PEAK, { s with maxPressure := p, lastPressure := some p })
        else (INHALE, { s with lastPressure := some p }) := by
  unfold detectBreathState
  simp [hf, hl, hs]

theorem detect_peak (w now : ℕ) (p prevP : ℚ) (s : BreathController)
    (hf : s.firstCall = false) (hl : s.lastPressure = some prevP)
    (hs : s.currentState = PEAK) :
    detectBreathState w now p s
      = if p < prevP - s.pressureThreshold then
          (EXHALE,
            { s with
              breathPeriod :=
                if s.lastBreathTime > 0 then
                  0.8 * s.breathPeriod + 0.2 * (ulongSub w now s.lastBreathTime : ℚ)
                else s.breathPeriod,
              lastBreathTime := now,
              breathCount := s.breathCount + 1,
              lastPressure := some p })
        else (PEAK, { s with lastPressure := some p }) := by
  unfold detectBreathState
  simp [hf, hl, hs]

theorem detect_trough (w now : ℕ) (p prevP : ℚ) (s : BreathController)
    (hf : s.firstCall = false) (hl : s.lastPressure = some prevP)
    (hs : s.currentState = TROUGH) :
    detectBreathState w now p s
      = if p > prevP then (INHALE, { s with lastPressure := some p })
        else (TROUGH, { s with lastPressure := some p }) := by
  unfold detectBreathState
  simp [hf, hl, hs]

/-- The seed path is also taken when `lastPressure` is NaN. -/
theorem detect_nan (w now : ℕ) (p : ℚ) (s : BreathController) (h : s.lastPressure = none) :
    detectBreathState w now p s
      = (s.currentState, { s with lastPressure := some p, firstCall := false }) := by
  unfold detectBreathState
  cases hf : s.firstCall <;> simp [h]

theorem classify_currentState (w now : ℕ) (p : ℚ) (s : BreathController) :
    (classify w now p s).currentState = (detectBreathState w now p s).1 := rfl

theorem peakExhaleEdges_inhale_run (a : ℕ) (l : List BreathState) :
    peakExhaleEdges (INHALE :: (List.replicate a INHALE ++ l)) = peakExhaleEdges (INHALE :: l) := by
  induction a with
  | zero => simp
  | succ n ih =>
    rw [List.replicate_succ, List.cons_append, peakExhaleEdges, ih]
    simp

theorem peakExhaleEdges_peak_run (b : ℕ) :
    peakExhaleEdges (PEAK :: (List.replicate b PEAK ++ [EXHALE])) = 1 := by
  induction b with
  | zero => simp [peakExhaleEdges]
  | succ n ih =>
    rw [List.replicate_succ, List.cons_append, peakExhaleEdges, ih]
    simp

theorem peakExhaleEdges_cycle (a b : ℕ) :
    peakExhaleEdges
      (EXHALE :: (List.replicate (a + 1) INHALE ++ (List.replicate (b + 1) PEAK ++ [EXHALE])))
      = 1 := by
  rw [List.replicate_succ, List.cons_append, peakExhaleEdges, peakExhaleEdges_inhale_run,
    List.replicate_succ, List.cons_append, peakExhaleEdges, peakExhaleEdges_peak_run]
  simp

/-! ### Valve controller -/

theorem controlValve_inhale (s : BreathController) (hs : s.currentState = INHALE) :
    (controlValve s).valveOpening
      = constrain (s.valveOpening + 10 * s.responseFactor) 0 (MAX_VALVE_OPEN * s.assistLevel) := by
  unfold controlValve
  simp [hs]

theorem constrain_eq_max_min {lo hi : ℚ} (v : ℚ) (h : lo ≤ hi) :
    constrain v lo hi = max lo (min v hi) := by
  unfold constrain
  split_ifs with h1 h2
  · rw [max_eq_left]
    exact le_trans (min_le_left _ _) (le_of_lt h1)
  · rw [min_eq_right (le_of_lt h2), max_eq_right h]
  · rw [min_eq_left (not_lt.mp h2), max_eq_right (not_lt.mp h1)]

/-! ### Tuner -/

theorem map_range_getD_abs (l : List ℚ) :
    (List.range l.length).map (fun i => |l.getD i 0|) = l.map (fun v => |v|) := by
  apply List.ext_getElem
  · simp
  · intro i h1 h2
    have hi : i < l.length := by simpa using h2
    simp [List.getElem?_eq_getElem hi]

/-- Gate closed: nothing is written. -/
theorem adaptiveModelAdjustment_closed (s : BreathController)
    (hc : s.breathCount.tmod ADAPT_CYCLES ≠ 0) : adaptiveModelAdjustment s = s := by
  unfold adaptiveModelAdjustment
  rw [if_neg hc]

/-! ### Valve controller: remaining branches and the command bound -/

theorem controlValve_exhale (s : BreathController) (hs : s.currentState = EXHALE) :
    controlValve s = { s with valveOpening := constrain (s.valveOpening - 20) 0 MAX_VALVE_OPEN } := by
  unfold controlValve
  simp [hs]

theorem controlValve_peak (s : BreathController) (hs : s.currentState = PEAK) :
    controlValve s = s := by
  unfold controlValve
  simp [hs]

theorem controlValve_trough (s : BreathController) (hs : s.currentState = TROUGH) :
    controlValve s = { s with valveOpening := 0 } := by
  unfold controlValve
  simp [hs]

/-- One step keeps the command in `[0, MAX_VALVE_OPEN]` when the assist level is in `[0, 1]`. -/
theorem controlValve_bounds (s : BreathController)
    (h0 : 0 ≤ s.valveOpening) (h1 : s.valveOpening ≤ MAX_VALVE_OPEN)
    (ha0 : 0 ≤ s.assistLevel) (ha1 : s.assistLevel ≤ 1) :
    0 ≤ (controlValve s).valveOpening ∧ (controlValve s).valveOpening ≤ MAX_VALVE_OPEN := by
  have hmax : (0 : ℚ) ≤ MAX_VALVE_OPEN := by norm_num [MAX_VALVE_OPEN]
  cases hs : s.currentState with
  | INHALE =>
    rw [controlValve_inhale s hs]
    have hhi : (0 : ℚ) ≤ MAX_VALVE_OPEN * s.assistLevel := mul_nonneg hmax ha0
    refine ⟨constrain_ge _ hhi, le_trans (constrain_le _ hhi) ?_⟩
    calc MAX_VALVE_OPEN * s.assistLevel ≤ MAX_VALVE_OPEN * 1 :=
          mul_le_mul_of_nonneg_left ha1 hmax
      _ = MAX_VALVE_OPEN := mul_one _
  | EXHALE =>
    rw [controlValve_exhale s hs]
    exact ⟨constrain_ge _ hmax, constrain_le _ hmax⟩
  | PEAK =>
    rw [controlValve_peak s hs]
    exact ⟨h0, h1⟩
  | TROUGH =>
    rw [controlValve_trough s hs]
    exact ⟨le_refl _, hmax⟩

theorem valveRun_bounds (inputs : List (BreathState × ℚ × ℚ)) :
    ∀ s : BreathController, 0 ≤ s.valveOpening → s.valveOpening ≤ MAX_VALVE_OPEN →
      (∀ x ∈ inputs, 0 ≤ x.2.2 ∧ x.2.2 ≤ 1) →
      ∀ c ∈ valveRun s inputs, 0 ≤ c.valveOpening ∧ c.valveOpening ≤ MAX_VALVE_OPEN := by
  induction inputs with
  | nil => intro s _ _ _ c hc; simp [valveRun] at hc
  | cons x rest ih =>
    intro s h0 h1 ha c hc
    obtain ⟨st, r, a⟩ := x
    have hx := ha (st, r, a) (List.mem_cons_self _ _)
    have hstep := controlValve_bounds
      { s with currentState := st, responseFactor := r, assistLevel := a } h0 h1 hx.1 hx.2
    simp only [valveRun, List.mem_cons] at hc
    rcases hc with hc | hc
    · rw [hc]; exact hstep
    · exact ih _ hstep.1 hstep.2 (fun y hy => ha y (List.mem_cons_of_mem _ hy)) c hc

/-! ### Breath period -/

/-- TROUGH is returned only when it was already the current state. -/
theorem detect_trough_only_from_trough (w now : ℕ) (p : ℚ) (s : BreathController)
    (h : (detectBreathState w now p s).1 = TROUGH) : s.currentState = TROUGH := by
  unfold detectBreathState at h
  split at h
  · exact h
  · exact h
  · split at h <;> split_ifs at h
    assumption

theorem classifyRunWith_no_trough (w : ℕ) (inputs : List (ℕ × ℚ × ℚ)) :
    ∀ s : BreathController, s.currentState ≠ TROUGH →
      ∀ c ∈ classifyRunWith w s inputs, c.currentState ≠ TROUGH := by
  induction inputs with
  | nil => intro s _ c hc; simp [classifyRunWith] at hc
  | cons x rest ih =>
    intro s hs c hc
    obtain ⟨now, p, t⟩ := x
    have hstep : (classify w now p { s with pressureThreshold := t }).currentState ≠ TROUGH := by
      intro h
      exact hs (detect_trough_only_from_trough w now p { s with pressureThreshold := t } h)
    simp only [classifyRunWith, List.mem_cons] at hc
    rcases hc with hc | hc
    · rw [hc]; exact hstep
    · exact ih _ hstep c hc

/-- The classifier does not write the control parameters. -/
theorem detect_params (w now : ℕ) (p : ℚ) (s : BreathController) :
    (detectBreathState w now p s).2.pressureThreshold = s.pressureThreshold ∧
    (detectBreathState w now p s).2.responseFactor = s.responseFactor := by
  unfold detectBreathState
  split
  · exact ⟨rfl, rfl⟩
  · exact ⟨rfl, rfl⟩
  · split <;> split_ifs <;> exact ⟨rfl, rfl⟩

/-! ### Moving average on a full ring buffer -/

theorem range_filter_window : List.range FILTER_WINDOW = [0, 1, 2, 3, 4] := by decide

/-- One call on a full buffer: the oldest sample is replaced and the mean of the five
newest samples is returned. -/
theorem applyMovingAverage_full (f a b c d e : ℚ) (s : BreathController)
    (h : RingFull s a b c d e) :
    (applyMovingAverage f s).1 = (b + c + d + e + f) / 5 ∧
    RingFull (applyMovingAverage f s).2 b c d e f := by
  unfold RingFull at h
  rcases h with ⟨hi, hh⟩ | ⟨hi, hh⟩ | ⟨hi, hh⟩ | ⟨hi, hh⟩ | ⟨hi, hh⟩
  all_goals
    constructor
    · simp [applyMovingAverage, sumValid, range_filter_window, hi, hh] <;> ring
    · unfold RingFull
      simp [applyMovingAverage, hi, hh, FILTER_WINDOW]

theorem movingAverageRun_length (xs : List ℚ) :
    ∀ s : BreathController, (movingAverageRun s xs).1.length = xs.length := by
  induction xs with
  | nil => intro s; rfl
  | cons x rest ih => intro s; simp [movingAverageRun, ih]

/-- On a full buffer the last value returned by a non-empty run is the mean of the last
five samples of the whole history. -/
theorem movingAverageRun_full (ys : List ℚ) :
    ∀ (s : BreathController) (a b c d e : ℚ), RingFull s a b c d e → ys ≠ [] →
      (movingAverageRun s ys).1.getLast?
        = some (((a :: b :: c :: d :: e :: ys).drop ys.length).sum / 5) := by
  induction ys with
  | nil => intro s a b c d e _ h; exact absurd rfl h
  | cons y rest ih =>
    intro s a b c d e hfull _
    obtain ⟨hout, hnext⟩ := applyMovingAverage_full y a b c d e s hfull
    cases rest with
    | nil =>
      simp [movingAverageRun, hout]
      ring
    | cons y' rest' =>
      have hih := ih (applyMovingAverage y s).2 b c d e y hnext (List.cons_ne_nil _ _)
      rw [movingAverageRun]
      have hne : (movingAverageRun (applyMovingAverage y s).2 (y' :: rest')).1 ≠ [] := by
        intro h0
        have := movingAverageRun_length (y' :: rest') (applyMovingAverage y s).2
        rw [h0] at this
        simp at this
      obtain ⟨o, os, hos⟩ := List.exists_cons_of_ne_nil hne
      rw [hos, List.getLast?_cons_cons, ← hos, hih]
      simp

theorem movingAverageRun_getLast_cons (x : ℚ) (ys : List ℚ) (s : BreathController)
    (h : ys ≠ []) :
    (movingAverageRun s (x :: ys)).1.getLast?
      = (movingAverageRun (applyMovingAverage x s).2 ys).1.getLast? := by
  rw [movingAverageRun]
  have hne : (movingAverageRun (applyMovingAverage x s).2 ys).1 ≠ [] := by
    intro h0
    have hl := movingAverageRun_length ys (applyMovingAverage x s).2
    rw [h0] at hl
    exact h (List.length_eq_zero.mp hl.symm)
  obtain ⟨o, os, hos⟩ := List.exists_cons_of_ne_nil hne
  rw [hos, List.getLast?_cons_cons]

/-- Five calls on a freshly constructed filter fill the buffer. -/
theorem ringFull_after_five (s : BreathController) (x1 x2 x3 x4 x5 : ℚ)
    (hh : s.pressureHistory = List.replicate FILTER_WINDOW none) (hi : s.historyIndex = 0) :
    RingFull
      (applyMovingAverage x5 (applyMovingAverage x4 (applyMovingAverage x3
        (applyMovingAverage x2 (applyMovingAverage x1 s).2).2).2).2).2
      x1 x2 x3 x4 x5 := by
  unfold RingFull
  left
  simp [applyMovingAverage, hh, hi, FILTER_WINDOW]

/-- From a freshly constructed filter, the last value returned by a run of at least five
calls is the mean of the last five samples. -/
theorem movingAverageRun_steady (s : BreathController) (xs : List ℚ)
    (hh : s.pressureHistory = List.replicate FILTER_WINDOW none) (hi : s.historyIndex = 0)
    (h5 : 5 ≤ xs.length) :
    (movingAverageRun s xs).1.getLast? = some ((xs.drop (xs.length - 5)).sum / 5) := by
  match xs, h5 with
  | [], h => simp at h
  | [_], h => simp at h
  | [_, _], h => simp at h
  | [_, _, _], h => simp at h
  | [_, _, _, _], h => simp at h
  | [x1, x2, x3, x4, x5], _ =>
    have hr : List.range 5 = [0, 1, 2, 3, 4] := by decide
    simp [movingAverageRun, applyMovingAverage, sumValid, hh, hi, FILTER_WINDOW, hr]
    ring
  | x1 :: x2 :: x3 :: x4 :: x5 :: y :: ys, _ =>
    rw [movingAverageRun_getLast_cons _ _ _ (List.cons_ne_nil _ _),
      movingAverageRun_getLast_cons _ _ _ (List.cons_ne_nil _ _),
      movingAverageRun_getLast_cons _ _ _ (List.cons_ne_nil _ _),
      movingAverageRun_getLast_cons _ _ _ (List.cons_ne_nil _ _),
      movingAverageRun_getLast_cons _ _ _ (List.cons_ne_nil _ _),
      movingAverageRun_full (y :: ys) _ x1 x2 x3 x4 x5
        (ringFull_after_five s x1 x2 x3 x4 x5 hh hi) (List.cons_ne_nil _ _)]
    simp

/-! ### The classifier call with its assignment, one lemma per branch -/

theorem classify_first (w now : ℕ) (p : ℚ) (s : BreathController) (h : s.firstCall = true) :
    classify w now p s = { s with lastPressure := some p, firstCall := false } := by
  unfold classify
  rw [detect_first w now p s h]

theorem classify_exhale (w now : ℕ) (p prevP : ℚ) (s : BreathController)
    (hf : s.firstCall = false) (hl : s.lastPressure = some prevP)
    (hs : s.currentState = EXHALE) :
    classify w now p s
      = if p > prevP + s.pressureThreshold then
          { s with currentState := INHALE, minPressure := p, lastPressure := some p }
        else { s with lastPressure := some p } := by
  unfold classify
  rw [detect_exhale w now p prevP s hf hl hs]
  split_ifs
  · rfl
  · simp only [hs]

theorem classify_inhale (w now : ℕ) (p prevP : ℚ) (s : BreathController)
    (hf : s.firstCall = false) (hl : s.lastPressure = some prevP)
    (hs : s.currentState = INHALE) :
    classify w now p s
      = if p < prevP then
          { s with currentState := PEAK, maxPressure := p, lastPressure := some p }
        else { s with lastPressure := some p } := by
  unfold classify
  rw [detect_inhale w now p prevP s hf hl hs]
  split_ifs
  · rfl
  · simp only [hs]

theorem classify_peak (w now : ℕ) (p prevP : ℚ) (s : BreathController)
    (hf : s.firstCall = false) (hl : s.lastPressure = some prevP)
    (hs : s.currentState = PEAK) :
    classify w now p s
      = if p < prevP - s.pressureThreshold then
          { s with
            currentState := EXHALE,
            breathPeriod :=
              if s.lastBreathTime > 0 then
                0.8 * s.breathPeriod + 0.2 * (ulongSub w now s.lastBreathTime : ℚ)
              else s.breathPeriod,
            lastBreathTime := now,
            breathCount := s.breathCount + 1,
            lastPressure := some p }
        else { s with lastPressure := some p } := by
  unfold classify
  rw [detect_peak w now p prevP s hf hl hs]
  split_ifs <;> first | rfl | simp only [hs]

theorem classify_trough (w now : ℕ) (p prevP : ℚ) (s : BreathController)
    (hf : s.firstCall = false) (hl : s.lastPressure = some prevP)
    (hs : s.currentState = TROUGH) :
    classify w now p s
      = if p > prevP then { s with currentState := INHALE, lastPressure := some p }
        else { s with lastPressure := some p } := by
  unfold classify
  rw [detect_trough w now p prevP s hf hl hs]
  split_ifs
  · rfl
  · simp only [hs]

/-! ### One inhale: from the call after the EXHALE to INHALE transition to the PEAK call -/

theorem classifyRunWith_cons (w now : ℕ) (p t : ℚ) (s : BreathController)
    (rest : List (ℕ × ℚ × ℚ)) :
    classifyRunWith w s ((now, p, t) :: rest)
      = classify w now p { s with pressureThreshold := t } ::
          classifyRunWith w (classify w now p { s with pressureThreshold := t }) rest := rfl

theorem classifyRunWith_length (w : ℕ) (inputs : List (ℕ × ℚ × ℚ)) :
    ∀ s : BreathController, (classifyRunWith w s inputs).length = inputs.length := by
  induction inputs with
  | nil => intro s; rfl
  | cons x rest ih =>
    intro s
    obtain ⟨now, p, t⟩ := x
    rw [classifyRunWith_cons, List.length_cons, ih, List.length_cons]

/-- A run that stays in INHALE for the calls of `mid` and reaches PEAK on the call `last`:
the samples of `mid` are at or above the stored previous pressure `l`, `minPressure` is
not written, `maxPressure` becomes the pressure of `last`, and that pressure is below the
pressure of the call before it. -/
theorem inhale_run (w : ℕ) (last : ℕ × ℚ × ℚ) (mid : List (ℕ × ℚ × ℚ)) :
    ∀ (s fin : BreathController) (l : ℚ),
      s.currentState = INHALE → s.firstCall = false → s.lastPressure = some l →
      (classifyRunWith w s (mid ++ [last])).map BreathController.currentState
        = List.replicate mid.length INHALE ++ [PEAK] →
      (classifyRunWith w s (mid ++ [last])).getLast? = some fin →
      (∀ x ∈ mid, l ≤ x.2.1) ∧ fin.minPressure = s.minPressure ∧
      fin.maxPressure = last.2.1 ∧
      (∀ prev, (l :: mid.map (fun x => x.2.1)).getLast? = some prev → last.2.1 < prev) := by
  induction mid with
  | nil =>
    intro s fin l hs hf hl htrace hfin
    obtain ⟨now, p, t⟩ := last
    have hstep := classify_inhale w now p l { s with pressureThreshold := t } hf hl hs
    rw [List.nil_append, classifyRunWith_cons] at htrace hfin
    generalize classify w now p { s with pressureThreshold := t } = s1 at hstep htrace hfin
    simp only [classifyRunWith, List.map_cons, List.map_nil, List.length_nil,
      List.replicate_zero, List.nil_append, List.getLast?_singleton, List.cons.injEq,
      and_true, Option.some.injEq] at htrace hfin
    subst hfin
    by_cases hp : p < l
    · rw [if_pos hp] at hstep
      subst hstep
      refine ⟨by simp, rfl, rfl, ?_⟩
      intro prev hprev
      simp at hprev
      rw [← hprev]
      exact hp
    · rw [if_neg hp] at hstep
      subst hstep
      rw [show ({ s with pressureThreshold := t, lastPressure := some p }
        : BreathController).currentState = s.currentState from rfl, hs] at htrace
      exact absurd htrace (by decide)
  | cons x rest ih =>
    intro s fin l hs hf hl htrace hfin
    obtain ⟨now, p, t⟩ := x
    have hstep := classify_inhale w now p l { s with pressureThreshold := t } hf hl hs
    rw [List.cons_append, classifyRunWith_cons] at htrace hfin
    generalize classify w now p { s with pressureThreshold := t } = s1 at hstep htrace hfin
    rw [List.map_cons, List.length_cons, List.replicate_succ, List.cons_append] at htrace
    have hhead := (List.cons.inj htrace).1
    have htail := (List.cons.inj htrace).2
    have hne : classifyRunWith w s1 (rest ++ [last]) ≠ [] := by
      intro h0
      have hlen := classifyRunWith_length w (rest ++ [last]) s1
      rw [h0] at hlen
      simp at hlen
    obtain ⟨c, cs, hcs⟩ := List.exists_cons_of_ne_nil hne
    rw [hcs, List.getLast?_cons_cons, ← hcs] at hfin
    by_cases hp : p < l
    · rw [if_pos hp] at hstep
      subst hstep
      exact absurd hhead (by simp)
    · rw [if_neg hp] at hstep
      subst hstep
      obtain ⟨h1, h2, h3, h4⟩ :=
        ih { s with pressureThreshold := t, lastPressure := some p } fin p hs hf rfl htail hfin
      have hlp : l ≤ p := not_lt.mp hp
      refine ⟨?_, h2, h3, ?_⟩
      · intro y hy
        rcases List.mem_cons.mp hy with hy | hy
        · rw [hy]; exact hlp
        · exact le_trans hlp (h1 y hy)
      · intro prev hprev
        rw [List.map_cons, List.getLast?_cons_cons] at hprev
        exact h4 prev hprev

/-- On the seed path the state is returned unchanged. -/
theorem classify_seed_state (w now : ℕ) (p : ℚ) (s : BreathController)
    (h : s.firstCall = true ∨ s.lastPressure = none) :
    (classify w now p s).currentState = s.currentState := by
  rw [classify_currentState]
  rcases h with h | h
  · rw [detect_first w now p s h]
  · rw [detect_nan w now p s h]

/-! ### Lists related elementwise -/

theorem classify_store_frame (w now : ℕ) (p : ℚ) (s : BreathController) :
    (classify w now p s).storeIndex = s.storeIndex ∧
    (classify w now p s).storedPressures = s.storedPressures ∧
    (classify w now p s).basePressure = s.basePressure ∧
    (classify w now p s).isBaseSet = s.isBaseSet := by
  unfold classify detectBreathState
  split
  · exact ⟨rfl, rfl, rfl, rfl⟩
  · exact ⟨rfl, rfl, rfl, rfl⟩
  · split <;> split_ifs <;> exact ⟨rfl, rfl, rfl, rfl⟩

theorem controlValve_store_frame (s : BreathController) :
    (controlValve s).storeIndex = s.storeIndex ∧
    (controlValve s).storedPressures = s.storedPressures ∧
    (controlValve s).basePressure = s.basePressure ∧
    (controlValve s).isBaseSet = s.isBaseSet := by
  unfold controlValve
  split <;> exact ⟨rfl, rfl, rfl, rfl⟩

theorem adaptiveModelAdjustment_store_frame (s : BreathController) :
    (adaptiveModelAdjustment s).storeIndex = s.storeIndex ∧
    (adaptiveModelAdjustment s).storedPressures = s.storedPressures ∧
    (adaptiveModelAdjustment s).basePressure = s.basePressure ∧
    (adaptiveModelAdjustment s).isBaseSet = s.isBaseSet := by
  unfold adaptiveModelAdjustment
  split_ifs <;> exact ⟨rfl, rfl, rfl, rfl⟩

theorem controlTick_store_frame (w now : ℕ) (p : ℚ) (s : BreathController) :
    (controlTick w now p s).storeIndex = s.storeIndex ∧
    (controlTick w now p s).storedPressures = s.storedPressures ∧
    (controlTick w now p s).basePressure = s.basePressure ∧
    (controlTick w now p s).isBaseSet = s.isBaseSet := by
  unfold controlTick
  obtain ⟨a1, a2, a3, a4⟩ := classify_store_frame w now p s
  obtain ⟨b1, b2, b3, b4⟩ := controlValve_store_frame (classify w now p s)
  simp only []
  split_ifs
  · obtain ⟨c1, c2, c3, c4⟩ :=
      adaptiveModelAdjustment_store_frame (controlValve (classify w now p s))
    exact ⟨c1.trans (b1.trans a1), c2.trans (b2.trans a2), c3.trans (b3.trans a3),
      c4.trans (b4.trans a4)⟩
  · obtain ⟨c1, c2, c3, c4⟩ := adaptiveModelAdjustment_store_frame (classify w now p s)
    exact ⟨c1.trans a1, c2.trans a2, c3.trans a3, c4.trans a4⟩

theorem filterStep_store_frame (x : ℚ) (s : BreathController) :
    (filterStep x s).2.storeIndex = s.storeIndex ∧
    (filterStep x s).2.storedPressures = s.storedPressures ∧
    (filterStep x s).2.basePressure = s.basePressure ∧
    (filterStep x s).2.isBaseSet = s.isBaseSet := by
  unfold filterStep applyEWMA
  split_ifs <;> exact ⟨rfl, rfl, rfl, rfl⟩

/-- Effect of one pressure read on the deviation history and the baseline. -/
theorem pressureChannel_store (w now i : ℕ) (x : ℚ) (s : BreathController) :
    (pressureChannel w now i x s).storeIndex = s.storeIndex ∧
    (pressureChannel w now i x s).storedPressures
      = s.storedPressures.set s.storeIndex
          ((filterStep x s).1 - (if s.isBaseSet then s.basePressure else (filterStep x s).1)) ∧
    (pressureChannel w now i x s).basePressure
      = (if s.isBaseSet then s.basePressure else (filterStep x s).1) ∧
    (pressureChannel w now i x s).isBaseSet = true := by
  obtain ⟨f1, f2, f3, f4⟩ := filterStep_store_frame x s
  have key : ∀ (s4 : BreathController) (k : ℕ) (l : List ℚ) (b : ℚ),
      (s4.storeIndex = k ∧ s4.storedPressures = l ∧ s4.basePressure = b ∧
        s4.isBaseSet = true) →
      ((if i = 1 then controlTick w now (filterStep x s).1 s4 else s4).storeIndex = k ∧
        (if i = 1 then controlTick w now (filterStep x s).1 s4 else s4).storedPressures = l ∧
        (if i = 1 then controlTick w now (filterStep x s).1 s4 else s4).basePressure = b ∧
        (if i = 1 then controlTick w now (filterStep x s).1 s4 else s4).isBaseSet = true) := by
    intro s4 k l b h
    split_ifs
    · obtain ⟨c1, c2, c3, c4⟩ := controlTick_store_frame w now (filterStep x s).1 s4
      exact ⟨c1.trans h.1, c2.trans h.2.1, c3.trans h.2.2.1, c4.trans h.2.2.2⟩
    · exact h
  unfold pressureChannel
  simp only []
  apply key
  cases hb : s.isBaseSet with
  | false =>
    have h2 : (filterStep x s).2.isBaseSet = false := f4.trans hb
    simp [h2, f1, f2]
  | true =>
    have h2 : (filterStep x s).2.isBaseSet = true := f4.trans hb
    simp [h2, f1, f2, f3]

theorem channelLoop_storeIndex (w now : ℕ) (reads : List (ℕ × ℚ)) :
    ∀ s : BreathController, (channelLoop w now reads s).storeIndex = s.storeIndex := by
  induction reads with
  | nil => intro s; rfl
  | cons r rest ih =>
    intro s
    unfold channelLoop at ih ⊢
    rw [List.foldl_cons, ih]
    split_ifs
    · rfl
    · exact (pressureChannel_store w now r.1 r.2 s).1

/-- Once the baseline is set, the channel loop leaves it alone. -/
theorem channelLoop_base (w now : ℕ) (reads : List (ℕ × ℚ)) :
    ∀ s : BreathController, s.isBaseSet = true →
      (channelLoop w now reads s).isBaseSet = true ∧
      (channelLoop w now reads s).basePressure = s.basePressure := by
  induction reads with
  | nil => intro s h; exact ⟨h, rfl⟩
  | cons r rest ih =>
    intro s h
    unfold channelLoop at ih ⊢
    rw [List.foldl_cons]
    split_ifs
    · exact ih s h
    · obtain ⟨_, _, p3, p4⟩ := pressureChannel_store w now r.1 r.2 s
      obtain ⟨q1, q2⟩ := ih (pressureChannel w now r.1 r.2 s) p4
      refine ⟨q1, q2.trans ?_⟩
      rw [p3, if_pos h]

theorem update_storeIndex (w now : ℕ) (reads : List (ℕ × ℚ)) (s : BreathController) :
    (update w now true reads s).storeIndex = (s.storeIndex + 1) % STORE_SIZE := by
  unfold update
  simp [channelLoop_storeIndex]

theorem updateRun_storeIndex (w : ℕ) (ticks : List (ℕ × List (ℕ × ℚ))) :
    ∀ s : BreathController, s.storeIndex < 10 →
      (updateRun w s ticks).storeIndex = (s.storeIndex + ticks.length) % 10 := by
  induction ticks with
  | nil =>
    intro s h
    simp only [updateRun, List.length_nil, Nat.add_zero]
    exact (Nat.mod_eq_of_lt h).symm
  | cons t rest ih =>
    intro s h
    obtain ⟨now, reads⟩ := t
    have hstep : (update w now true reads s).storeIndex = (s.storeIndex + 1) % 10 :=
      update_storeIndex w now reads s
    have hlt : (update w now true reads s).storeIndex < 10 := by
      rw [hstep]; exact Nat.mod_lt _ (by norm_num)
    rw [updateRun, ih _ hlt, hstep, List.length_cons]
    omega

theorem update_base (w now : ℕ) (reads : List (ℕ × ℚ)) (s : BreathController)
    (h : s.isBaseSet = true) :
    (update w now true reads s).isBaseSet = true ∧
    (update w now true reads s).basePressure = s.basePressure := by
  unfold update
  exact channelLoop_base w now reads s h

theorem updateRun_base (w : ℕ) (ticks : List (ℕ × List (ℕ × ℚ))) :
    ∀ s : BreathController, s.isBaseSet = true →
      (updateRun w s ticks).isBaseSet = true ∧
      (updateRun w s ticks).basePressure = s.basePressure := by
  induction ticks with
  | nil => intro s h; exact ⟨h, rfl⟩
  | cons t rest ih =>
    intro s h
    obtain ⟨now, reads⟩ := t
    obtain ⟨u1, u2⟩ := update_base w now reads s h
    obtain ⟨r1, r2⟩ := ih _ u1
    exact ⟨r1, r2.trans u2⟩

theorem update_single_read (w now i : ℕ) (x : ℚ) (s : BreathController) (hi : i ≠ 2) :
    (update w now true [(i, x)] s).storedPressures
      = (pressureChannel w now i x s).storedPressures ∧
    (update w now true [(i, x)] s).basePressure = (pressureChannel w now i x s).basePressure := by
  unfold update channelLoop
  simp [hi]

/-! ### Tuner at start-up -/

theorem classify_nan (w now : ℕ) (p : ℚ) (s : BreathController) (h : s.lastPressure = none) :
    classify w now p s = { s with lastPressure := some p, firstCall := false } := by
  unfold classify
  rw [detect_nan w now p s h]

theorem sticky_peak_chain (w : ℕ) (t : ℚ) (inputs : List (ℕ × ℚ)) :
    ∀ (s : BreathController) (l : ℚ), s.currentState = PEAK → s.firstCall = false →
      s.lastPressure = some l → s.pressureThreshold = t →
      List.Chain (fun a b => a - t ≤ b) l (inputs.map Prod.snd) →
      ∀ c ∈ classifyRun w s inputs, c.currentState = PEAK ∧ c.breathCount = s.breathCount := by
  induction inputs with
  | nil => intro s l _ _ _ _ _ c hc; simp [classifyRun] at hc
  | cons x rest ih =>
    intro s l hs hf hl ht hch c hc
    obtain ⟨now, p⟩ := x
    rw [List.map_cons, List.chain_cons] at hch
    have hstep : classify w now p s = { s with lastPressure := some p } := by
      rw [classify_peak w now p l s hf hl hs, if_neg]
      rw [ht]
      exact not_lt.mpr hch.1
    simp only [classifyRun, List.mem_cons] at hc
    rw [hstep] at hc
    rcases hc with hc | hc
    · rw [hc]; exact ⟨hs, rfl⟩
    · exact ih { s with lastPressure := some p } p hs hf rfl ht hch.2 c hc

theorem sticky_exhale_chain (w : ℕ) (t : ℚ) (inputs : List (ℕ × ℚ)) :
    ∀ (s : BreathController) (l : ℚ), s.currentState = EXHALE → s.firstCall = false →
      s.lastPressure = some l → s.pressureThreshold = t →
      List.Chain (fun a b => b ≤ a + t) l (inputs.map Prod.snd) →
      ∀ c ∈ classifyRun w s inputs,
        c.currentState = EXHALE ∧ c.breathCount = s.breathCount := by
  induction inputs with
  | nil => intro s l _ _ _ _ _ c hc; simp [classifyRun] at hc
  | cons x rest ih =>
    intro s l hs hf hl ht hch c hc
    obtain ⟨now, p⟩ := x
    rw [List.map_cons, List.chain_cons] at hch
    have hstep : classify w now p s = { s with lastPressure := some p } := by
      rw [classify_exhale w now p l s hf hl hs, if_neg]
      rw [ht]
      exact not_lt.mpr hch.1
    simp only [classifyRun, List.mem_cons] at hc
    rw [hstep] at hc
    rcases hc with hc | hc
    · rw [hc]; exact ⟨hs, rfl⟩
    · exact ih { s with lastPressure := some p } p hs hf rfl ht hch.2 c hc

/-- A state that no related pair of samples can leave is kept along a gradual run. -/
theorem sticky_of_chain (w : ℕ) (t : ℚ) (R : ℚ → ℚ → Prop) (st : BreathState)
    (hchain : ∀ (inputs : List (ℕ × ℚ)) (s : BreathController) (l : ℚ),
      s.currentState = st → s.firstCall = false → s.lastPressure = some l →
      s.pressureThreshold = t → List.Chain R l (inputs.map Prod.snd) →
      ∀ c ∈ classifyRun w s inputs, c.currentState = st ∧ c.breathCount = s.breathCount)
    (s : BreathController) (inputs : List (ℕ × ℚ)) (hs : s.currentState = st)
    (ht : s.pressureThreshold = t) (hg : Gradual R s (inputs.map Prod.snd)) :
    ∀ c ∈ classifyRun w s inputs, c.currentState = st ∧ c.breathCount = s.breathCount := by
  have hseed : ∀ (now : ℕ) (p : ℚ) (rest : List (ℕ × ℚ)),
      classify w now p s = { s with lastPressure := some p, firstCall := false } →
      List.Chain' R (((now, p) :: rest).map Prod.snd) →
      ∀ c ∈ classifyRun w s ((now, p) :: rest),
        c.currentState = st ∧ c.breathCount = s.breathCount := by
    intro now p rest hstep hch c hc
    simp only [classifyRun, List.mem_cons] at hc
    rw [hstep] at hc
    rcases hc with hc | hc
    · rw [hc]; exact ⟨hs, rfl⟩
    · exact hchain rest { s with lastPressure := some p, firstCall := false } p hs rfl rfl
        ht hch c hc
  cases inputs with
  | nil => intro c hc; simp [classifyRun] at hc
  | cons x rest =>
    obtain ⟨now, p⟩ := x
    cases hf : s.firstCall with
    | true =>
      have hg' : List.Chain' R (((now, p) :: rest).map Prod.snd) := by
        simpa [Gradual, hf] using hg
      exact hseed now p rest (classify_first w now p s hf) hg'
    | false =>
      cases hl : s.lastPressure with
      | none =>
        have hg' : List.Chain' R (((now, p) :: rest).map Prod.snd) := by
          simpa [Gradual, hf, hl] using hg
        exact hseed now p rest (classify_nan w now p s hl) hg'
      | some l =>
        have hg' : List.Chain R l (((now, p) :: rest).map Prod.snd) := by
          simpa [Gradual, hf, hl] using hg
        exact hchain ((now, p) :: rest) s l hs hf hl ht hg'

/-! ### Rate of breath counting -/

theorem phaseRank_nonneg (st : BreathState) : 0 ≤ phaseRank st := by
  cases st <;> decide

/-- A call adds at most one transition; the seed call adds none. -/
theorem classify_progress (w now : ℕ) (p : ℚ) (s : BreathController) :
    breathProgress (classify w now p s) ≤ breathProgress s + 1 ∧
    (s.firstCall = true → breathProgress (classify w now p s) = breathProgress s) := by
  cases hf : s.firstCall with
  | true =>
    rw [classify_first w now p s hf]
    exact ⟨by unfold breathProgress; simp, fun _ => rfl⟩
  | false =>
    refine ⟨?_, fun h => absurd h (by decide)⟩
    cases hl : s.lastPressure with
    | none =>
      rw [classify_nan w now p s hl]
      unfold breathProgress; simp
    | some l =>
      cases hs : s.currentState with
      | EXHALE =>
        rw [classify_exhale w now p l s hf hl hs]
        unfold breathProgress
        split_ifs <;> simp only [hs, phaseRank] <;> omega
      | INHALE =>
        rw [classify_inhale w now p l s hf hl hs]
        unfold breathProgress
        split_ifs <;> simp only [hs, phaseRank] <;> omega
      | PEAK =>
        rw [classify_peak w now p l s hf hl hs]
        unfold breathProgress
        split_ifs <;> simp only [hs, phaseRank] <;> omega
      | TROUGH =>
        rw [classify_trough w now p l s hf hl hs]
        unfold breathProgress
        split_ifs <;> simp only [hs, phaseRank] <;> omega

theorem classifyRunWith_progress (w : ℕ) (inputs : List (ℕ × ℚ × ℚ)) :
    ∀ (s : BreathController) (i : ℕ) (c : BreathController),
      (classifyRunWith w s inputs)[i]? = some c →
      breathProgress c ≤ breathProgress s + (i + 1) := by
  induction inputs with
  | nil => intro s i c h; simp [classifyRunWith] at h
  | cons x rest ih =>
    intro s i c h
    obtain ⟨now, p, t⟩ := x
    rw [classifyRunWith_cons] at h
    have hstep := (classify_progress w now p { s with pressureThreshold := t }).1
    have hsame : breathProgress { s with pressureThreshold := t } = breathProgress s := rfl
    cases i with
    | zero =>
      simp only [List.getElem?_cons_zero, Option.some.injEq] at h
      rw [← h]
      push_cast
      linarith
    | succ j =>
      rw [List.getElem?_cons_succ] at h
      have := ih _ j c h
      push_cast at this ⊢
      linarith

theorem classifyRunWith_progress_seed (w : ℕ) (inputs : List (ℕ × ℚ × ℚ))
    (s : BreathController) (hf : s.firstCall = true) (i : ℕ) (c : BreathController)
    (h : (classifyRunWith w s inputs)[i]? = some c) :
    breathProgress c ≤ breathProgress s + i := by
  cases inputs with
  | nil => simp [classifyRunWith] at h
  | cons x rest =>
    obtain ⟨now, p, t⟩ := x
    rw [classifyRunWith_cons] at h
    have hstep := (classify_progress w now p { s with pressureThreshold := t }).2 hf
    have hsame : breathProgress { s with pressureThreshold := t } = breathProgress s := rfl
    cases i with
    | zero =>
      simp only [List.getElem?_cons_zero, Option.some.injEq] at h
      rw [← h, hstep, hsame]
      simp
    | succ j =>
      rw [List.getElem?_cons_succ] at h
      have := classifyRunWith_progress w rest _ j c h
      push_cast at this ⊢
      linarith

/-! ### The filter stays within the range of its inputs -/

theorem sumValid_fold_bounds (lo hi : ℚ) (hist : List (Option ℚ))
    (h : ∀ v, some v ∈ hist → lo ≤ v ∧ v ≤ hi) (idxs : List ℕ) :
    ∀ acc : ℚ × ℕ, lo * acc.2 ≤ acc.1 ∧ acc.1 ≤ hi * acc.2 →
      lo * ((idxs.foldl
          (fun acc i =>
            match hist.getD i none with
            | some v => (acc.1 + v, acc.2 + 1)
            | none => acc) acc).2 : ℚ)
        ≤ (idxs.foldl
          (fun acc i =>
            match hist.getD i none with
            | some v => (acc.1 + v, acc.2 + 1)
            | none => acc) acc).1 ∧
      (idxs.foldl
          (fun acc i =>
            match hist.getD i none with
            | some v => (acc.1 + v, acc.2 + 1)
            | none => acc) acc).1
        ≤ hi * ((idxs.foldl
          (fun acc i =>
            match hist.getD i none with
            | some v => (acc.1 + v, acc.2 + 1)
            | none => acc) acc).2 : ℚ) := by
  induction idxs with
  | nil => intro acc hacc; exact hacc
  | cons i rest ih =>
    intro acc hacc
    rw [List.foldl_cons]
    apply ih
    cases hv : hist.getD i none with
    | none => exact hacc
    | some v =>
      have hmem : some v ∈ hist := by
        rw [List.getD_eq_getElem?_getD] at hv
        cases hget : hist[i]? with
        | none => rw [hget] at hv; simp at hv
        | some o =>
          rw [hget] at hv
          simp at hv
          rw [hv] at hget
          exact List.getElem?_mem hget
      obtain ⟨h1, h2⟩ := h v hmem
      simp only [Nat.cast_add, Nat.cast_one]
      constructor <;> nlinarith [hacc.1, hacc.2]

theorem sumValid_bounds (lo hi : ℚ) (hist : List (Option ℚ))
    (h : ∀ v, some v ∈ hist → lo ≤ v ∧ v ≤ hi) :
    lo * ((sumValid hist).2 : ℚ) ≤ (sumValid hist).1 ∧
    (sumValid hist).1 ≤ hi * ((sumValid hist).2 : ℚ) := by
  unfold sumValid
  apply sumValid_fold_bounds lo hi hist h
  simp

/-- The moving average of samples in `[lo, hi]` is in `[lo, hi]`. -/
theorem applyMovingAverage_within (lo hi x : ℚ) (s : BreathController)
    (hx : lo ≤ x ∧ x ≤ hi) (hs : FilterWithin lo hi s) :
    (lo ≤ (applyMovingAverage x s).1 ∧ (applyMovingAverage x s).1 ≤ hi) ∧
    FilterWithin lo hi (applyMovingAverage x s).2 := by
  have hhist : ∀ v, some v ∈ s.pressureHistory.set s.historyIndex (some x) →
      lo ≤ v ∧ v ≤ hi := by
    intro v hv
    rcases List.mem_or_eq_of_mem_set hv with h | h
    · exact hs.1 v h
    · rw [Option.some.inj h]; exact hx
  obtain ⟨b1, b2⟩ := sumValid_bounds lo hi _ hhist
  refine ⟨?_, hhist, hs.2⟩
  unfold applyMovingAverage
  simp only []
  split_ifs with hc
  · have hpos : (0 : ℚ) < ((sumValid (s.pressureHistory.set s.historyIndex (some x))).2 : ℚ) := by
      exact_mod_cast hc
    exact ⟨(le_div_iff₀ hpos).mpr b1, (div_le_iff₀ hpos).mpr b2⟩
  · exact hx

theorem exists_least_mem (xs : List ℚ) (h : xs ≠ []) : ∃ a ∈ xs, ∀ x ∈ xs, a ≤ x := by
  induction xs with
  | nil => exact absurd rfl h
  | cons x rest ih =>
    cases rest with
    | nil => exact ⟨x, List.mem_cons_self _ _, fun y hy => by simp at hy; rw [hy]⟩
    | cons y rest' =>
      obtain ⟨a, ha, hall⟩ := ih (List.cons_ne_nil _ _)
      rcases le_total x a with hxa | hax
      · refine ⟨x, List.mem_cons_self _ _, fun z hz => ?_⟩
        rcases List.mem_cons.mp hz with hz | hz
        · rw [hz]
        · exact le_trans hxa (hall z hz)
      · refine ⟨a, List.mem_cons_of_mem _ ha, fun z hz => ?_⟩
        rcases List.mem_cons.mp hz with hz | hz
        · rw [hz]; exact hax
        · exact hall z hz

theorem exists_greatest_mem (xs : List ℚ) (h : xs ≠ []) : ∃ b ∈ xs, ∀ x ∈ xs, x ≤ b := by
  induction xs with
  | nil => exact absurd rfl h
  | cons x rest ih =>
    cases rest with
    | nil => exact ⟨x, List.mem_cons_self _ _, fun y hy => by simp at hy; rw [hy]⟩
    | cons y rest' =>
      obtain ⟨b, hb, hall⟩ := ih (List.cons_ne_nil _ _)
      rcases le_total b x with hbx | hxb
      · refine ⟨x, List.mem_cons_self _ _, fun z hz => ?_⟩
        rcases List.mem_cons.mp hz with hz | hz
        · rw [hz]
        · exact le_trans (hall z hz) hbx
      · refine ⟨b, List.mem_cons_of_mem _ hb, fun z hz => ?_⟩
        rcases List.mem_cons.mp hz with hz | hz
        · rw [hz]; exact hxb
        · exact hall z hz

/-! ### The write index of the moving average -/

theorem movingAverageRun_cons_state (x : ℚ) (xs : List ℚ) (s : BreathController) :
    (movingAverageRun s (x :: xs)).2 = (movingAverageRun (applyMovingAverage x s).2 xs).2 := rfl

theorem movingAverageRun_index (xs : List ℚ) :
    ∀ s : BreathController, s.historyIndex < 5 →
      (movingAverageRun s xs).2.historyIndex = (s.historyIndex + xs.length) % 5 ∧
      (movingAverageRun s xs).2.pressureHistory.length = s.pressureHistory.length := by
  induction xs with
  | nil =>
    intro s h
    exact ⟨(Nat.mod_eq_of_lt h).symm, rfl⟩
  | cons x rest ih =>
    intro s h
    have hstep : (applyMovingAverage x s).2.historyIndex = (s.historyIndex + 1) % 5 := rfl
    have hlen : (applyMovingAverage x s).2.pressureHistory.length
        = s.pressureHistory.length := by
      show (s.pressureHistory.set s.historyIndex (some x)).length = _
      rw [List.length_set]
    have hlt : (applyMovingAverage x s).2.historyIndex < 5 := by
      rw [hstep]; exact Nat.mod_lt _ (by norm_num)
    obtain ⟨i1, i2⟩ := ih _ hlt
    rw [movingAverageRun_cons_state, i1, i2, hstep, hlen, List.length_cons]
    exact ⟨by omega, rfl⟩

/-- On a full buffer the slot at the write index holds the oldest of the five samples. -/
theorem ringFull_oldest (s : BreathController) (a b c d e : ℚ) (h : RingFull s a b c d e) :
    s.pressureHistory[s.historyIndex]? = some (some a) := by
  unfold RingFull at h
  rcases h with ⟨hi, hh⟩ | ⟨hi, hh⟩ | ⟨hi, hh⟩ | ⟨hi, hh⟩ | ⟨hi, hh⟩ <;> rw [hi, hh] <;> rfl

/-- A full buffer stays full along a run and holds the last five samples. -/
theorem movingAverageRun_full_state (ys : List ℚ) :
    ∀ (s : BreathController) (a b c d e : ℚ), RingFull s a b c d e →
      ∃ a' b' c' d' e', (a :: b :: c :: d :: e :: ys).drop ys.length = [a', b', c', d', e'] ∧
        RingFull (movingAverageRun s ys).2 a' b' c' d' e' := by
  induction ys with
  | nil => intro s a b c d e h; exact ⟨a, b, c, d, e, rfl, h⟩
  | cons y rest ih =>
    intro s a b c d e h
    obtain ⟨_, hnext⟩ := applyMovingAverage_full y a b c d e s h
    obtain ⟨a', b', c', d', e', hdrop, hfull⟩ := ih _ b c d e y hnext
    refine ⟨a', b', c', d', e', ?_, ?_⟩
    · rw [List.length_cons, List.drop_succ_cons]
      exact hdrop
    · rw [movingAverageRun_cons_state]
      exact hfull

/-- During warm-up the slot at the write index is still unpopulated. -/
theorem warm_up_slot (s : BreathController) (xs : List ℚ)
    (hh : s.pressureHistory = List.replicate FILTER_WINDOW none) (hi : s.historyIndex = 0)
    (h5 : xs.length < 5) :
    (movingAverageRun s xs).2.pressureHistory[(movingAverageRun s xs).2.historyIndex]?
      = some none := by
  match xs, h5 with
  | [], _ => simp [movingAverageRun, hh, hi, FILTER_WINDOW]
  | [a], _ => simp [movingAverageRun, applyMovingAverage, hh, hi, FILTER_WINDOW]
  | [a, b], _ => simp [movingAverageRun, applyMovingAverage, hh, hi, FILTER_WINDOW]
  | [a, b, c], _ => simp [movingAverageRun, applyMovingAverage, hh, hi, FILTER_WINDOW]
  | [a, b, c, d], _ => simp [movingAverageRun, applyMovingAverage, hh, hi, FILTER_WINDOW]
  | _ :: _ :: _ :: _ :: _ :: _, h => simp at h; omega

theorem steady_state_ring (s : BreathController) (xs : List ℚ)
    (hh : s.pressureHistory = List.replicate FILTER_WINDOW none) (hi : s.historyIndex = 0)
    (h5 : 5 ≤ xs.length) :
    ∃ a b c d e, xs.drop (xs.length - 5) = [a, b, c, d, e] ∧
      RingFull (movingAverageRun s xs).2 a b c d e := by
  match xs, h5 with
  | [], h => simp at h
  | [_], h => simp at h
  | [_, _], h => simp at h
  | [_, _, _], h => simp at h
  | [_, _, _, _], h => simp at h
  | x1 :: x2 :: x3 :: x4 :: x5 :: ys, _ =>
    obtain ⟨a, b, c, d, e, hdrop, hfull⟩ := movingAverageRun_full_state ys _ x1 x2 x3 x4 x5
      (ringFull_after_five s x1 x2 x3 x4 x5 hh hi)
    refine ⟨a, b, c, d, e, ?_, hfull⟩
    rw [← hdrop]
    simp

theorem update_last_read (w now i : ℕ) (x : ℚ) (reads : List (ℕ × ℚ)) (s : BreathController)
    (hi : i ≠ 2) :
    (update w now true (reads ++ [(i, x)]) s).storedPressures
      = (pressureChannel w now i x (channelLoop w now reads s)).storedPressures := by
  unfold update channelLoop
  simp [List.foldl_append, hi]

/-! ### Rounding -/

theorem roundNE_of_near (y : ℚ) (m : ℤ) (h1 : (m : ℚ) - 1 / 2 < y) (h2 : y < m + 1 / 2) :
    roundNE y = m := by
  unfold roundNE
  rcases lt_or_le y (m : ℚ) with h | h
  · have hf : ⌊y⌋ = m - 1 := by
      rw [Int.floor_eq_iff]
      push_cast
      constructor <;> linarith
    rw [hf]
    push_cast
    rw [if_neg (by linarith), if_pos (by linarith)]
    ring
  · have hf : ⌊y⌋ = m := by
      rw [Int.floor_eq_iff]
      constructor <;> linarith
    rw [hf, if_pos (by linarith)]

theorem roundNE_of_tie (y : ℚ) (k : ℤ) (h : y = k + 1 / 2) :
    roundNE y = if k % 2 = 0 then k else k + 1 := by
  unfold roundNE
  have hf : ⌊y⌋ = k := by
    rw [Int.floor_eq_iff]
    constructor <;> linarith
  rw [hf, if_neg (by linarith), if_neg (by linarith)]

theorem roundNE_err (y : ℚ) : |(roundNE y : ℚ) - y| ≤ 1 / 2 := by
  have h1 := Int.floor_le y
  have h2 := Int.lt_floor_add_one y
  unfold roundNE
  split_ifs with a b c
  · rw [abs_le]; constructor <;> linarith
  · push_cast; rw [abs_le]; constructor <;> linarith
  · rw [abs_le]; constructor <;> linarith
  · push_cast; rw [abs_le]; constructor <;> linarith

theorem log_two_eq (x : ℚ) (e : ℤ) (hlo : (2 : ℚ) ^ e ≤ |x|)
    (hhi : |x| < (2 : ℚ) ^ (e + 1)) :
    Int.log 2 |x| = e := by
  have hpos : (0 : ℚ) < |x| := lt_of_lt_of_le (by positivity) hlo
  have h1 : e ≤ Int.log 2 |x| := by
    rw [← Int.zpow_le_iff_le_log (by norm_num) hpos]
    exact_mod_cast hlo
  have h2 : Int.log 2 |x| < e + 1 := by
    rw [← Int.lt_zpow_iff_log_lt (by norm_num) hpos]
    exact_mod_cast hhi
  omega

theorem flRound_zero (prec : ℕ) (emin : ℤ) : flRound prec emin 0 = 0 := by
  simp [flRound]

theorem flRound_eq (prec : ℕ) (emin : ℤ) (x : ℚ) (e q m : ℤ)
    (hlo : (2 : ℚ) ^ e ≤ |x|) (hhi : |x| < (2 : ℚ) ^ (e + 1))
    (hq : max e emin + 1 - prec = q) (hm : roundNE (x / 2 ^ q) = m) :
    flRound prec emin x = m * 2 ^ q := by
  have hpos : (0 : ℚ) < |x| := lt_of_lt_of_le (by positivity) hlo
  have hx : x ≠ 0 := abs_pos.mp hpos
  unfold flRound
  rw [if_neg hx]
  simp only [log_two_eq x e hlo hhi, hq, hm]

/-- Evaluation of a rounding at a positive argument in the binade `[2 ^ e, 2 ^ (e + 1))`
whose scaled value is strictly nearer to `m` than to any other integer. -/
theorem flRound_near (prec : ℕ) (emin : ℤ) (x : ℚ) (e q m : ℤ) (y : ℚ)
    (h : 0 < x ∧ (2 : ℚ) ^ e ≤ x ∧ x < (2 : ℚ) ^ (e + 1) ∧ max e emin + 1 - prec = q ∧
      (m : ℚ) - 1 / 2 < x / 2 ^ q ∧ x / 2 ^ q < m + 1 / 2 ∧ (m : ℚ) * 2 ^ q = y) :
    flRound prec emin x = y := by
  obtain ⟨hx, hlo, hhi, hq, h1, h2, hy⟩ := h
  rw [← hy]
  apply flRound_eq prec emin x e q m _ _ hq (roundNE_of_near _ m h1 h2)
  · rwa [abs_of_pos hx]
  · rwa [abs_of_pos hx]

/-- Evaluation of a rounding at a positive argument whose scaled value lies halfway
between the integers `k` and `k + 1`: the even one is taken. -/
theorem flRound_tie (prec : ℕ) (emin : ℤ) (x : ℚ) (e q k m : ℤ) (y : ℚ)
    (h : 0 < x ∧ (2 : ℚ) ^ e ≤ x ∧ x < (2 : ℚ) ^ (e + 1) ∧ max e emin + 1 - prec = q ∧
      x / 2 ^ q = k + 1 / 2 ∧ (if k % 2 = 0 then k else k + 1) = m ∧ (m : ℚ) * 2 ^ q = y) :
    flRound prec emin x = y := by
  obtain ⟨hx, hlo, hhi, hq, h1, hm, hy⟩ := h
  rw [← hy, ← hm]
  apply flRound_eq prec emin x e q _ _ _ hq (roundNE_of_tie _ k h1)
  · rwa [abs_of_pos hx]
  · rwa [abs_of_pos hx]

/-! ### Machine arithmetic: the classifier, one lemma per branch -/

theorem wrapInt32_of_range (n : ℤ) (h1 : -2 ^ 31 ≤ n) (h2 : n < 2 ^ 31) : wrapInt32 n = n := by
  unfold wrapInt32
  rw [Int.emod_eq_of_lt (by linarith) (by linarith)]
  ring

theorem detectF_first (w now : ℕ) (p : ℚ) (s : BreathController) (h : s.firstCall = true) :
    detectBreathStateF w now p s
      = (s.currentState, { s with lastPressure := some p, firstCall := false }) := by
  unfold detectBreathStateF
  simp [h]

theorem detectF_exhale (w now : ℕ) (p prevP : ℚ) (s : BreathController)
    (hf : s.firstCall = false) (hl : s.lastPressure = some prevP)
    (hs : s.currentState = EXHALE) :
    detectBreathStateF w now p s
      = if p > fl32 (prevP + s.pressureThreshold) then
          (INHALE, { s with minPressure := p, lastPressure := some p })
        else (EXHALE, { s with lastPressure := some p }) := by
  unfold detectBreathStateF
  simp [hf, hl, hs]

theorem detectF_inhale (w now : ℕ) (p prevP : ℚ) (s : BreathController)
    (hf : s.firstCall = false) (hl : s.lastPressure = some prevP)
    (hs : s.currentState = INHALE) :
    detectBreathStateF w now p s
      = if p < prevP then
          (PEAK, { s with maxPressure := p, lastPressure := some p })
        else (INHALE, { s with lastPressure := some p }) := by
  unfold detectBreathStateF
  simp [hf, hl, hs]

theorem detectF_peak (w now : ℕ) (p prevP : ℚ) (s : BreathController)
    (hf : s.firstCall = false) (hl : s.lastPressure = some prevP)
    (hs : s.currentState = PEAK) :
    detectBreathStateF w now p s
      = if p < fl32 (prevP - s.pressureThreshold) then
          (EXHALE,
            { s with
              breathPeriod :=
                if s.lastBreathTime > 0 then
                  fl32 (fl64 (fl64 (fl64 0.8 * s.breathPeriod)
                    + fl64 (fl64 0.2 * fl64 (ulongSub w now s.lastBreathTime : ℚ))))
                else s.breathPeriod,
              lastBreathTime := now,
              breathCount := wrapInt32 (s.breathCount + 1),
              lastPressure := some p })
        else (PEAK, { s with lastPressure := some p }) := by
  unfold detectBreathStateF
  simp [hf, hl, hs]

theorem detectF_trough (w now : ℕ) (p prevP : ℚ) (s : BreathController)
    (hf : s.firstCall = false) (hl : s.lastPressure = some prevP)
    (hs : s.currentState = TROUGH) :
    detectBreathStateF w now p s
      = if p > prevP then (INHALE, { s with lastPressure := some p })
        else (TROUGH, { s with lastPressure := some p }) := by
  unfold detectBreathStateF
  simp [hf, hl, hs]

theorem detectF_lastPressure (w now : ℕ) (p : ℚ) (s : BreathController) :
    (detectBreathStateF w now p s).2.lastPressure = some p := by
  unfold detectBreathStateF
  split
  · rfl
  · rfl
  · split <;> split_ifs <;> rfl

theorem detectF_firstCall (w now : ℕ) (p : ℚ) (s : BreathController) :
    (detectBreathStateF w now p s).2.firstCall = false := by
  unfold detectBreathStateF
  split
  · rfl
  · rfl
  · rename_i hf _
    split <;> split_ifs <;> exact hf

/-- Effect of one call on the breath counter: an `int` increment on the PEAK to EXHALE
branch, nothing on any other path. -/
theorem detectF_breathCount (w now : ℕ) (p : ℚ) (s : BreathController) :
    (detectBreathStateF w now p s).2.breathCount
      = if s.currentState = PEAK ∧ (detectBreathStateF w now p s).1 = EXHALE then
          wrapInt32 (s.breathCount + 1)
        else s.breathCount := by
  have hne : ¬ (s.currentState = PEAK ∧ s.currentState = EXHALE) := by
    rintro ⟨h1, h2⟩
    rw [h1] at h2
    exact absurd h2 (by decide)
  unfold detectBreathStateF
  split
  · simp only [if_neg hne]
  · simp only [if_neg hne]
  · split <;> rename_i hs <;> split_ifs <;> simp_all

/-- The state returned by a call that is past the seed path. -/
theorem detectF_guard (w now : ℕ) (q p : ℚ) (s : BreathController)
    (hf : s.firstCall = false) (hl : s.lastPressure = some p) :
    (detectBreathStateF w now q s).1
      = match s.currentState with
        | EXHALE => if q > fl32 (p + s.pressureThreshold) then INHALE else EXHALE
        | INHALE => if q < p then PEAK else INHALE
        | PEAK => if q < fl32 (p - s.pressureThreshold) then EXHALE else PEAK
        | TROUGH => if q > p then INHALE else TROUGH := by
  cases hs : s.currentState with
  | EXHALE => rw [detectF_exhale w now q p s hf hl hs]; split_ifs <;> rfl
  | INHALE => rw [detectF_inhale w now q p s hf hl hs]; split_ifs <;> rfl
  | PEAK => rw [detectF_peak w now q p s hf hl hs]; split_ifs <;> rfl
  | TROUGH => rw [detectF_trough w now q p s hf hl hs]; split_ifs <;> rfl

theorem classifyF_currentState (w now : ℕ) (p : ℚ) (s : BreathController) :
    (classifyF w now p s).currentState = (detectBreathStateF w now p s).1 := rfl

theorem classifyF_breathCount (w now : ℕ) (p : ℚ) (s : BreathController) :
    (classifyF w now p s).breathCount = (detectBreathStateF w now p s).2.breathCount := rfl

theorem classifyF_first (w now : ℕ) (p : ℚ) (s : BreathController) (h : s.firstCall = true) :
    classifyF w now p s = { s with lastPressure := some p, firstCall := false } := by
  unfold classifyF
  rw [detectF_first w now p s h]

theorem classifyRunWithF_cons (w now : ℕ) (p t : ℚ) (s : BreathController)
    (rest : List (ℕ × ℚ × ℚ)) :
    classifyRunWithF w s ((now, p, t) :: rest)
      = classifyF w now p { s with pressureThreshold := t } ::
          classifyRunWithF w (classifyF w now p { s with pressureThreshold := t }) rest := rfl

theorem classifyRunWithF_statics (w : ℕ) (inputs : List (ℕ × ℚ × ℚ)) :
    ∀ s : BreathController,
      (classifyRunWithF w s inputs).map (fun c => (c.firstCall, c.lastPressure))
        = inputs.map (fun x => (false, some x.2.1)) := by
  induction inputs with
  | nil => intro s; rfl
  | cons x rest ih =>
    intro s
    obtain ⟨now, p, t⟩ := x
    rw [classifyRunWithF_cons, List.map_cons, List.map_cons, ih]
    congr 1
    show ((detectBreathStateF w now p _).2.firstCall,
        (detectBreathStateF w now p _).2.lastPressure) = (false, some p)
    rw [detectF_firstCall, detectF_lastPressure]

/-- Within the `int` range below `INT_MAX` the counter behaves like an integer along a
run: it grows by the number of PEAK to EXHALE edges of the trace. -/
theorem classifyFinalF_breathCount (w : ℕ) (inputs : List (ℕ × ℚ)) :
    ∀ s : BreathController, -2 ^ 31 ≤ s.breathCount →
      s.breathCount + (inputs.length : ℤ) < 2 ^ 31 →
      (classifyFinalF w s inputs).breathCount
        = s.breathCount +
            (peakExhaleEdges
              (s.currentState ::
                (classifyRunF w s inputs).map BreathController.currentState) : ℕ) := by
  induction inputs with
  | nil => intro s _ _; simp [classifyFinalF, classifyRunF, peakExhaleEdges]
  | cons x rest ih =>
    intro s hlo hhi
    obtain ⟨now, p⟩ := x
    simp only [List.length_cons, Nat.cast_add, Nat.cast_one] at hhi
    have hlen : (0 : ℤ) ≤ (rest.length : ℤ) := Int.natCast_nonneg _
    have hstep : (classifyF w now p s).breathCount
        = s.breathCount +
            (if s.currentState = PEAK ∧ (classifyF w now p s).currentState = EXHALE
              then 1 else 0) := by
      rw [classifyF_breathCount, classifyF_currentState, detectF_breathCount]
      split_ifs
      · rw [wrapInt32_of_range _ (by linarith) (by linarith)]
      · simp
    have h1 : -2 ^ 31 ≤ (classifyF w now p s).breathCount := by
      rw [hstep]; split_ifs <;> linarith
    have h2 : (classifyF w now p s).breathCount + (rest.length : ℤ) < 2 ^ 31 := by
      rw [hstep]; split_ifs <;> linarith
    simp only [classifyFinalF, classifyRunF, List.map_cons, peakExhaleEdges]
    rw [ih (classifyF w now p s) h1 h2, hstep]
    push_cast
    ring

/-! ### Machine arithmetic: baseline shift -/

theorem fl32_zero : fl32 0 = 0 := flRound_zero 24 (-126)

/-- The `double` literals `1.5`, `2.0` and `0.5` of the tuner are exact. -/
theorem fl64_exact_literals : fl64 1.5 = 1.5 ∧ fl64 2.0 = 2.0 ∧ fl64 0.5 = 0.5 := by
  have k1 : fl64 (3 / 2) = 3 / 2 :=
    flRound_near 53 (-1022) _ 0 (-52) 6755399441055744 _ (by norm_num)
  have k8 : fl64 2 = 2 :=
    flRound_near 53 (-1022) _ 1 (-51) 4503599627370496 _ (by norm_num)
  have k9 : fl64 (1 / 2) = 1 / 2 :=
    flRound_near 53 (-1022) _ (-1) (-53) 4503599627370496 _ (by norm_num)
  norm_num [k1, k8, k9]

/-- The `double` nearest to `0.2`, the lower clamp bound of the threshold. -/
theorem fl64_one_fifth : fl64 0.2 = 3602879701896397 / 18014398509481984 := by
  have k7 : fl64 (1 / 5) = 3602879701896397 / 18014398509481984 :=
    flRound_near 53 (-1022) _ (-3) (-55) 7205759403792794 _ (by norm_num)
  norm_num [k7]

theorem floatSum_eq_foldl_range (l : List ℚ) :
    (List.range l.length).foldl (fun acc i => fl32 (acc + |l.getD i 0|)) 0
      = floatSum (l.map (fun v => |v|)) := by
  unfold floatSum
  rw [← map_range_getD_abs, List.foldl_map]

/-- On a full 10-slot history the accumulation loop computes the `float` sum of the
absolute values, slot 0 first, and divides it by 10 in `float`. -/
theorem avgPressureDiffF_eq (l : List ℚ) (h : l.length = 10) :
    avgPressureDiffF l = fl32 (floatSum (l.map (fun v => |v|)) / 10) := by
  unfold avgPressureDiffF
  have hr : List.range STORE_SIZE = List.range l.length := by rw [h]; rfl
  rw [hr, floatSum_eq_foldl_range]
  simp [STORE_SIZE]

/-- The tuner writes only the two control parameters. -/
theorem rescaleF_frame (s : BreathController) :
    (rescaleF s).breathCount = s.breathCount ∧
    (rescaleF s).storedPressures = s.storedPressures := ⟨rfl, rfl⟩

theorem adaptiveModelAdjustmentF_frame (s : BreathController) :
    (adaptiveModelAdjustmentF s).breathCount = s.breathCount ∧
    (adaptiveModelAdjustmentF s).storedPressures = s.storedPressures := by
  unfold adaptiveModelAdjustmentF
  split_ifs
  · exact rescaleF_frame s
  · exact ⟨rfl, rfl⟩

theorem adaptiveModelAdjustmentF_iterate_frame (k : ℕ) (s : BreathController) :
    (Nat.iterate adaptiveModelAdjustmentF k s).breathCount = s.breathCount ∧
    (Nat.iterate adaptiveModelAdjustmentF k s).storedPressures = s.storedPressures := by
  induction k with
  | zero => exact ⟨rfl, rfl⟩
  | succ n ih =>
    rw [Function.iterate_succ_apply']
    obtain ⟨h1, h2⟩ := adaptiveModelAdjustmentF_frame (Nat.iterate adaptiveModelAdjustmentF n s)
    exact ⟨h1.trans ih.1, h2.trans ih.2⟩

theorem adaptiveModelAdjustmentF_open (s : BreathController)
    (h : s.breathCount.tmod ADAPT_CYCLES = 0) : adaptiveModelAdjustmentF s = rescaleF s := by
  unfold adaptiveModelAdjustmentF
  rw [if_pos h]

/-! ### Machine arithmetic: the error of one rounding -/

/-- A rounding moves a value by at most half a unit in the last place of its binade, or by
half the subnormal spacing. -/
theorem flRound_err (prec : ℕ) (emin : ℤ) (x : ℚ) :
    |flRound prec emin x - x| ≤ |x| * 2 ^ (-(prec : ℤ)) + 2 ^ (emin - prec) := by
  unfold flRound
  split_ifs with h0
  · subst h0
    simp only [sub_self, abs_zero, zero_mul, zero_add]
    positivity
  · simp only []
    have hx : (0 : ℚ) < |x| := abs_pos.mpr h0
    generalize hq : max (Int.log 2 |x|) emin + 1 - (prec : ℤ) = q
    have hpos : (0 : ℚ) < 2 ^ q := by positivity
    have e : (roundNE (x / 2 ^ q) : ℚ) * 2 ^ q - x
        = ((roundNE (x / 2 ^ q) : ℚ) - x / 2 ^ q) * 2 ^ q := by
      field_simp
    have key : |(roundNE (x / 2 ^ q) : ℚ) * 2 ^ q - x| ≤ 2 ^ (q - 1) := by
      rw [e, abs_mul, abs_of_pos hpos, zpow_sub_one₀ (by norm_num : (2 : ℚ) ≠ 0)]
      have := mul_le_mul_of_nonneg_right (roundNE_err (x / 2 ^ q)) hpos.le
      calc _ ≤ 1 / 2 * 2 ^ q := this
        _ = 2 ^ q * 2⁻¹ := by ring
    refine le_trans key ?_
    rcases le_total emin (Int.log 2 |x|) with hle | hle
    · have hq' : q - 1 = Int.log 2 |x| + -(prec : ℤ) := by
        rw [← hq, max_eq_left hle]; ring
      have hlog : (2 : ℚ) ^ Int.log 2 |x| ≤ |x| := by
        have := Int.zpow_log_le_self (b := 2) (by norm_num) hx
        exact_mod_cast this
      rw [hq', zpow_add₀ (by norm_num : (2 : ℚ) ≠ 0)]
      have h1 : (2 : ℚ) ^ Int.log 2 |x| * 2 ^ (-(prec : ℤ)) ≤ |x| * 2 ^ (-(prec : ℤ)) :=
        mul_le_mul_of_nonneg_right hlog (by positivity)
      have h2 : (0 : ℚ) < 2 ^ (emin - (prec : ℤ)) := by positivity
      linarith
    · have hq' : q - 1 = emin - (prec : ℤ) := by
        rw [← hq, max_eq_right hle]; ring
      rw [hq']
      have h1 : (0 : ℚ) ≤ |x| * 2 ^ (-(prec : ℤ)) := by positivity
      linarith

theorem roundSlack_mono {a b : ℚ} (h : a ≤ b) : roundSlack a ≤ roundSlack b := by
  unfold roundSlack
  have : a / 2 ^ 24 ≤ b / 2 ^ 24 := div_le_div_of_nonneg_right h (by positivity)
  linarith

theorem roundSlack_pos {M : ℚ} (h : 0 ≤ M) : 0 < roundSlack M := by
  unfold roundSlack
  have : (0 : ℚ) ≤ M / 2 ^ 24 := div_nonneg h (by positivity)
  have : (0 : ℚ) < 1 / 2 ^ 150 := by positivity
  linarith

/-- One rounding to `float` of a value of magnitude at most `Z` errs by at most
`roundSlack Z`. -/
theorem fl32_err (x Z : ℚ) (h : |x| ≤ Z) : |fl32 x - x| ≤ roundSlack Z := by
  have h1 := flRound_err 24 (-126) x
  have h2 : roundSlack |x| ≤ roundSlack Z := roundSlack_mono h
  have h3 : |x| * 2 ^ (-((24 : ℕ) : ℤ)) + 2 ^ ((-126 : ℤ) - ((24 : ℕ) : ℤ))
      = roundSlack |x| := by
    unfold roundSlack
    norm_num
    ring
  unfold fl32
  linarith

/-! ### Machine arithmetic: the moving average against the exact mean -/

theorem getD_some_mem (hist : List (Option ℚ)) (i : ℕ) (v : ℚ)
    (hv : hist.getD i none = some v) : some v ∈ hist := by
  rw [List.getD_eq_getElem?_getD] at hv
  cases hget : hist[i]? with
  | none => rw [hget] at hv; simp at hv
  | some o =>
    rw [hget] at hv
    simp at hv
    rw [hv] at hget
    exact List.getElem?_mem hget

/-- One addition of the `float` summation loop against the exact loop: with `k ≤ 4`
samples of magnitude at most `M` added so far and the `float` sum within
`k * (k + 1) * roundSlack M` of the exact sum, the next `float` sum is within
`(k + 1) * (k + 2) * roundSlack M` of the next exact sum. -/
theorem floatSum_step_close (M aF a v : ℚ) (k : ℕ) (hk : k ≤ 4) (hM0 : 0 ≤ M)
    (hv : |v| ≤ M) (hclose : |aF - a| ≤ k * (k + 1) * roundSlack M) (ha : |a| ≤ k * M) :
    |fl32 (aF + v) - (a + v)|
      ≤ ((k + 1 : ℕ) : ℚ) * (((k + 1 : ℕ) : ℚ) + 1) * roundSlack M ∧
    |a + v| ≤ ((k + 1 : ℕ) : ℚ) * M := by
  have hZ : |aF + v| ≤ (k + 1) * M + k * (k + 1) * roundSlack M := by
    rw [abs_le] at hv hclose ha ⊢
    constructor <;> linarith [hv.1, hv.2, hclose.1, hclose.2, ha.1, ha.2]
  have herr := fl32_err (aF + v) _ hZ
  rw [abs_le] at hv hclose ha herr
  obtain ⟨v1, v2⟩ := hv
  obtain ⟨c1, c2⟩ := hclose
  obtain ⟨a1, a2⟩ := ha
  obtain ⟨e1, e2⟩ := herr
  unfold roundSlack at *
  interval_cases k <;> norm_num at * <;>
    refine ⟨abs_le.mpr ⟨?_, ?_⟩, abs_le.mpr ⟨?_, ?_⟩⟩ <;> linarith

theorem sumValidF_fold_close (M : ℚ) (hM0 : 0 ≤ M) (hist : List (Option ℚ))
    (h : ∀ v, some v ∈ hist → |v| ≤ M) (idxs : List ℕ) :
    ∀ accF acc : ℚ × ℕ, accF.2 = acc.2 → acc.2 + idxs.length ≤ 5 →
      |accF.1 - acc.1| ≤ acc.2 * (acc.2 + 1) * roundSlack M → |acc.1| ≤ acc.2 * M →
      (idxs.foldl
          (fun acc i =>
            match hist.getD i none with
            | some v => (fl32 (acc.1 + v), acc.2 + 1)
            | none => acc) accF).2
        = (idxs.foldl
          (fun acc i =>
            match hist.getD i none with
            | some v => (acc.1 + v, acc.2 + 1)
            | none => acc) acc).2 ∧
      (idxs.foldl
          (fun acc i =>
            match hist.getD i none with
            | some v => (acc.1 + v, acc.2 + 1)
            | none => acc) acc).2 ≤ 5 ∧
      |(idxs.foldl
          (fun acc i =>
            match hist.getD i none with
            | some v => (fl32 (acc.1 + v), acc.2 + 1)
            | none => acc) accF).1
        - (idxs.foldl
          (fun acc i =>
            match hist.getD i none with
            | some v => (acc.1 + v, acc.2 + 1)
            | none => acc) acc).1|
        ≤ ((idxs.foldl
          (fun acc i =>
            match hist.getD i none with
            | some v => (acc.1 + v, acc.2 + 1)
            | none => acc) acc).2 : ℚ)
          * (((idxs.foldl
          (fun acc i =>
            match hist.getD i none with
            | some v => (acc.1 + v, acc.2 + 1)
            | none => acc) acc).2 : ℚ) + 1) * roundSlack M ∧
      |(idxs.foldl
          (fun acc i =>
            match hist.getD i none with
            | some v => (acc.1 + v, acc.2 + 1)
            | none => acc) acc).1|
        ≤ ((idxs.foldl
          (fun acc i =>
            match hist.getD i none with
            | some v => (acc.1 + v, acc.2 + 1)
            | none => acc) acc).2 : ℚ) * M := by
  induction idxs with
  | nil =>
    intro accF acc hc hlen hclose ha
    exact ⟨hc, by simpa using hlen, hclose, ha⟩
  | cons i rest ih =>
    intro accF acc hc hlen hclose ha
    rw [List.foldl_cons, List.foldl_cons]
    rw [List.length_cons] at hlen
    cases hv : hist.getD i none with
    | none => exact ih accF acc hc (by omega) hclose ha
    | some v =>
      have hvM : |v| ≤ M := h v (getD_some_mem hist i v hv)
      obtain ⟨s1, s2⟩ := floatSum_step_close M accF.1 acc.1 v acc.2 (by omega) hM0 hvM hclose ha
      refine ih (fl32 (accF.1 + v), accF.2 + 1) (acc.1 + v, acc.2 + 1) ?_ ?_ ?_ ?_
      · simp only [hc]
      · simp only []; omega
      · exact s1
      · exact s2

/-- The two summation loops side by side on the whole buffer. -/
theorem sumValidF_close (M : ℚ) (hM0 : 0 ≤ M) (hist : List (Option ℚ))
    (h : ∀ v, some v ∈ hist → |v| ≤ M) :
    (sumValidF hist).2 = (sumValid hist).2 ∧ (sumValid hist).2 ≤ 5 ∧
    |(sumValidF hist).1 - (sumValid hist).1|
      ≤ ((sumValid hist).2 : ℚ) * (((sumValid hist).2 : ℚ) + 1) * roundSlack M ∧
    |(sumValid hist).1| ≤ ((sumValid hist).2 : ℚ) * M := by
  unfold sumValidF sumValid
  apply sumValidF_fold_close M hM0 hist h
  · rfl
  · simp [FILTER_WINDOW]
  · simp
  · simp

/-- The `float` moving average is within `8 * roundSlack M` of the exact moving average
when the samples in the buffer after the write have magnitude at most `M`. -/
theorem applyMovingAverageF_close (M x : ℚ) (s : BreathController) (hM0 : 0 ≤ M)
    (hhist : ∀ v, some v ∈ s.pressureHistory.set s.historyIndex (some x) → |v| ≤ M) :
    |(applyMovingAverageF x s).1 - (applyMovingAverage x s).1| ≤ 8 * roundSlack M := by
  obtain ⟨hc, h5, hclose, hS⟩ := sumValidF_close M hM0 _ hhist
  have hθ := roundSlack_pos hM0
  unfold applyMovingAverageF applyMovingAverage
  simp only []
  rw [hc]
  generalize sumValidF (s.pressureHistory.set s.historyIndex (some x)) = rF at hc hclose
  generalize sumValid (s.pressureHistory.set s.historyIndex (some x)) = r at hc h5 hclose hS
  obtain ⟨SF, cF⟩ := rF
  obtain ⟨S, c⟩ := r
  simp only [] at hc h5 hclose hS ⊢
  split_ifs with hpos
  · have hZ : |SF / c| ≤ M + (c + 1) * roundSlack M := by
      rw [abs_le] at hclose hS ⊢
      interval_cases c <;> norm_num at * <;> constructor <;>
        linarith [hclose.1, hclose.2, hS.1, hS.2]
    have herr := fl32_err (SF / c) _ hZ
    rw [abs_le] at hclose hS herr ⊢
    unfold roundSlack at *
    interval_cases c <;> norm_num at * <;> constructor <;>
      linarith [hclose.1, hclose.2, hS.1, hS.2, herr.1, herr.2]
  · rw [sub_self, abs_zero]
    linarith

theorem mem_set_bound (M x : ℚ) (s : BreathController) (hx : |x| ≤ M)
    (hs : ∀ v, some v ∈ s.pressureHistory → |v| ≤ M) :
    ∀ v, some v ∈ s.pressureHistory.set s.historyIndex (some x) → |v| ≤ M := by
  intro v hv
  rcases List.mem_or_eq_of_mem_set hv with h | h
  · exact hs v h
  · rw [Option.some.inj h]; exact hx

/-! ### Machine arithmetic: the filter stays near the range of its inputs -/

/-- The smoothing factor the program holds, and its `float` complement. -/
theorem ewma_alpha_F :
    EWMA_ALPHA_F = 5033165 / 16777216 ∧ fl32 (1 - EWMA_ALPHA_F) = 11744051 / 16777216 := by
  have r1 : fl64 (3 / 10) = 5404319552844595 / 18014398509481984 :=
    flRound_near 53 (-1022) _ (-2) (-54) 5404319552844595 _ (by norm_num)
  have r2 : fl32 (5404319552844595 / 18014398509481984) = 5033165 / 16777216 :=
    flRound_near 24 (-126) _ (-2) (-25) 10066330 _ (by norm_num)
  have r3 : fl32 (11744051 / 16777216) = 11744051 / 16777216 :=
    flRound_near 24 (-126) _ (-1) (-24) 11744051 _ (by norm_num)
  have h1 : EWMA_ALPHA_F = 5033165 / 16777216 := by
    unfold EWMA_ALPHA_F
    norm_num [r1, r2]
  refine ⟨h1, ?_⟩
  rw [h1]
  norm_num [r3]

/-- The `float` moving average of samples in `[lo, hi]`, with `[lo, hi]` inside `[-M, M]`,
is in `[lo - 8 * roundSlack M, hi + 8 * roundSlack M]`. -/
theorem applyMovingAverageF_near (lo hi M x : ℚ) (s : BreathController)
    (hlo : -M ≤ lo) (hhi : hi ≤ M) (hx : lo ≤ x ∧ x ≤ hi)
    (hs : ∀ v, some v ∈ s.pressureHistory → lo ≤ v ∧ v ≤ hi) :
    (lo - 8 * roundSlack M ≤ (applyMovingAverageF x s).1 ∧
      (applyMovingAverageF x s).1 ≤ hi + 8 * roundSlack M) ∧
    ∀ v, some v ∈ (applyMovingAverageF x s).2.pressureHistory → lo ≤ v ∧ v ≤ hi := by
  have hM0 : 0 ≤ M := by linarith [hx.1, hx.2]
  have hexact := applyMovingAverage_within lo hi x { s with isFilterInitialized := false } hx
    ⟨hs, fun h => Bool.noConfusion h⟩
  have hsame : (applyMovingAverage x { s with isFilterInitialized := false }).1
      = (applyMovingAverage x s).1 := rfl
  rw [hsame] at hexact
  have habs : ∀ v : ℚ, lo ≤ v ∧ v ≤ hi → |v| ≤ M := fun v hv =>
    abs_le.mpr ⟨by linarith [hv.1], by linarith [hv.2]⟩
  have hclose := applyMovingAverageF_close M x s hM0
    (mem_set_bound M x s (habs x hx) (fun v hv => habs v (hs v hv)))
  rw [abs_le] at hclose
  refine ⟨⟨by linarith [hclose.1, hexact.1.1], by linarith [hclose.2, hexact.1.2]⟩, ?_⟩
  exact hexact.2.1

/-- One `float` EWMA update of a value and a state that lie within `8 * roundSlack M` and
`24 * roundSlack M` of `[lo, hi]`: the result lies within `24 * roundSlack M` again. -/
theorem ewmaF_near (lo hi M m f : ℚ) (hlo : -M ≤ lo) (hhi : hi ≤ M) (hle : lo ≤ hi)
    (hm : lo - 8 * roundSlack M ≤ m ∧ m ≤ hi + 8 * roundSlack M)
    (hf : lo - 24 * roundSlack M ≤ f ∧ f ≤ hi + 24 * roundSlack M) :
    lo - 24 * roundSlack M
        ≤ fl32 (fl32 (EWMA_ALPHA_F * m) + fl32 (fl32 (1 - EWMA_ALPHA_F) * f)) ∧
      fl32 (fl32 (EWMA_ALPHA_F * m) + fl32 (fl32 (1 - EWMA_ALPHA_F) * f))
        ≤ hi + 24 * roundSlack M := by
  obtain ⟨ha, hb⟩ := ewma_alpha_F
  rw [hb, ha]
  have hM0 : 0 ≤ M := by linarith
  have hθ := roundSlack_pos hM0
  have z1 : |5033165 / 16777216 * m| ≤ 5033165 / 16777216 * (M + 8 * roundSlack M) := by
    rw [abs_le]; constructor <;> linarith [hm.1, hm.2]
  have z2 : |11744051 / 16777216 * f| ≤ 11744051 / 16777216 * (M + 24 * roundSlack M) := by
    rw [abs_le]; constructor <;> linarith [hf.1, hf.2]
  have e1 := fl32_err _ _ z1
  have e2 := fl32_err _ _ z2
  have z3 : |fl32 (5033165 / 16777216 * m) + fl32 (11744051 / 16777216 * f)|
      ≤ 5033165 / 16777216 * (M + 8 * roundSlack M)
        + roundSlack (5033165 / 16777216 * (M + 8 * roundSlack M))
        + (11744051 / 16777216 * (M + 24 * roundSlack M)
        + roundSlack (11744051 / 16777216 * (M + 24 * roundSlack M))) := by
    rw [abs_le] at e1 e2 z1 z2 ⊢
    constructor <;> linarith [e1.1, e1.2, e2.1, e2.2, z1.1, z1.2, z2.1, z2.2]
  have e3 := fl32_err _ _ z3
  rw [abs_le] at e1 e2 e3
  unfold roundSlack at *
  constructor <;> linarith [e1.1, e1.2, e2.1, e2.2, e3.1, e3.2, hm.1, hm.2, hf.1, hf.2]

/-- The two-stage filter in machine arithmetic keeps its output and its state within
`24 * roundSlack M` of `[lo, hi]`. -/
theorem filterStepF_near (lo hi M x : ℚ) (s : BreathController)
    (hlo : -M ≤ lo) (hhi : hi ≤ M) (hx : lo ≤ x ∧ x ≤ hi)
    (hs : FilterNear lo hi (24 * roundSlack M) s) :
    (lo - 24 * roundSlack M ≤ (filterStepF x s).1 ∧
      (filterStepF x s).1 ≤ hi + 24 * roundSlack M) ∧
    FilterNear lo hi (24 * roundSlack M) (filterStepF x s).2 := by
  have hM0 : 0 ≤ M := by linarith [hx.1, hx.2]
  have hθ := roundSlack_pos hM0
  obtain ⟨hm, hs1⟩ := applyMovingAverageF_near lo hi M x s hlo hhi hx hs.1
  have hfp : (applyMovingAverageF x s).2.filteredPressure = s.filteredPressure := rfl
  have hfi : (applyMovingAverageF x s).2.isFilterInitialized = s.isFilterInitialized := rfl
  unfold filterStepF
  generalize (applyMovingAverageF x s).1 = m at hm
  generalize (applyMovingAverageF x s).2 = s1 at hs1 hfp hfi
  unfold applyEWMAF
  cases hinit : s1.isFilterInitialized with
  | false =>
    simp only [Bool.not_false, if_true]
    have hm' : lo - 24 * roundSlack M ≤ m ∧ m ≤ hi + 24 * roundSlack M :=
      ⟨by linarith [hm.1], by linarith [hm.2]⟩
    exact ⟨hm', hs1, fun _ => hm'⟩
  | true =>
    have hf := hs.2 (hfi.symm.trans hinit)
    rw [← hfp] at hf
    have hb := ewmaF_near lo hi M m s1.filteredPressure hlo hhi (by linarith [hx.1, hx.2])
      hm hf
    simp only [Bool.not_true, Bool.false_eq_true, if_false]
    exact ⟨hb, hs1, fun _ => hb⟩

theorem filterNear_fresh (lo hi ε : ℚ) (s : BreathController)
    (hh : s.pressureHistory = List.replicate FILTER_WINDOW none)
    (hinit : s.isFilterInitialized = false) : FilterNear lo hi ε s := by
  constructor
  · intro v hv
    rw [hh] at hv
    exact absurd (List.eq_of_mem_replicate hv) (by simp)
  · intro h
    rw [hinit] at h
    exact absurd h (by decide)

theorem filterRunF_near (lo hi M : ℚ) (hlo : -M ≤ lo) (hhi : hi ≤ M) (xs : List ℚ) :
    ∀ s : BreathController, FilterNear lo hi (24 * roundSlack M) s →
      (∀ x ∈ xs, lo ≤ x ∧ x ≤ hi) →
      ∀ o ∈ (filterRunF s xs).1,
        lo - 24 * roundSlack M ≤ o ∧ o ≤ hi + 24 * roundSlack M := by
  induction xs with
  | nil => intro s _ _ o ho; simp [filterRunF] at ho
  | cons x rest ih =>
    intro s hs hx o ho
    obtain ⟨hout, hnext⟩ :=
      filterStepF_near lo hi M x s hlo hhi (hx x (List.mem_cons_self _ _)) hs
    simp only [filterRunF, List.mem_cons] at ho
    rcases ho with ho | ho
    · rw [ho]; exact hout
    · exact ih _ hnext (fun y hy => hx y (List.mem_cons_of_mem _ hy)) o ho

theorem filterRunF_length (xs : List ℚ) :
    ∀ s : BreathController, (filterRunF s xs).1.length = xs.length := by
  induction xs with
  | nil => intro s; rfl
  | cons x rest ih => intro s; simp [filterRunF, ih]

/-- The values returned for a prefix of the samples do not depend on the later samples. -/
theorem filterRunF_append (xs ys : List ℚ) :
    ∀ s : BreathController,
      (filterRunF s (xs ++ ys)).1
        = (filterRunF s xs).1 ++ (filterRunF (filterRunF s xs).2 ys).1 := by
  induction xs with
  | nil => intro s; rfl
  | cons x rest ih =>
    intro s
    rw [List.cons_append, filterRunF, filterRunF, ih]
    rfl

/-- The first call on a freshly constructed filter returns its sample, when that is a
`float` value. -/
theorem filterStepF_first (x : ℚ) (s : BreathController)
    (hh : s.pressureHistory = List.replicate FILTER_WINDOW none)
    (hinit : s.isFilterInitialized = false) (hx : fl32 x = x) :
    (filterStepF x s).1 = x := by
  have hr : List.range 5 = [0, 1, 2, 3, 4] := by decide
  unfold filterStepF applyEWMAF
  have hfi : (applyMovingAverageF x s).2.isFilterInitialized = false := hinit
  rw [hfi]
  simp only [Bool.not_false, if_true]
  unfold applyMovingAverageF
  rw [hh]
  rcases Nat.lt_or_ge s.historyIndex 5 with hlt | hge
  · interval_cases h : s.historyIndex <;>
      simp [sumValidF, FILTER_WINDOW, hr, hx]
  · rw [List.set_eq_of_length_le (by simpa [FILTER_WINDOW] using hge)]
    simp [sumValidF, FILTER_WINDOW, hr]

/-! ### Machine arithmetic: the moving average on a full ring buffer -/

theorem movingAverageRunF_length (xs : List ℚ) :
    ∀ s : BreathController, (movingAverageRunF s xs).1.length = xs.length := by
  induction xs with
  | nil => intro s; rfl
  | cons x rest ih => intro s; simp [movingAverageRunF, ih]

/-- The last value of a run is the value of the last call, made on the controller the
earlier calls leave. -/
theorem movingAverageRunF_last (ys : List ℚ) (x : ℚ) :
    ∀ s : BreathController,
      (movingAverageRunF s (ys ++ [x])).1.getLast?
        = some (applyMovingAverageF x (movingAverageRun s ys).2).1 := by
  induction ys with
  | nil => intro s; rfl
  | cons y rest ih =>
    intro s
    have hne : (movingAverageRunF (applyMovingAverageF y s).2 (rest ++ [x])).1 ≠ [] := by
      intro h0
      have hl := movingAverageRunF_length (rest ++ [x]) (applyMovingAverageF y s).2
      rw [h0] at hl
      simp at hl
    obtain ⟨o, os, hos⟩ := List.exists_cons_of_ne_nil hne
    rw [List.cons_append, movingAverageRunF]
    simp only []
    rw [hos, List.getLast?_cons_cons, ← hos]
    exact ih _

theorem movingAverageRun_last (ys : List ℚ) (x : ℚ) :
    ∀ s : BreathController,
      (movingAverageRun s (ys ++ [x])).1.getLast?
          = some (applyMovingAverage x (movingAverageRun s ys).2).1 ∧
        (movingAverageRun s (ys ++ [x])).2
          = (applyMovingAverage x (movingAverageRun s ys).2).2 := by
  induction ys with
  | nil => intro s; exact ⟨rfl, rfl⟩
  | cons y rest ih =>
    intro s
    have hne : (movingAverageRun (applyMovingAverage y s).2 (rest ++ [x])).1 ≠ [] := by
      intro h0
      have hl := movingAverageRun_length (rest ++ [x]) (applyMovingAverage y s).2
      rw [h0] at hl
      simp at hl
    obtain ⟨o, os, hos⟩ := List.exists_cons_of_ne_nil hne
    refine ⟨?_, (ih (applyMovingAverage y s).2).2⟩
    rw [List.cons_append, movingAverageRun]
    simp only []
    rw [hos, List.getLast?_cons_cons, ← hos]
    exact (ih _).1

/-- On a buffer that is full after the write, the value returned is the `float` sum of the
five slots in slot order, divided by 5 in `float`. -/
theorem applyMovingAverageF_ring (x a b c d e : ℚ) (s : BreathController)
    (h : RingFull (applyMovingAverage x s).2 a b c d e) :
    (applyMovingAverageF x s).1
      = fl32 (floatSum
          ([a, b, c, d, e].rotate ((5 - (applyMovingAverage x s).2.historyIndex) % 5)) / 5) := by
  have hout : (applyMovingAverageF x s).1
      = if (sumValidF (applyMovingAverage x s).2.pressureHistory).2 > 0 then
          fl32 ((sumValidF (applyMovingAverage x s).2.pressureHistory).1
            / (sumValidF (applyMovingAverage x s).2.pressureHistory).2)
        else x := rfl
  have r0 : [a, b, c, d, e].rotate 0 = [a, b, c, d, e] := rfl
  have r1 : [a, b, c, d, e].rotate 1 = [b, c, d, e, a] := rfl
  have r2 : [a, b, c, d, e].rotate 2 = [c, d, e, a, b] := rfl
  have r3 : [a, b, c, d, e].rotate 3 = [d, e, a, b, c] := rfl
  have r4 : [a, b, c, d, e].rotate 4 = [e, a, b, c, d] := rfl
  rw [hout]
  unfold RingFull at h
  rcases h with ⟨hi, hh⟩ | ⟨hi, hh⟩ | ⟨hi, hh⟩ | ⟨hi, hh⟩ | ⟨hi, hh⟩ <;>
    rw [hh, hi]
  · simp [sumValidF, floatSum, range_filter_window]
  · simp [sumValidF, floatSum, range_filter_window, r4]
  · simp [sumValidF, floatSum, range_filter_window, r3]
  · simp [sumValidF, floatSum, range_filter_window, r2]
  · simp [sumValidF, floatSum, range_filter_window, r1]

theorem ringFull_mem (s : BreathController) (a b c d e v : ℚ) (h : RingFull s a b c d e)
    (hv : some v ∈ s.pressureHistory) : v ∈ [a, b, c, d, e] := by
  unfold RingFull at h
  rcases h with ⟨_, hh⟩ | ⟨_, hh⟩ | ⟨_, hh⟩ | ⟨_, hh⟩ | ⟨_, hh⟩ <;>
    rw [hh] at hv <;> simp at hv <;> simp <;> tauto

/-- From a freshly constructed filter, the last value returned by a run of at least five
calls in machine arithmetic: the slot-order `float` mean of the last five samples, which
is within `8 * roundSlack M` of their exact mean. -/
theorem movingAverageRunF_steady (s : BreathController) (xs : List ℚ)
    (hh : s.pressureHistory = List.replicate FILTER_WINDOW none) (hi : s.historyIndex = 0)
    (h5 : 5 ≤ xs.length) :
    (movingAverageRunF s xs).1.getLast?
        = some (fl32 (floatSum
            ((xs.drop (xs.length - 5)).rotate ((5 - xs.length % 5) % 5)) / 5)) ∧
      ∀ M, (∀ x ∈ xs.drop (xs.length - 5), |x| ≤ M) →
        |fl32 (floatSum ((xs.drop (xs.length - 5)).rotate ((5 - xs.length % 5) % 5)) / 5)
          - (xs.drop (xs.length - 5)).sum / 5| ≤ 8 * roundSlack M := by
  have hne : xs ≠ [] := by
    intro h0
    rw [h0] at h5
    simp at h5
  obtain ⟨a, b, c, d, e, hdrop, hfull⟩ := steady_state_ring s xs hh hi h5
  have hidx : (movingAverageRun s xs).2.historyIndex = xs.length % 5 := by
    have := (movingAverageRun_index xs s (by rw [hi]; norm_num)).1
    rw [this, hi, Nat.zero_add]
  have hexact := movingAverageRun_steady s xs hh hi h5
  rw [← List.dropLast_append_getLast hne] at hfull hidx hexact
  obtain ⟨e1, e2⟩ := movingAverageRun_last xs.dropLast (xs.getLast hne) s
  rw [e2] at hfull hidx
  rw [e1] at hexact
  have hF := movingAverageRunF_last xs.dropLast (xs.getLast hne) s
  rw [List.dropLast_append_getLast hne] at hF hexact
  have hring := applyMovingAverageF_ring _ a b c d e _ hfull
  rw [hidx, List.dropLast_append_getLast hne] at hring
  rw [hF, hdrop, ← hring]
  refine ⟨rfl, ?_⟩
  intro M hM
  have hM0 : 0 ≤ M := le_trans (abs_nonneg a) (hM a (by simp))
  have hclose := applyMovingAverageF_close M (xs.getLast hne)
    (movingAverageRun s xs.dropLast).2 hM0
    (fun v hv => hM v (ringFull_mem _ a b c d e v hfull hv))
  rw [Option.some.inj hexact, hdrop] at hclose
  exact hclose

/-! ## Claims -/

/-- C1. Tuner clamp invariant: from any controller whose parameters have their initial
values (pressureThreshold 0.5, responseFactor 1.0), after any number of
`adaptiveModelAdjustment` invocations, each made with an arbitrary deviation history
and an arbitrary breath count, `0.2 ≤ pressureThreshold ≤ 2.0` and
`0.5 ≤ responseFactor ≤ 2.0`. -/
theorem C1_tuner_clamp_invariant (s : BreathController)
    (ht : s.pressureThreshold = BREATH_THRESHOLD) (hr : s.responseFactor = 1)
    (inputs : List (List ℚ × ℤ)) :
    0.2 ≤ (tunerRun s inputs).pressureThreshold ∧ (tunerRun s inputs).pressureThreshold ≤ 2.0 ∧
    0.5 ≤ (tunerRun s inputs).responseFactor ∧ (tunerRun s inputs).responseFactor ≤ 2.0 := by
  have h0 : ParamsInBounds s := by
    unfold ParamsInBounds
    rw [ht, hr]
    norm_num [BREATH_THRESHOLD]
  exact tunerRun_bounds inputs s h0

/-- Witness for C1: three invocations from the constructed controller, the first with a
large deviation history at breath count 0, the second gated off at breath count 3. -/
theorem C1_tuner_clamp_invariant_witness :
    BreathController.init.pressureThreshold = BREATH_THRESHOLD ∧
    BreathController.init.responseFactor = 1 ∧
    0.2 ≤ (tunerRun BreathController.init
      [(List.replicate 10 4, 0), ([], 3), (List.replicate 10 0, 5)]).pressureThreshold ∧
    (tunerRun BreathController.init
      [(List.replicate 10 4, 0), ([], 3), (List.replicate 10 0, 5)]).pressureThreshold ≤ 2.0 ∧
    0.5 ≤ (tunerRun BreathController.init
      [(List.replicate 10 4, 0), ([], 3), (List.replicate 10 0, 5)]).responseFactor ∧
    (tunerRun BreathController.init
      [(List.replicate 10 4, 0), ([], 3), (List.replicate 10 0, 5)]).responseFactor ≤ 2.0 :=
  ⟨rfl, rfl, C1_tuner_clamp_invariant BreathController.init rfl rfl _⟩

/-- C2 (as stated, refuted). From the constructed controller (EXHALE, no previous
pressure, breathCount 0, threshold 0.5), feeding 10.0, 10.0, 10.7, 10.9, 10.5, 9.8 does
not give the trace EXHALE, EXHALE, INHALE, PEAK, PEAK, EXHALE: the fourth sample 10.9 is
not below its predecessor 10.7, so the state after it is still INHALE. -/
theorem C2_claimed_trace_fails :
    (classifyRun 64 BreathController.init
        [(0, 10.0), (100, 10.0), (200, 10.7), (300, 10.9), (400, 10.5), (500, 9.8)]).map
      BreathController.currentState
      ≠ [EXHALE, EXHALE, INHALE, PEAK, PEAK, EXHALE] := by
  simp [classifyRun, classify, detectBreathState, BreathController.init, BREATH_THRESHOLD]
  norm_num
  decide

/-- C2 (amended). From any controller in state EXHALE on its first classifier call, with
breathCount 0 and threshold 0.5, feeding 10.0, 10.0, 10.7, 10.9, 10.5, 9.8 (at any
timestamps) gives the state trace EXHALE (seed), EXHALE, INHALE, INHALE, PEAK, EXHALE,
and breathCount is 0 after each of the first five calls and 1 after the last. -/
theorem C2_end_to_end_trace (w t1 t2 t3 t4 t5 t6 : ℕ) (s : BreathController)
    (hs : s.currentState = EXHALE) (hf : s.firstCall = true) (hc : s.breathCount = 0)
    (ht : s.pressureThreshold = 0.5) :
    (classifyRun w s
        [(t1, 10.0), (t2, 10.0), (t3, 10.7), (t4, 10.9), (t5, 10.5), (t6, 9.8)]).map
      BreathController.currentState
      = [EXHALE, EXHALE, INHALE, INHALE, PEAK, EXHALE] ∧
    (classifyRun w s
        [(t1, 10.0), (t2, 10.0), (t3, 10.7), (t4, 10.9), (t5, 10.5), (t6, 9.8)]).map
      BreathController.breathCount
      = [0, 0, 0, 0, 0, 1] := by
  simp [classifyRun, classify, detectBreathState, hs, hf, hc, ht]
  norm_num

/-- Witness for C2 (amended): the constructed controller, one tick every 100 ms. -/
theorem C2_end_to_end_trace_witness :
    BreathController.init.currentState = EXHALE ∧
    BreathController.init.firstCall = true ∧
    BreathController.init.breathCount = 0 ∧
    BreathController.init.pressureThreshold = 0.5 ∧
    (classifyRun 64 BreathController.init
        [(0, 10.0), (100, 10.0), (200, 10.7), (300, 10.9), (400, 10.5), (500, 9.8)]).map
      BreathController.currentState
      = [EXHALE, EXHALE, INHALE, INHALE, PEAK, EXHALE] ∧
    (classifyRun 64 BreathController.init
        [(0, 10.0), (100, 10.0), (200, 10.7), (300, 10.9), (400, 10.5), (500, 9.8)]).map
      BreathController.breathCount
      = [0, 0, 0, 0, 0, 1] :=
  ⟨rfl, rfl, rfl, rfl,
    C2_end_to_end_trace 64 0 100 200 300 400 500 BreathController.init rfl rfl rfl rfl⟩

/-- C3 (as stated, refuted). State EXHALE, threshold 0.5, previous pressure the `float`
nearest 15.7 and sample the `float` nearest 16.2: the sample exceeds previous pressure plus
threshold, but the `float` sum of previous pressure and threshold rounds (a tie, to even)
to the sample itself, so the guard is false and the call returns EXHALE. -/
theorem C3_rounded_sum_hides_rise :
    fl32 (16462643 / 1048576) = 16462643 / 1048576 ∧
    fl32 (4246733 / 262144) = 4246733 / 262144 ∧
    (seeded EXHALE (16462643 / 1048576)).firstCall = false ∧
    (seeded EXHALE (16462643 / 1048576)).lastPressure = some (16462643 / 1048576) ∧
    (seeded EXHALE (16462643 / 1048576)).currentState = EXHALE ∧
    (seeded EXHALE (16462643 / 1048576)).pressureThreshold = 1 / 2 ∧
    (4246733 / 262144 : ℚ) > 16462643 / 1048576 + 1 / 2 ∧
    (detectBreathStateF 64 0 (4246733 / 262144) (seeded EXHALE (16462643 / 1048576))).1
      = EXHALE := by
  have r1 : fl32 (16462643 / 1048576) = 16462643 / 1048576 :=
    flRound_near 24 (-126) _ 3 (-20) 16462643 _ (by norm_num)
  have r2 : fl32 (4246733 / 262144) = 4246733 / 262144 :=
    flRound_near 24 (-126) _ 4 (-19) 8493466 _ (by norm_num)
  have r3 : fl32 (16986931 / 1048576) = 4246733 / 262144 :=
    flRound_tie 24 (-126) _ 4 (-19) 8493465 8493466 _ (by norm_num)
  refine ⟨r1, r2, rfl, rfl, rfl,
    by norm_num [seeded, BreathController.init, BREATH_THRESHOLD], by norm_num, ?_⟩
  rw [detectF_exhale 64 0 _ (16462643 / 1048576) _ rfl rfl rfl]
  norm_num [seeded, BreathController.init, BREATH_THRESHOLD, r3]

/-- C3 (amended). Classifier threshold hysteresis: on a non-first call in state EXHALE with
previous pressure `prevP`, the returned state is INHALE exactly when `p` exceeds the
`float` sum of `prevP` and the threshold (the exact sum rounded to single precision), in
which case `minPressure` becomes `p`; otherwise the returned state is EXHALE. With
threshold 0.5 and `prevP = 10.0` the sum is 10.5 without rounding, so the result is INHALE
exactly when `p > 10.5`: the `float` nearest 10.6 gives INHALE, the one nearest 10.4
gives EXHALE. -/
theorem C3_exhale_hysteresis (w now : ℕ) (p prevP : ℚ) (s : BreathController)
    (hf : s.firstCall = false) (hl : s.lastPressure = some prevP)
    (hs : s.currentState = EXHALE) :
    ((detectBreathStateF w now p s).1 = INHALE ↔ p > fl32 (prevP + s.pressureThreshold)) ∧
    (p > fl32 (prevP + s.pressureThreshold) →
      (detectBreathStateF w now p s).2.minPressure = p) ∧
    (¬ p > fl32 (prevP + s.pressureThreshold) → (detectBreathStateF w now p s).1 = EXHALE) ∧
    (s.pressureThreshold = 0.5 → prevP = 10.0 →
      ((detectBreathStateF w now p s).1 = INHALE ↔ p > 10.5) ∧
      (p = fl32 10.6 → (detectBreathStateF w now p s).1 = INHALE) ∧
      (p = fl32 10.4 → (detectBreathStateF w now p s).1 = EXHALE)) := by
  have r1 : fl32 (21 / 2) = 21 / 2 :=
    flRound_near 24 (-126) _ 3 (-20) 11010048 _ (by norm_num)
  have r2 : fl32 (53 / 5) = 5557453 / 524288 :=
    flRound_near 24 (-126) _ 3 (-20) 11114906 _ (by norm_num)
  have r3 : fl32 (52 / 5) = 5452595 / 524288 :=
    flRound_near 24 (-126) _ 3 (-20) 10905190 _ (by norm_num)
  rw [detectF_exhale w now p prevP s hf hl hs]
  refine ⟨?_, ?_, ?_, ?_⟩
  · by_cases h : p > fl32 (prevP + s.pressureThreshold)
    · simp [h]
    · simp [h]
  · intro h
    simp [h]
  · intro h
    simp [h]
  · intro ht hp
    subst hp
    rw [ht]
    have hsum : fl32 (10.0 + 0.5) = 21 / 2 := by norm_num [r1]
    rw [hsum]
    refine ⟨?_, ?_, ?_⟩
    · by_cases h : p > 21 / 2
      · have h' : p > 10.5 := by norm_num; exact h
        simp [h, h']
      · have h' : ¬ p > 10.5 := by norm_num; exact not_lt.mp h
        simp [h, h']
    · intro h
      subst h
      norm_num [r2]
    · intro h
      subst h
      norm_num [r3]

/-- Witness for C3: state EXHALE, previous pressure 10.0, threshold 0.5, sample the `float`
nearest 10.6. -/
theorem C3_exhale_hysteresis_witness :
    (seeded EXHALE 10.0).firstCall = false ∧
    (seeded EXHALE 10.0).lastPressure = some 10.0 ∧
    (seeded EXHALE 10.0).currentState = EXHALE ∧
    (seeded EXHALE 10.0).pressureThreshold = 0.5 ∧
    (detectBreathStateF 64 0 (fl32 10.6) (seeded EXHALE 10.0)).1 = INHALE :=
  ⟨rfl, rfl, rfl, rfl,
    ((C3_exhale_hysteresis 64 0 (fl32 10.6) 10.0 (seeded EXHALE 10.0) rfl rfl rfl).2.2.2
      rfl rfl).2.1 rfl⟩

/-- C4 (as stated, refuted). State PEAK, previous pressure 10, threshold 0.5 and
`breathCount` at `INT_MAX = 2147483647`: the sample 9 moves the state from PEAK to EXHALE,
and the `int` increment takes the counter to `INT_MIN = -2147483648`, not to the old value
plus 1; the counter has decreased. -/
theorem C4_counter_wraps_at_int_max :
    ({ seeded PEAK 10 with breathCount := 2147483647 } : BreathController).currentState
      = PEAK ∧
    (detectBreathStateF 64 0 9 { seeded PEAK 10 with breathCount := 2147483647 }).1
      = EXHALE ∧
    (detectBreathStateF 64 0 9 { seeded PEAK 10 with breathCount := 2147483647 }).2.breathCount
      = -2147483648 ∧
    (detectBreathStateF 64 0 9 { seeded PEAK 10 with breathCount := 2147483647 }).2.breathCount
      < ({ seeded PEAK 10 with breathCount := 2147483647 } : BreathController).breathCount := by
  have r1 : fl32 (19 / 2) = 19 / 2 :=
    flRound_near 24 (-126) _ 3 (-20) 9961472 _ (by norm_num)
  have hw : wrapInt32 2147483648 = -2147483648 := by decide
  rw [detectF_peak 64 0 9 10 _ rfl rfl rfl]
  norm_num [seeded, BreathController.init, BREATH_THRESHOLD, r1, hw]

/-- C4 (amended). Breath counting: a call that does not move the state from PEAK to EXHALE
leaves `breathCount` unchanged, whatever its value; a call that does applies the `int`
increment, which is the old value plus 1 whenever the old value is below `INT_MAX`
(`2 ^ 31 - 1`). So below `INT_MAX` the counter never decreases; over a run of calls during
which it cannot reach `INT_MAX` the increase equals the number of PEAK to EXHALE edges of
the state trace; and a cycle that starts in EXHALE, spends `a + 1` calls in INHALE and
`b + 1` calls in PEAK and returns to EXHALE increases `breathCount` by exactly 1. -/
theorem C4_breath_counting (w now : ℕ) (p : ℚ) (s : BreathController)
    (inputs : List (ℕ × ℚ)) (a b : ℕ) (hlo : -2 ^ 31 ≤ s.breathCount) :
    (¬ (s.currentState = PEAK ∧ (detectBreathStateF w now p s).1 = EXHALE) →
      (detectBreathStateF w now p s).2.breathCount = s.breathCount) ∧
    (s.breathCount < 2 ^ 31 - 1 →
      (detectBreathStateF w now p s).2.breathCount
        = s.breathCount +
            (if s.currentState = PEAK ∧ (detectBreathStateF w now p s).1 = EXHALE
              then 1 else 0) ∧
      s.breathCount ≤ (detectBreathStateF w now p s).2.breathCount) ∧
    (s.breathCount + (inputs.length : ℤ) < 2 ^ 31 →
      (classifyFinalF w s inputs).breathCount
        = s.breathCount +
            (peakExhaleEdges
              (s.currentState ::
                (classifyRunF w s inputs).map BreathController.currentState) : ℕ)) ∧
    (s.breathCount + (inputs.length : ℤ) < 2 ^ 31 → s.currentState = EXHALE →
      (classifyRunF w s inputs).map BreathController.currentState
        = List.replicate (a + 1) INHALE ++ (List.replicate (b + 1) PEAK ++ [EXHALE]) →
      (classifyFinalF w s inputs).breathCount = s.breathCount + 1) := by
  refine ⟨?_, ?_, classifyFinalF_breathCount w inputs s hlo, ?_⟩
  · intro h
    rw [detectF_breathCount, if_neg h]
  · intro hhi
    rw [detectF_breathCount]
    split_ifs
    · rw [wrapInt32_of_range _ (by linarith) (by linarith)]
      exact ⟨rfl, by linarith⟩
    · simp
  · intro hrun hs htrace
    rw [classifyFinalF_breathCount w inputs s hlo hrun, htrace, hs, peakExhaleEdges_cycle]
    simp

/-- Witness for C4: from state EXHALE with previous pressure 10.0, threshold 0.5 and
counter 0, the samples 10.75, 10.5, 9.75 give the trace INHALE, PEAK, EXHALE and the
counter goes from 0 to 1. -/
theorem C4_breath_counting_witness :
    -2 ^ 31 ≤ (seeded EXHALE 10.0).breathCount ∧
    (seeded EXHALE 10.0).breathCount
      + (([(100, 10.75), (200, 10.5), (300, 9.75)] : List (ℕ × ℚ)).length : ℤ) < 2 ^ 31 ∧
    (seeded EXHALE 10.0).currentState = EXHALE ∧
    (classifyRunF 64 (seeded EXHALE 10.0) [(100, 10.75), (200, 10.5), (300, 9.75)]).map
        BreathController.currentState
      = List.replicate (0 + 1) INHALE ++ (List.replicate (0 + 1) PEAK ++ [EXHALE]) ∧
    (classifyFinalF 64 (seeded EXHALE 10.0)
        [(100, 10.75), (200, 10.5), (300, 9.75)]).breathCount
      = (seeded EXHALE 10.0).breathCount + 1 := by
  have r1 : fl32 (21 / 2) = 21 / 2 :=
    flRound_near 24 (-126) _ 3 (-20) 11010048 _ (by norm_num)
  have r2 : fl32 10 = 10 :=
    flRound_near 24 (-126) _ 3 (-20) 10485760 _ (by norm_num)
  have htrace : (classifyRunF 64 (seeded EXHALE 10.0)
      [(100, 10.75), (200, 10.5), (300, 9.75)]).map BreathController.currentState
      = List.replicate (0 + 1) INHALE ++ (List.replicate (0 + 1) PEAK ++ [EXHALE]) := by
    norm_num [classifyRunF, classifyF, detectBreathStateF, seeded, BreathController.init,
      BREATH_THRESHOLD, r1, r2]
  exact ⟨by decide, by decide, rfl, htrace,
    (C4_breath_counting 64 0 0 (seeded EXHALE 10.0) [(100, 10.75), (200, 10.5), (300, 9.75)]
      0 0 (by decide)).2.2.2 (by decide) rfl htrace⟩

/-- C8. First-call guard: on the first call (`firstCall` still set), for every pressure
`p` and every current state, the function returns the current state, stores `p` as the
previous pressure, and leaves breathCount, breathPeriod, lastBreathTime, minPressure and
maxPressure as they were; the only fields written are `lastPressure` and `firstCall`. -/
theorem C8_first_call_guard (w now : ℕ) (p : ℚ) (s : BreathController)
    (hf : s.firstCall = true) :
    (detectBreathState w now p s).1 = s.currentState ∧
    (detectBreathState w now p s).2.lastPressure = some p ∧
    (detectBreathState w now p s).2.breathCount = s.breathCount ∧
    (detectBreathState w now p s).2.breathPeriod = s.breathPeriod ∧
    (detectBreathState w now p s).2.lastBreathTime = s.lastBreathTime ∧
    (detectBreathState w now p s).2.minPressure = s.minPressure ∧
    (detectBreathState w now p s).2.maxPressure = s.maxPressure ∧
    (detectBreathState w now p s).2 = { s with lastPressure := some p, firstCall := false } := by
  rw [detect_first w now p s hf]
  exact ⟨rfl, rfl, rfl, rfl, rfl, rfl, rfl, rfl⟩

/-- Witness for C8: the constructed controller put in state PEAK, a sample far below any
threshold; the state stays PEAK and the counter stays 0. -/
theorem C8_first_call_guard_witness :
    ({ BreathController.init with currentState := PEAK } : BreathController).firstCall = true ∧
    (detectBreathState 64 7 (-50) { BreathController.init with currentState := PEAK }).1 = PEAK ∧
    (detectBreathState 64 7 (-50) { BreathController.init with currentState := PEAK }).2.breathCount
      = 0 :=
  ⟨rfl,
    (C8_first_call_guard 64 7 (-50) { BreathController.init with currentState := PEAK } rfl).1,
    (C8_first_call_guard 64 7 (-50)
      { BreathController.init with currentState := PEAK } rfl).2.2.1⟩

/-- C9 (as stated, refuted). Row (b). State PEAK, previous pressure 3284009/32768
(about 100.22) and sample 3272065/32768 (about 99.855), both `float` values, with the
threshold the tuner has reached after three start-up invocations (6115295/16777216, about
0.3645): the sample is below previous pressure minus threshold, but the `float` difference
rounds to the sample itself, so the guard is false, the call returns PEAK and no breath is
counted. -/
theorem C9_rounded_difference_hides_fall :
    (Nat.iterate adaptiveModelAdjustmentF 3 BreathController.init).pressureThreshold
      = 6115295 / 16777216 ∧
    fl32 (3284009 / 32768) = 3284009 / 32768 ∧
    fl32 (3272065 / 32768) = 3272065 / 32768 ∧
    (3272065 / 32768 : ℚ) < 3284009 / 32768 - 6115295 / 16777216 ∧
    (detectBreathStateF 64 0 (3272065 / 32768)
      { seeded PEAK (3284009 / 32768) with pressureThreshold := 6115295 / 16777216 }).1
      = PEAK ∧
    (detectBreathStateF 64 0 (3272065 / 32768)
      { seeded PEAK (3284009 / 32768) with
        pressureThreshold := 6115295 / 16777216 }).2.breathCount = 0 := by
  have hr : List.range 10 = [0, 1, 2, 3, 4, 5, 6, 7, 8, 9] := by decide
  have hm : Int.tmod 0 5 = 0 := by decide
  have z32 : fl32 0 = 0 := flRound_zero 24 (-126)
  have r1 : fl64 (3 / 2) = 3 / 2 :=
    flRound_near 53 (-1022) _ 0 (-52) 6755399441055744 _ (by norm_num)
  have r2 : fl64 (3 / 4) = 3 / 4 :=
    flRound_near 53 (-1022) _ (-1) (-53) 6755399441055744 _ (by norm_num)
  have r3 : fl64 (7 / 10) = 3152519739159347 / 4503599627370496 :=
    flRound_near 53 (-1022) _ (-1) (-53) 6305039478318694 _ (by norm_num)
  have r4 : fl64 (3152519739159347 / 9007199254740992) = 3152519739159347 / 9007199254740992 :=
    flRound_near 53 (-1022) _ (-2) (-54) 6305039478318694 _ (by norm_num)
  have r5 : fl64 (9 / 10) = 8106479329266893 / 9007199254740992 :=
    flRound_near 53 (-1022) _ (-1) (-53) 8106479329266893 _ (by norm_num)
  have r6 : fl64 (8106479329266893 / 18014398509481984) = 8106479329266893 / 18014398509481984 :=
    flRound_near 53 (-1022) _ (-2) (-54) 8106479329266893 _ (by norm_num)
  have r7 : fl32 (8106479329266893 / 18014398509481984) = 7549747 / 16777216 :=
    flRound_near 24 (-126) _ (-2) (-25) 15099494 _ (by norm_num)
  have r8 : fl64 (19 / 20) = 4278419646001971 / 4503599627370496 :=
    flRound_near 53 (-1022) _ (-1) (-53) 8556839292003942 _ (by norm_num)
  have r9 : fl64 (4278419646001971 / 4503599627370496) = 4278419646001971 / 4503599627370496 :=
    flRound_near 53 (-1022) _ (-1) (-53) 8556839292003942 _ (by norm_num)
  have r10 : fl32 (4278419646001971 / 4503599627370496) = 15938355 / 16777216 :=
    flRound_near 24 (-126) _ (-1) (-24) 15938355 _ (by norm_num)
  have r11 : fl64 (1 / 5) = 3602879701896397 / 18014398509481984 :=
    flRound_near 53 (-1022) _ (-3) (-55) 7205759403792794 _ (by norm_num)
  have r12 : fl64 (2) = 2 :=
    flRound_near 53 (-1022) _ 1 (-51) 4503599627370496 _ (by norm_num)
  have r13 : fl32 (7549747 / 16777216) = 7549747 / 16777216 :=
    flRound_near 24 (-126) _ (-2) (-25) 15099494 _ (by norm_num)
  have r14 : fl64 (1 / 2) = 1 / 2 :=
    flRound_near 53 (-1022) _ (-1) (-53) 4503599627370496 _ (by norm_num)
  have r15 : fl32 (15938355 / 16777216) = 15938355 / 16777216 :=
    flRound_near 24 (-126) _ (-1) (-24) 15938355 _ (by norm_num)
  have r16 : fl64 (22649241 / 33554432) = 22649241 / 33554432 :=
    flRound_near 53 (-1022) _ (-1) (-53) 6079859335888896 _ (by norm_num)
  have r17 : fl64 (23800726443159062535209 / 75557863725914323419136)
      = 5674535380162969 / 18014398509481984 :=
    flRound_near 53 (-1022) _ (-2) (-54) 5674535380162969 _ (by norm_num)
  have r18 : fl64 (61201867996694737626071 / 151115727451828646838272)
      = 7295831203066675 / 18014398509481984 :=
    flRound_near 53 (-1022) _ (-2) (-54) 7295831203066675 _ (by norm_num)
  have r19 : fl32 (7295831203066675 / 18014398509481984) = 13589545 / 33554432 :=
    flRound_near 24 (-126) _ (-2) (-25) 13589545 _ (by norm_num)
  have r20 : fl64 (68190971156953744497705 / 75557863725914323419136) = 60565749 / 67108864 :=
    flRound_near 53 (-1022) _ (-1) (-53) 8128997225398272 _ (by norm_num)
  have r21 : fl32 (60565749 / 67108864) = 15141437 / 16777216 :=
    flRound_near 24 (-126) _ (-1) (-24) 15141437 _ (by norm_num)
  have r22 : fl32 (13589545 / 33554432) = 13589545 / 33554432 :=
    flRound_near 24 (-126) _ (-2) (-25) 13589545 _ (by norm_num)
  have r23 : fl32 (15141437 / 16777216) = 15141437 / 16777216 :=
    flRound_near 24 (-126) _ (-1) (-24) 15141437 _ (by norm_num)
  have r24 : fl64 (40768635 / 67108864) = 40768635 / 67108864 :=
    flRound_near 53 (-1022) _ (-1) (-53) 5471873563361280 _ (by norm_num)
  have r25 : fl64 (42841308858694208227115 / 151115727451828646838272) = 19025363 / 67108864 :=
    flRound_near 53 (-1022) _ (-2) (-54) 5107081992470528 _ (by norm_num)
  have r26 : fl64 (110163365636642259433685 / 302231454903657293676544) = 24461181 / 67108864 :=
    flRound_near 53 (-1022) _ (-2) (-54) 6566248276033536 _ (by norm_num)
  have r27 : fl32 (24461181 / 67108864) = 6115295 / 16777216 :=
    flRound_tie 24 (-126) _ (-2) (-25) 12230590 12230590 _ (by norm_num)
  have r28 : fl64 (64781421529501145772327 / 75557863725914323419136)
      = 1930636809155379 / 2251799813685248 :=
    flRound_near 53 (-1022) _ (-1) (-53) 7722547236621516 _ (by norm_num)
  have r29 : fl32 (1930636809155379 / 2251799813685248) = 14384365 / 16777216 :=
    flRound_near 24 (-126) _ (-1) (-24) 14384365 _ (by norm_num)
  have r30 : fl32 (6115295 / 16777216) = 6115295 / 16777216 :=
    flRound_near 24 (-126) _ (-2) (-25) 12230590 _ (by norm_num)
  have r31 : fl32 (14384365 / 16777216) = 14384365 / 16777216 :=
    flRound_near 24 (-126) _ (-1) (-24) 14384365 _ (by norm_num)
  have r32 : fl32 (3284009 / 32768) = 3284009 / 32768 :=
    flRound_near 24 (-126) _ 6 (-17) 13136036 _ (by norm_num)
  have r33 : fl32 (3272065 / 32768) = 3272065 / 32768 :=
    flRound_near 24 (-126) _ 6 (-17) 13088260 _ (by norm_num)
  have r34 : fl32 (1675297313 / 16777216) = 3272065 / 32768 :=
    flRound_near 24 (-126) _ 6 (-17) 13088260 _ (by norm_num)
  refine ⟨?_, r32, r33, by norm_num, ?_, ?_⟩
  · norm_num [adaptiveModelAdjustmentF, rescaleF, avgPressureDiffF, constrain,
      BreathController.init, BREATH_THRESHOLD, STORE_SIZE, ADAPT_CYCLES, hr, hm, z32,
      r1, r2, r3, r4, r5, r6, r7, r8, r9, r10, r11, r12, r13, r14, r15, r16, r17, r18, r19, r20,
        r21, r22, r23, r24, r25, r26, r27, r28, r29, r30, r31]
  · rw [detectF_peak 64 0 _ (3284009 / 32768) _ rfl rfl rfl]
    norm_num [seeded, BreathController.init, r34]
  · rw [detectF_peak 64 0 _ (3284009 / 32768) _ rfl rfl rfl]
    norm_num [seeded, BreathController.init, r34]

/-- C9 (amended). Remaining rows of the transition table, on a non-first call with previous
pressure `prevP`: (a) from INHALE the result is PEAK exactly when `p < prevP`, and then
`maxPressure` becomes `p`, otherwise INHALE; (b) from PEAK the result is EXHALE exactly
when `p` is below the `float` difference of `prevP` and the threshold (the exact difference
rounded to single precision), otherwise PEAK; (c) from TROUGH the result is INHALE exactly
when `p > prevP`, otherwise TROUGH; in every case (EXHALE included) the stored previous
pressure becomes `p`. -/
theorem C9_transition_rows (w now : ℕ) (p prevP : ℚ) (s : BreathController)
    (hf : s.firstCall = false) (hl : s.lastPressure = some prevP) :
    (s.currentState = INHALE →
      ((detectBreathStateF w now p s).1 = PEAK ↔ p < prevP) ∧
      (p < prevP → (detectBreathStateF w now p s).2.maxPressure = p) ∧
      (¬ p < prevP → (detectBreathStateF w now p s).1 = INHALE)) ∧
    (s.currentState = PEAK →
      ((detectBreathStateF w now p s).1 = EXHALE ↔ p < fl32 (prevP - s.pressureThreshold)) ∧
      (¬ p < fl32 (prevP - s.pressureThreshold) → (detectBreathStateF w now p s).1 = PEAK)) ∧
    (s.currentState = TROUGH →
      ((detectBreathStateF w now p s).1 = INHALE ↔ p > prevP) ∧
      (¬ p > prevP → (detectBreathStateF w now p s).1 = TROUGH)) ∧
    (detectBreathStateF w now p s).2.lastPressure = some p := by
  refine ⟨?_, ?_, ?_, detectF_lastPressure w now p s⟩
  · intro hs
    rw [detectF_inhale w now p prevP s hf hl hs]
    by_cases h : p < prevP <;> simp [h]
  · intro hs
    rw [detectF_peak w now p prevP s hf hl hs]
    by_cases h : p < fl32 (prevP - s.pressureThreshold) <;> simp [h]
  · intro hs
    rw [detectF_trough w now p prevP s hf hl hs]
    by_cases h : p > prevP <;> simp [h]

/-- Witness for C9: previous pressure 10 and threshold 0.5, so the `float` difference is
9.5 without rounding. The sample 9.875 gives PEAK from INHALE, PEAK from PEAK and TROUGH
from TROUGH; 9.25 gives EXHALE from PEAK; 10.125 gives INHALE from TROUGH. -/
theorem C9_transition_rows_witness :
    (seeded INHALE 10).firstCall = false ∧ (seeded INHALE 10).lastPressure = some 10 ∧
    (detectBreathStateF 64 0 9.875 (seeded INHALE 10)).1 = PEAK ∧
    (detectBreathStateF 64 0 9.875 (seeded INHALE 10)).2.maxPressure = 9.875 ∧
    (detectBreathStateF 64 0 9.875 (seeded PEAK 10)).1 = PEAK ∧
    (detectBreathStateF 64 0 9.25 (seeded PEAK 10)).1 = EXHALE ∧
    (detectBreathStateF 64 0 9.875 (seeded TROUGH 10)).1 = TROUGH ∧
    (detectBreathStateF 64 0 10.125 (seeded TROUGH 10)).1 = INHALE := by
  have r1 : fl32 (19 / 2) = 19 / 2 :=
    flRound_near 24 (-126) _ 3 (-20) 9961472 _ (by norm_num)
  exact ⟨rfl, rfl,
    ((C9_transition_rows 64 0 9.875 10 (seeded INHALE 10) rfl rfl).1 rfl).1.mpr
      (by norm_num),
    ((C9_transition_rows 64 0 9.875 10 (seeded INHALE 10) rfl rfl).1 rfl).2.1 (by norm_num),
    ((C9_transition_rows 64 0 9.875 10 (seeded PEAK 10) rfl rfl).2.1 rfl).2
      (by norm_num [seeded, BreathController.init, BREATH_THRESHOLD, r1]),
    ((C9_transition_rows 64 0 9.25 10 (seeded PEAK 10) rfl rfl).2.1 rfl).1.mpr
      (by norm_num [seeded, BreathController.init, BREATH_THRESHOLD, r1]),
    ((C9_transition_rows 64 0 9.875 10 (seeded TROUGH 10) rfl rfl).2.2.1 rfl).2
      (by norm_num),
    ((C9_transition_rows 64 0 10.125 10 (seeded TROUGH 10) rfl rfl).2.2.1 rfl).1.mpr
      (by norm_num)⟩

/-- C10 (as stated, refuted). Breath count 0, threshold 0.5, response factor 1.0 and the
deviation history 12582913/16777216 (the `float` next above 0.75) followed by nine times
0.75. The mean of the absolute values exceeds `1.5 * 0.5`, so the claim gives the new
threshold `1.1 * 0.5 = 0.55`; but the `float` accumulation loses the excess in its first
addition (a tie, rounded to even), the accumulated mean is exactly 0.75, neither test
holds, and the tuner leaves the threshold at 0.5 and the response factor at 1.0. -/
theorem C10_float_mean_misses_branch :
    (withHistory [12582913 / 16777216, 3 / 4, 3 / 4, 3 / 4, 3 / 4, 3 / 4, 3 / 4, 3 / 4,
        3 / 4, 3 / 4]).breathCount.tmod ADAPT_CYCLES = 0 ∧
    fl32 (12582913 / 16777216) = 12582913 / 16777216 ∧
    fl32 (3 / 4) = 3 / 4 ∧
    (([12582913 / 16777216, 3 / 4, 3 / 4, 3 / 4, 3 / 4, 3 / 4, 3 / 4, 3 / 4, 3 / 4,
        3 / 4] : List ℚ).map (fun v => |v|)).sum / 10
      > 1.5 * (withHistory [12582913 / 16777216, 3 / 4, 3 / 4, 3 / 4, 3 / 4, 3 / 4, 3 / 4,
          3 / 4, 3 / 4, 3 / 4]).pressureThreshold ∧
    avgPressureDiffF [12582913 / 16777216, 3 / 4, 3 / 4, 3 / 4, 3 / 4, 3 / 4, 3 / 4, 3 / 4,
        3 / 4, 3 / 4] = 3 / 4 ∧
    (adaptiveModelAdjustmentF
      (withHistory [12582913 / 16777216, 3 / 4, 3 / 4, 3 / 4, 3 / 4, 3 / 4, 3 / 4, 3 / 4,
        3 / 4, 3 / 4])).pressureThreshold = 1 / 2 ∧
    (adaptiveModelAdjustmentF
      (withHistory [12582913 / 16777216, 3 / 4, 3 / 4, 3 / 4, 3 / 4, 3 / 4, 3 / 4, 3 / 4,
        3 / 4, 3 / 4])).responseFactor = 1 ∧
    max (0.2 : ℚ) (min (1.1 * 0.5) 2.0) = 11 / 20 := by
  have hr : List.range 10 = [0, 1, 2, 3, 4, 5, 6, 7, 8, 9] := by decide
  have hm : Int.tmod 0 5 = 0 := by decide
  have ha1 : |(12582913 / 16777216 : ℚ)| = 12582913 / 16777216 := abs_of_pos (by norm_num)
  have ha2 : |(3 / 4 : ℚ)| = 3 / 4 := abs_of_pos (by norm_num)
  have r1 : fl32 (12582913 / 16777216) = 12582913 / 16777216 :=
    flRound_near 24 (-126) _ (-1) (-24) 12582913 _ (by norm_num)
  have r2 : fl32 (25165825 / 16777216) = 3 / 2 :=
    flRound_tie 24 (-126) _ 0 (-23) 12582912 12582912 _ (by norm_num)
  have r3 : fl32 (9 / 4) = 9 / 4 :=
    flRound_near 24 (-126) _ 1 (-22) 9437184 _ (by norm_num)
  have r4 : fl32 3 = 3 :=
    flRound_near 24 (-126) _ 1 (-22) 12582912 _ (by norm_num)
  have r5 : fl32 (15 / 4) = 15 / 4 :=
    flRound_near 24 (-126) _ 1 (-22) 15728640 _ (by norm_num)
  have r6 : fl32 (9 / 2) = 9 / 2 :=
    flRound_near 24 (-126) _ 2 (-21) 9437184 _ (by norm_num)
  have r7 : fl32 (21 / 4) = 21 / 4 :=
    flRound_near 24 (-126) _ 2 (-21) 11010048 _ (by norm_num)
  have r8 : fl32 6 = 6 :=
    flRound_near 24 (-126) _ 2 (-21) 12582912 _ (by norm_num)
  have r9 : fl32 (27 / 4) = 27 / 4 :=
    flRound_near 24 (-126) _ 2 (-21) 14155776 _ (by norm_num)
  have r10 : fl32 (15 / 2) = 15 / 2 :=
    flRound_near 24 (-126) _ 2 (-21) 15728640 _ (by norm_num)
  have r11 : fl32 (3 / 4) = 3 / 4 :=
    flRound_near 24 (-126) _ (-1) (-24) 12582912 _ (by norm_num)
  have r12 : fl64 (3 / 2) = 3 / 2 :=
    flRound_near 53 (-1022) _ 0 (-52) 6755399441055744 _ (by norm_num)
  have r13 : fl64 (3 / 4) = 3 / 4 :=
    flRound_near 53 (-1022) _ (-1) (-53) 6755399441055744 _ (by norm_num)
  have r14 : fl64 (7 / 10) = 3152519739159347 / 4503599627370496 :=
    flRound_near 53 (-1022) _ (-1) (-53) 6305039478318694 _ (by norm_num)
  have r15 : fl64 (3152519739159347 / 9007199254740992)
      = 3152519739159347 / 9007199254740992 :=
    flRound_near 53 (-1022) _ (-2) (-54) 6305039478318694 _ (by norm_num)
  have r16 : fl64 (1 / 5) = 3602879701896397 / 18014398509481984 :=
    flRound_near 53 (-1022) _ (-3) (-55) 7205759403792794 _ (by norm_num)
  have r17 : fl64 2 = 2 :=
    flRound_near 53 (-1022) _ 1 (-51) 4503599627370496 _ (by norm_num)
  have r18 : fl32 (1 / 2) = 1 / 2 :=
    flRound_near 24 (-126) _ (-1) (-24) 8388608 _ (by norm_num)
  have r19 : fl64 (1 / 2) = 1 / 2 :=
    flRound_near 53 (-1022) _ (-1) (-53) 4503599627370496 _ (by norm_num)
  have r20 : fl32 1 = 1 :=
    flRound_near 24 (-126) _ 0 (-23) 8388608 _ (by norm_num)
  have havg : avgPressureDiffF [12582913 / 16777216, 3 / 4, 3 / 4, 3 / 4, 3 / 4, 3 / 4,
      3 / 4, 3 / 4, 3 / 4, 3 / 4] = 3 / 4 := by
    norm_num [avgPressureDiffF, STORE_SIZE, hr, ha1, ha2, r1, r2, r3, r4, r5, r6, r7, r8, r9,
      r10, r11]
  refine ⟨rfl, r1, r11, ?_, havg, ?_, ?_, by norm_num⟩
  · norm_num [withHistory, BreathController.init, BREATH_THRESHOLD, ha1, ha2]
  · norm_num [adaptiveModelAdjustmentF, rescaleF, withHistory, constrain,
      BreathController.init, BREATH_THRESHOLD, ADAPT_CYCLES, hm, havg, r12, r13, r14, r15,
      r16, r17, r18, r19, r20]
  · norm_num [adaptiveModelAdjustmentF, rescaleF, withHistory, constrain,
      BreathController.init, BREATH_THRESHOLD, ADAPT_CYCLES, hm, havg, r12, r13, r14, r15,
      r16, r17, r18, r19, r20]

/-- C10 (amended). Tuner scaling rule as the program computes it: when
`adaptiveModelAdjustment` does work (`breathCount % 5 == 0`), let `m` be the `float` mean
of the absolute values of the 10 deviation-history slots, accumulated slot 0 first with a
rounding after every addition and after the division by 10, `t` the threshold and `r` the
response factor. The tests `m > 1.5 * t` and `m < 0.7 * t` are evaluated in `double`. If
the first holds, the new values are `1.1 * t` (a `double` product converted to `float`)
clamped to `[0.2, 2.0]` and `1.05 * r` clamped to `[0.5, 2.0]`; else if the second holds
they are `0.9 * t` and `0.95 * r`, computed and clamped likewise; otherwise they are `t`
and `r` clamped likewise, which is `t` and `r` themselves when these are `float` values
within the bounds. The clamped value is stored as a `float`. (The rule is stated for
history values, threshold and response factor of magnitude at most `2 ^ 100`, so that no
operation overflows.) -/
theorem C10_tuner_scaling_rule (s : BreathController)
    (hc : s.breathCount.tmod ADAPT_CYCLES = 0) (hlen : s.storedPressures.length = 10) :
    avgPressureDiffF s.storedPressures
      = fl32 (floatSum (s.storedPressures.map (fun v => |v|)) / 10) ∧
    ((∀ v ∈ s.storedPressures, |v| ≤ 2 ^ 100) →
      |s.pressureThreshold| ≤ 2 ^ 100 → |s.responseFactor| ≤ 2 ^ 100 →
    (avgPressureDiffF s.storedPressures > fl64 (1.5 * s.pressureThreshold) →
      (adaptiveModelAdjustmentF s).pressureThreshold
        = fl32 (max (fl64 0.2) (min (fl32 (fl64 (s.pressureThreshold * fl64 1.1))) 2.0)) ∧
      (adaptiveModelAdjustmentF s).responseFactor
        = fl32 (max 0.5 (min (fl32 (fl64 (s.responseFactor * fl64 1.05))) 2.0))) ∧
    (¬ avgPressureDiffF s.storedPressures > fl64 (1.5 * s.pressureThreshold) →
      avgPressureDiffF s.storedPressures < fl64 (fl64 0.7 * s.pressureThreshold) →
      (adaptiveModelAdjustmentF s).pressureThreshold
        = fl32 (max (fl64 0.2) (min (fl32 (fl64 (s.pressureThreshold * fl64 0.9))) 2.0)) ∧
      (adaptiveModelAdjustmentF s).responseFactor
        = fl32 (max 0.5 (min (fl32 (fl64 (s.responseFactor * fl64 0.95))) 2.0))) ∧
    (¬ avgPressureDiffF s.storedPressures > fl64 (1.5 * s.pressureThreshold) →
      ¬ avgPressureDiffF s.storedPressures < fl64 (fl64 0.7 * s.pressureThreshold) →
      (adaptiveModelAdjustmentF s).pressureThreshold
        = fl32 (max (fl64 0.2) (min s.pressureThreshold 2.0)) ∧
      (adaptiveModelAdjustmentF s).responseFactor
        = fl32 (max 0.5 (min s.responseFactor 2.0)) ∧
      (fl32 s.pressureThreshold = s.pressureThreshold →
        fl64 0.2 ≤ s.pressureThreshold → s.pressureThreshold ≤ 2.0 →
        (adaptiveModelAdjustmentF s).pressureThreshold = s.pressureThreshold) ∧
      (fl32 s.responseFactor = s.responseFactor →
        0.5 ≤ s.responseFactor → s.responseFactor ≤ 2.0 →
        (adaptiveModelAdjustmentF s).responseFactor = s.responseFactor))) := by
  obtain ⟨k1, k2, k3⟩ := fl64_exact_literals
  have hlo : fl64 0.2 ≤ (2.0 : ℚ) := by rw [fl64_one_fifth]; norm_num
  have ht : ∀ v : ℚ, constrain v (fl64 0.2) 2.0 = max (fl64 0.2) (min v 2.0) :=
    fun v => constrain_eq_max_min v hlo
  have hr : ∀ v : ℚ, constrain v 0.5 2.0 = max 0.5 (min v 2.0) :=
    fun v => constrain_eq_max_min v (by norm_num)
  unfold adaptiveModelAdjustmentF rescaleF
  rw [if_pos hc, k1, k2, k3]
  refine ⟨avgPressureDiffF_eq _ hlen, fun _ _ _ => ⟨?_, ?_, ?_⟩⟩
  · intro h1
    simp only [if_pos h1, ht, hr]
    exact ⟨trivial, trivial⟩
  · intro h1 h2
    simp only [if_neg h1, if_pos h2, ht, hr]
    exact ⟨trivial, trivial⟩
  · intro h1 h2
    simp only [if_neg h1, if_neg h2, ht, hr]
    refine ⟨trivial, trivial, ?_, ?_⟩
    · intro hfl ha hb
      rw [min_eq_left hb, max_eq_right ha, hfl]
    · intro hfl ha hb
      rw [min_eq_left hb, max_eq_right ha, hfl]

/-- Witness for C10: breath count 0, threshold 0.5, response factor 1.0. A history of ten
4s (`float` mean 4 > 0.75) gives the `float` values nearest 0.55 and 1.05; ten 0s (mean
0 < 0.35) give the `float` values nearest 0.45 and 0.95; the history 1, 0, -1, 0, 1, 0, -1,
0, 1, 0 (mean 0.5) leaves 0.5 and 1.0. -/
theorem C10_tuner_scaling_rule_witness :
    (withHistory [4, 4, 4, 4, 4, 4, 4, 4, 4, 4]).breathCount.tmod ADAPT_CYCLES = 0 ∧
    (withHistory [4, 4, 4, 4, 4, 4, 4, 4, 4, 4]).storedPressures.length = 10 ∧
    (adaptiveModelAdjustmentF (withHistory [4, 4, 4, 4, 4, 4, 4, 4, 4, 4])).pressureThreshold
      = 9227469 / 16777216 ∧
    (adaptiveModelAdjustmentF (withHistory [4, 4, 4, 4, 4, 4, 4, 4, 4, 4])).responseFactor
      = 4404019 / 4194304 ∧
    (adaptiveModelAdjustmentF (withHistory [0, 0, 0, 0, 0, 0, 0, 0, 0, 0])).pressureThreshold
      = 7549747 / 16777216 ∧
    (adaptiveModelAdjustmentF (withHistory [0, 0, 0, 0, 0, 0, 0, 0, 0, 0])).responseFactor
      = 15938355 / 16777216 ∧
    (adaptiveModelAdjustmentF
      (withHistory [1, 0, -1, 0, 1, 0, -1, 0, 1, 0])).pressureThreshold = 1 / 2 ∧
    (adaptiveModelAdjustmentF
      (withHistory [1, 0, -1, 0, 1, 0, -1, 0, 1, 0])).responseFactor = 1 := by
  have hr : List.range 10 = [0, 1, 2, 3, 4, 5, 6, 7, 8, 9] := by decide
  have ha : |(4 : ℚ)| = 4 := abs_of_pos (by norm_num)
  have f1 : fl32 4 = 4 := flRound_near 24 (-126) _ 2 (-21) 8388608 _ (by norm_num)
  have f2 : fl32 8 = 8 := flRound_near 24 (-126) _ 3 (-20) 8388608 _ (by norm_num)
  have f3 : fl32 12 = 12 := flRound_near 24 (-126) _ 3 (-20) 12582912 _ (by norm_num)
  have f4 : fl32 16 = 16 := flRound_near 24 (-126) _ 4 (-19) 8388608 _ (by norm_num)
  have f5 : fl32 20 = 20 := flRound_near 24 (-126) _ 4 (-19) 10485760 _ (by norm_num)
  have f6 : fl32 24 = 24 := flRound_near 24 (-126) _ 4 (-19) 12582912 _ (by norm_num)
  have f7 : fl32 28 = 28 := flRound_near 24 (-126) _ 4 (-19) 14680064 _ (by norm_num)
  have f8 : fl32 32 = 32 := flRound_near 24 (-126) _ 5 (-18) 8388608 _ (by norm_num)
  have f9 : fl32 36 = 36 := flRound_near 24 (-126) _ 5 (-18) 9437184 _ (by norm_num)
  have f10 : fl32 40 = 40 := flRound_near 24 (-126) _ 5 (-18) 10485760 _ (by norm_num)
  have m1 : fl32 1 = 1 := flRound_near 24 (-126) _ 0 (-23) 8388608 _ (by norm_num)
  have m2 : fl32 2 = 2 := flRound_near 24 (-126) _ 1 (-22) 8388608 _ (by norm_num)
  have m3 : fl32 3 = 3 := flRound_near 24 (-126) _ 1 (-22) 12582912 _ (by norm_num)
  have m5 : fl32 5 = 5 := flRound_near 24 (-126) _ 2 (-21) 10485760 _ (by norm_num)
  have m6 : fl32 (1 / 2) = 1 / 2 :=
    flRound_near 24 (-126) _ (-1) (-24) 8388608 _ (by norm_num)
  have d1 : fl64 (3 / 4) = 3 / 4 :=
    flRound_near 53 (-1022) _ (-1) (-53) 6755399441055744 _ (by norm_num)
  have d2 : fl64 (7 / 10) = 3152519739159347 / 4503599627370496 :=
    flRound_near 53 (-1022) _ (-1) (-53) 6305039478318694 _ (by norm_num)
  have d3 : fl64 (3152519739159347 / 9007199254740992)
      = 3152519739159347 / 9007199254740992 :=
    flRound_near 53 (-1022) _ (-2) (-54) 6305039478318694 _ (by norm_num)
  have d4 : fl64 (11 / 10) = 2476979795053773 / 2251799813685248 :=
    flRound_near 53 (-1022) _ 0 (-52) 4953959590107546 _ (by norm_num)
  have d5 : fl64 (2476979795053773 / 4503599627370496)
      = 2476979795053773 / 4503599627370496 :=
    flRound_near 53 (-1022) _ (-1) (-53) 4953959590107546 _ (by norm_num)
  have d6 : fl32 (2476979795053773 / 4503599627370496) = 9227469 / 16777216 :=
    flRound_near 24 (-126) _ (-1) (-24) 9227469 _ (by norm_num)
  have d7 : fl64 (21 / 20) = 4728779608739021 / 4503599627370496 :=
    flRound_near 53 (-1022) _ 0 (-52) 4728779608739021 _ (by norm_num)
  have d8 : fl64 (4728779608739021 / 4503599627370496)
      = 4728779608739021 / 4503599627370496 :=
    flRound_near 53 (-1022) _ 0 (-52) 4728779608739021 _ (by norm_num)
  have d9 : fl32 (4728779608739021 / 4503599627370496) = 4404019 / 4194304 :=
    flRound_near 24 (-126) _ 0 (-23) 8808038 _ (by norm_num)
  have d10 : fl32 (9227469 / 16777216) = 9227469 / 16777216 :=
    flRound_near 24 (-126) _ (-1) (-24) 9227469 _ (by norm_num)
  have d11 : fl32 (4404019 / 4194304) = 4404019 / 4194304 :=
    flRound_near 24 (-126) _ 0 (-23) 8808038 _ (by norm_num)
  have d12 : fl64 (9 / 10) = 8106479329266893 / 9007199254740992 :=
    flRound_near 53 (-1022) _ (-1) (-53) 8106479329266893 _ (by norm_num)
  have d13 : fl64 (8106479329266893 / 18014398509481984)
      = 8106479329266893 / 18014398509481984 :=
    flRound_near 53 (-1022) _ (-2) (-54) 8106479329266893 _ (by norm_num)
  have d14 : fl32 (8106479329266893 / 18014398509481984) = 7549747 / 16777216 :=
    flRound_near 24 (-126) _ (-2) (-25) 15099494 _ (by norm_num)
  have d15 : fl64 (19 / 20) = 4278419646001971 / 4503599627370496 :=
    flRound_near 53 (-1022) _ (-1) (-53) 8556839292003942 _ (by norm_num)
  have d16 : fl64 (4278419646001971 / 4503599627370496)
      = 4278419646001971 / 4503599627370496 :=
    flRound_near 53 (-1022) _ (-1) (-53) 8556839292003942 _ (by norm_num)
  have d17 : fl32 (4278419646001971 / 4503599627370496) = 15938355 / 16777216 :=
    flRound_near 24 (-126) _ (-1) (-24) 15938355 _ (by norm_num)
  have d18 : fl32 (7549747 / 16777216) = 7549747 / 16777216 :=
    flRound_near 24 (-126) _ (-2) (-25) 15099494 _ (by norm_num)
  have d19 : fl32 (15938355 / 16777216) = 15938355 / 16777216 :=
    flRound_near 24 (-126) _ (-1) (-24) 15938355 _ (by norm_num)
  have k7 : fl64 (1 / 5) = 3602879701896397 / 18014398509481984 :=
    flRound_near 53 (-1022) _ (-3) (-55) 7205759403792794 _ (by norm_num)
  have a4 : avgPressureDiffF [4, 4, 4, 4, 4, 4, 4, 4, 4, 4] = 4 := by
    norm_num [avgPressureDiffF, STORE_SIZE, hr, ha, f1, f2, f3, f4, f5, f6, f7, f8, f9, f10]
  have a0 : avgPressureDiffF [0, 0, 0, 0, 0, 0, 0, 0, 0, 0] = 0 := by
    norm_num [avgPressureDiffF, STORE_SIZE, hr, fl32_zero]
  have a1 : avgPressureDiffF [1, 0, -1, 0, 1, 0, -1, 0, 1, 0] = 1 / 2 := by
    norm_num [avgPressureDiffF, STORE_SIZE, hr, fl32_zero, m1, m2, m3, f1, m5, m6]
  have h4 : avgPressureDiffF (withHistory [4, 4, 4, 4, 4, 4, 4, 4, 4, 4]).storedPressures
      > fl64 (1.5 * (withHistory [4, 4, 4, 4, 4, 4, 4, 4, 4, 4]).pressureThreshold) := by
    norm_num [withHistory, BreathController.init, BREATH_THRESHOLD, a4, d1]
  have h0 : ¬ avgPressureDiffF (withHistory [0, 0, 0, 0, 0, 0, 0, 0, 0, 0]).storedPressures
      > fl64 (1.5 * (withHistory [0, 0, 0, 0, 0, 0, 0, 0, 0, 0]).pressureThreshold) := by
    norm_num [withHistory, BreathController.init, BREATH_THRESHOLD, a0, d1]
  have h0' : avgPressureDiffF (withHistory [0, 0, 0, 0, 0, 0, 0, 0, 0, 0]).storedPressures
      < fl64 (fl64 0.7 * (withHistory [0, 0, 0, 0, 0, 0, 0, 0, 0, 0]).pressureThreshold) := by
    norm_num [withHistory, BreathController.init, BREATH_THRESHOLD, a0, d2, d3]
  have h1 : ¬ avgPressureDiffF
        (withHistory [1, 0, -1, 0, 1, 0, -1, 0, 1, 0]).storedPressures
      > fl64 (1.5 * (withHistory [1, 0, -1, 0, 1, 0, -1, 0, 1, 0]).pressureThreshold) := by
    norm_num [withHistory, BreathController.init, BREATH_THRESHOLD, a1, d1]
  have h1' : ¬ avgPressureDiffF
        (withHistory [1, 0, -1, 0, 1, 0, -1, 0, 1, 0]).storedPressures
      < fl64 (fl64 0.7
          * (withHistory [1, 0, -1, 0, 1, 0, -1, 0, 1, 0]).pressureThreshold) := by
    norm_num [withHistory, BreathController.init, BREATH_THRESHOLD, a1, d2, d3]
  have g4 : ∀ v ∈ (withHistory [4, 4, 4, 4, 4, 4, 4, 4, 4, 4]).storedPressures,
      |v| ≤ (2 : ℚ) ^ 100 := by
    intro v hv
    simp only [withHistory, List.mem_cons, List.mem_singleton, List.not_mem_nil, or_false,
      or_self] at hv
    rw [hv, abs_of_pos (by norm_num)]
    norm_num
  have g0 : ∀ v ∈ (withHistory [0, 0, 0, 0, 0, 0, 0, 0, 0, 0]).storedPressures,
      |v| ≤ (2 : ℚ) ^ 100 := by
    intro v hv
    simp only [withHistory, List.mem_cons, List.mem_singleton, List.not_mem_nil, or_false,
      or_self] at hv
    rw [hv, abs_zero]
    norm_num
  have g1 : ∀ v ∈ (withHistory [1, 0, -1, 0, 1, 0, -1, 0, 1, 0]).storedPressures,
      |v| ≤ (2 : ℚ) ^ 100 := by
    intro v hv
    simp only [withHistory, List.mem_cons, List.mem_singleton, List.not_mem_nil,
      or_false] at hv
    rcases hv with h | h | h | h | h | h | h | h | h | h <;> rw [h] <;> norm_num [abs_le]
  have gt : ∀ l : List ℚ, |(withHistory l).pressureThreshold| ≤ (2 : ℚ) ^ 100 := by
    intro l
    norm_num [withHistory, BreathController.init, BREATH_THRESHOLD, abs_le]
  have gr : ∀ l : List ℚ, |(withHistory l).responseFactor| ≤ (2 : ℚ) ^ 100 := by
    intro l
    norm_num [withHistory, BreathController.init, abs_le]
  exact ⟨rfl, rfl,
    (((C10_tuner_scaling_rule (withHistory [4, 4, 4, 4, 4, 4, 4, 4, 4, 4]) rfl rfl).2
      g4 (gt _) (gr _)).1 h4).1.trans
      (by norm_num [withHistory, BreathController.init, BREATH_THRESHOLD, k7,
        d4, d5, d6, d10]),
    (((C10_tuner_scaling_rule (withHistory [4, 4, 4, 4, 4, 4, 4, 4, 4, 4]) rfl rfl).2
      g4 (gt _) (gr _)).1 h4).2.trans
      (by norm_num [withHistory, BreathController.init, d7, d8, d9, d11]),
    (((C10_tuner_scaling_rule (withHistory [0, 0, 0, 0, 0, 0, 0, 0, 0, 0]) rfl rfl).2
      g0 (gt _) (gr _)).2.1 h0 h0').1.trans
      (by norm_num [withHistory, BreathController.init, BREATH_THRESHOLD, k7,
        d12, d13, d14, d18]),
    (((C10_tuner_scaling_rule (withHistory [0, 0, 0, 0, 0, 0, 0, 0, 0, 0]) rfl rfl).2
      g0 (gt _) (gr _)).2.1 h0 h0').2.trans
      (by norm_num [withHistory, BreathController.init, d15, d16, d17, d19]),
    (((C10_tuner_scaling_rule (withHistory [1, 0, -1, 0, 1, 0, -1, 0, 1, 0]) rfl rfl).2
      g1 (gt _) (gr _)).2.2 h1 h1').1.trans
      (by norm_num [withHistory, BreathController.init, BREATH_THRESHOLD, k7,
        m6]),
    (((C10_tuner_scaling_rule (withHistory [1, 0, -1, 0, 1, 0, -1, 0, 1, 0]) rfl rfl).2
      g1 (gt _) (gr _)).2.2 h1 h1').2.1.trans
      (by norm_num [withHistory, BreathController.init, m1])⟩

/-- C11 (as stated, refuted). Two consecutive control ticks from the constructed controller
with a steady pressure of 10.0: breathCount is 0 before, between and after the two ticks,
yet the tuner rescales pressureThreshold and responseFactor on both of them
(0.5 → 0.45 → 0.405 and 1.0 → 0.95 → 0.9025). -/
theorem C11_rescales_on_two_ticks :
    BreathController.init.breathCount = 0 ∧
    (controlTick 64 0 10 BreathController.init).breathCount = 0 ∧
    (controlTick 64 100 10 (controlTick 64 0 10 BreathController.init)).breathCount = 0 ∧
    BreathController.init.pressureThreshold = 0.5 ∧
    (controlTick 64 0 10 BreathController.init).pressureThreshold = 0.45 ∧
    (controlTick 64 100 10 (controlTick 64 0 10 BreathController.init)).pressureThreshold
      = 0.405 ∧
    BreathController.init.responseFactor = 1.0 ∧
    (controlTick 64 0 10 BreathController.init).responseFactor = 0.95 ∧
    (controlTick 64 100 10 (controlTick 64 0 10 BreathController.init)).responseFactor
      = 0.9025 := by
  have hr : List.range 10 = [0, 1, 2, 3, 4, 5, 6, 7, 8, 9] := by decide
  have hm : Int.tmod 0 5 = 0 := by decide
  simp [controlTick, classify, detectBreathState, controlValve, adaptiveModelAdjustment,
    avgPressureDiff, constrain, BreathController.init, BREATH_THRESHOLD, STORE_SIZE,
    ADAPT_CYCLES, MAX_VALVE_OPEN, hr, hm]
  norm_num

/-- C11 (amended). The tuner keeps no record of having fired. An invocation changes neither
`breathCount` nor the deviation history, so after any number `k` of consecutive
invocations at a breath count that is a multiple of 5 the condition `breathCount % 5 == 0`
still holds, and the next invocation takes the gated branch again: it rescales and clamps
the parameters once more, starting from their current values. -/
theorem C11_tuner_fires_on_every_invocation (s : BreathController) (k : ℕ)
    (hc : s.breathCount.tmod ADAPT_CYCLES = 0) :
    (Nat.iterate adaptiveModelAdjustmentF k s).breathCount = s.breathCount ∧
    (Nat.iterate adaptiveModelAdjustmentF k s).storedPressures = s.storedPressures ∧
    (Nat.iterate adaptiveModelAdjustmentF k s).breathCount.tmod ADAPT_CYCLES = 0 ∧
    Nat.iterate adaptiveModelAdjustmentF (k + 1) s
      = rescaleF (Nat.iterate adaptiveModelAdjustmentF k s) := by
  obtain ⟨hb, hs⟩ := adaptiveModelAdjustmentF_iterate_frame k s
  have hck : (Nat.iterate adaptiveModelAdjustmentF k s).breathCount.tmod ADAPT_CYCLES = 0 := by
    rw [hb]; exact hc
  refine ⟨hb, hs, hck, ?_⟩
  rw [Function.iterate_succ_apply', adaptiveModelAdjustmentF_open _ hck]

/-- Witness for C11 (amended): the constructed controller (breathCount 0, all-zero
history, threshold 0.5). The first invocation stores the `float` nearest 0.45; the second,
still at breathCount 0, takes the gated branch again and stores the `float` nearest
0.405. -/
theorem C11_tuner_fires_on_every_invocation_witness :
    BreathController.init.breathCount.tmod ADAPT_CYCLES = 0 ∧
    (Nat.iterate adaptiveModelAdjustmentF 1 BreathController.init).breathCount = 0 ∧
    Nat.iterate adaptiveModelAdjustmentF (1 + 1) BreathController.init
      = rescaleF (Nat.iterate adaptiveModelAdjustmentF 1 BreathController.init) ∧
    (Nat.iterate adaptiveModelAdjustmentF 1 BreathController.init).pressureThreshold
      = 7549747 / 16777216 ∧
    (rescaleF (Nat.iterate adaptiveModelAdjustmentF 1 BreathController.init)).pressureThreshold
      = 13589545 / 33554432 := by
  have hr : List.range 10 = [0, 1, 2, 3, 4, 5, 6, 7, 8, 9] := by decide
  have hm : Int.tmod 0 5 = 0 := by decide
  have r1 : fl64 (3 / 2) = 3 / 2 :=
    flRound_near 53 (-1022) _ 0 (-52) 6755399441055744 _ (by norm_num)
  have r2 : fl64 (3 / 4) = 3 / 4 :=
    flRound_near 53 (-1022) _ (-1) (-53) 6755399441055744 _ (by norm_num)
  have r3 : fl64 (7 / 10) = 3152519739159347 / 4503599627370496 :=
    flRound_near 53 (-1022) _ (-1) (-53) 6305039478318694 _ (by norm_num)
  have r4 : fl64 (3152519739159347 / 9007199254740992) = 3152519739159347 / 9007199254740992 :=
    flRound_near 53 (-1022) _ (-2) (-54) 6305039478318694 _ (by norm_num)
  have r5 : fl64 (9 / 10) = 8106479329266893 / 9007199254740992 :=
    flRound_near 53 (-1022) _ (-1) (-53) 8106479329266893 _ (by norm_num)
  have r6 : fl64 (8106479329266893 / 18014398509481984) = 8106479329266893 / 18014398509481984 :=
    flRound_near 53 (-1022) _ (-2) (-54) 8106479329266893 _ (by norm_num)
  have r7 : fl32 (8106479329266893 / 18014398509481984) = 7549747 / 16777216 :=
    flRound_near 24 (-126) _ (-2) (-25) 15099494 _ (by norm_num)
  have r8 : fl64 (19 / 20) = 4278419646001971 / 4503599627370496 :=
    flRound_near 53 (-1022) _ (-1) (-53) 8556839292003942 _ (by norm_num)
  have r9 : fl64 (4278419646001971 / 4503599627370496) = 4278419646001971 / 4503599627370496 :=
    flRound_near 53 (-1022) _ (-1) (-53) 8556839292003942 _ (by norm_num)
  have r10 : fl32 (4278419646001971 / 4503599627370496) = 15938355 / 16777216 :=
    flRound_near 24 (-126) _ (-1) (-24) 15938355 _ (by norm_num)
  have r11 : fl64 (1 / 5) = 3602879701896397 / 18014398509481984 :=
    flRound_near 53 (-1022) _ (-3) (-55) 7205759403792794 _ (by norm_num)
  have r12 : fl64 (2) = 2 :=
    flRound_near 53 (-1022) _ 1 (-51) 4503599627370496 _ (by norm_num)
  have r13 : fl32 (7549747 / 16777216) = 7549747 / 16777216 :=
    flRound_near 24 (-126) _ (-2) (-25) 15099494 _ (by norm_num)
  have r14 : fl64 (1 / 2) = 1 / 2 :=
    flRound_near 53 (-1022) _ (-1) (-53) 4503599627370496 _ (by norm_num)
  have r15 : fl32 (15938355 / 16777216) = 15938355 / 16777216 :=
    flRound_near 24 (-126) _ (-1) (-24) 15938355 _ (by norm_num)
  have r16 : fl64 (22649241 / 33554432) = 22649241 / 33554432 :=
    flRound_near 53 (-1022) _ (-1) (-53) 6079859335888896 _ (by norm_num)
  have r17 : fl64 (23800726443159062535209 / 75557863725914323419136)
      = 5674535380162969 / 18014398509481984 :=
    flRound_near 53 (-1022) _ (-2) (-54) 5674535380162969 _ (by norm_num)
  have r18 : fl64 (61201867996694737626071 / 151115727451828646838272)
      = 7295831203066675 / 18014398509481984 :=
    flRound_near 53 (-1022) _ (-2) (-54) 7295831203066675 _ (by norm_num)
  have r19 : fl32 (7295831203066675 / 18014398509481984) = 13589545 / 33554432 :=
    flRound_near 24 (-126) _ (-2) (-25) 13589545 _ (by norm_num)
  have r20 : fl64 (68190971156953744497705 / 75557863725914323419136) = 60565749 / 67108864 :=
    flRound_near 53 (-1022) _ (-1) (-53) 8128997225398272 _ (by norm_num)
  have r21 : fl32 (60565749 / 67108864) = 15141437 / 16777216 :=
    flRound_near 24 (-126) _ (-1) (-24) 15141437 _ (by norm_num)
  have r22 : fl32 (13589545 / 33554432) = 13589545 / 33554432 :=
    flRound_near 24 (-126) _ (-2) (-25) 13589545 _ (by norm_num)
  have r23 : fl32 (15141437 / 16777216) = 15141437 / 16777216 :=
    flRound_near 24 (-126) _ (-1) (-24) 15141437 _ (by norm_num)
  refine ⟨rfl, (C11_tuner_fires_on_every_invocation BreathController.init 1 rfl).1,
    (C11_tuner_fires_on_every_invocation BreathController.init 1 rfl).2.2.2, ?_, ?_⟩
  · norm_num [adaptiveModelAdjustmentF, rescaleF, avgPressureDiffF, constrain,
      BreathController.init, BREATH_THRESHOLD, STORE_SIZE, ADAPT_CYCLES, hr, hm, fl32_zero,
      r1, r2, r3, r4, r5, r6, r7, r8, r9, r10, r11, r12, r13, r14, r15, r16, r17, r18, r19, r20,
        r21, r22, r23]
  · norm_num [adaptiveModelAdjustmentF, rescaleF, avgPressureDiffF, constrain,
      BreathController.init, BREATH_THRESHOLD, STORE_SIZE, ADAPT_CYCLES, hr, hm, fl32_zero,
      r1, r2, r3, r4, r5, r6, r7, r8, r9, r10, r11, r12, r13, r14, r15, r16, r17, r18, r19, r20,
        r21, r22, r23]

/-- C12. Actuator EXHALE rule: for every prior command `c`, one `controlValve` step in state
EXHALE sets the command to `c - 20` clamped to `[0, 255]`, and writes nothing else; two
controllers in state EXHALE with the same prior command get the same new command whatever
their responseFactor and assistLevel. -/
theorem C12_exhale_rule (s s' : BreathController) (hs : s.currentState = EXHALE) :
    (controlValve s).valveOpening = max 0 (min (s.valveOpening - 20) 255) ∧
    controlValve s = { s with valveOpening := max 0 (min (s.valveOpening - 20) 255) } ∧
    (s'.currentState = EXHALE → s'.valveOpening = s.valveOpening →
      (controlValve s').valveOpening = (controlValve s).valveOpening) := by
  have hc : ∀ v : ℚ, constrain v 0 MAX_VALVE_OPEN = max 0 (min v 255) := by
    intro v
    rw [constrain_eq_max_min v (by norm_num [MAX_VALVE_OPEN])]
    rfl
  refine ⟨?_, ?_, ?_⟩
  · rw [controlValve_exhale s hs, hc]
  · rw [controlValve_exhale s hs, hc]
  · intro hs' hv
    rw [controlValve_exhale s hs, controlValve_exhale s' hs', hv]

/-- Witness for C12: command 50 in state EXHALE becomes 30, both with responseFactor 1.0 and
assistLevel 0.5 and with responseFactor 2.0 and assistLevel 0.1; command 10 becomes 0. -/
theorem C12_exhale_rule_witness :
    ({ BreathController.init with valveOpening := 50 } : BreathController).currentState
      = EXHALE ∧
    (controlValve { BreathController.init with valveOpening := 50 }).valveOpening = 30 ∧
    (controlValve { BreathController.init with
      valveOpening := 50, responseFactor := 2.0, assistLevel := 0.1 }).valveOpening
      = (controlValve { BreathController.init with valveOpening := 50 }).valveOpening ∧
    (controlValve { BreathController.init with valveOpening := 10 }).valveOpening = 0 :=
  ⟨rfl,
    (C12_exhale_rule { BreathController.init with valveOpening := 50 }
      BreathController.init rfl).1.trans (by norm_num),
    (C12_exhale_rule { BreathController.init with valveOpening := 50 }
      { BreathController.init with
        valveOpening := 50, responseFactor := 2.0, assistLevel := 0.1 } rfl).2.2 rfl rfl,
    (C12_exhale_rule { BreathController.init with valveOpening := 10 }
      BreathController.init rfl).1.trans (by norm_num)⟩

/-- C13. Actuator hold and force-close: for every prior command, responseFactor and
assistLevel, one `controlValve` step in state PEAK leaves the command (and the whole
controller) unchanged, and one step in state TROUGH sets the command to 0. -/
theorem C13_hold_and_force_close (s : BreathController) :
    (s.currentState = PEAK →
      (controlValve s).valveOpening = s.valveOpening ∧ controlValve s = s) ∧
    (s.currentState = TROUGH → (controlValve s).valveOpening = 0) := by
  constructor
  · intro hs
    rw [controlValve_peak s hs]
    exact ⟨rfl, rfl⟩
  · intro hs
    rw [controlValve_trough s hs]

/-- Witness for C13: command 77 is held in PEAK and forced to 0 in TROUGH. -/
theorem C13_hold_and_force_close_witness :
    (controlValve { BreathController.init with
      currentState := PEAK, valveOpening := 77 }).valveOpening = 77 ∧
    (controlValve { BreathController.init with
      currentState := TROUGH, valveOpening := 77 }).valveOpening = 0 :=
  ⟨((C13_hold_and_force_close { BreathController.init with
      currentState := PEAK, valveOpening := 77 }).1 rfl).1,
    (C13_hold_and_force_close { BreathController.init with
      currentState := TROUGH, valveOpening := 77 }).2 rfl⟩

/-- C14. Actuator command bound: from command 0, for every sequence of `controlValve`
steps, each in an arbitrary breath state with an arbitrary responseFactor and an assist
level in `[0, 1]`, the command after every step satisfies `0 ≤ command ≤ MAX` (255). -/
theorem C14_command_bound (s : BreathController) (inputs : List (BreathState × ℚ × ℚ))
    (h0 : s.valveOpening = 0) (ha : ∀ x ∈ inputs, 0 ≤ x.2.2 ∧ x.2.2 ≤ 1) :
    ∀ c ∈ valveRun s inputs, 0 ≤ c.valveOpening ∧ c.valveOpening ≤ 255 := by
  have hb := valveRun_bounds inputs s (le_of_eq h0.symm)
    (by rw [h0]; norm_num [MAX_VALVE_OPEN]) ha
  intro c hc
  exact hb c hc

/-- Witness for C14: from the constructed controller, thirty INHALE steps with
responseFactor 100 at assist level 1 then one EXHALE step with responseFactor -3; the last
command is within `[0, 255]`. -/
theorem C14_command_bound_witness :
    BreathController.init.valveOpening = 0 ∧
    (∀ x ∈ List.replicate 30 (INHALE, (100 : ℚ), (1 : ℚ)) ++ [(EXHALE, (-3 : ℚ), (0 : ℚ))],
      0 ≤ x.2.2 ∧ x.2.2 ≤ 1) ∧
    (∀ c ∈ valveRun BreathController.init
        (List.replicate 30 (INHALE, (100 : ℚ), (1 : ℚ)) ++ [(EXHALE, (-3 : ℚ), (0 : ℚ))]),
      0 ≤ c.valveOpening ∧ c.valveOpening ≤ 255) :=
  have ha : ∀ x ∈ List.replicate 30 (INHALE, (100 : ℚ), (1 : ℚ)) ++ [(EXHALE, (-3 : ℚ), (0 : ℚ))],
      0 ≤ x.2.2 ∧ x.2.2 ≤ 1 := by
    intro x hx
    rcases List.mem_append.mp hx with h | h
    · rw [List.eq_of_mem_replicate h]
      norm_num
    · rw [List.mem_singleton.mp h]
      norm_num
  ⟨rfl, ha, C14_command_bound BreathController.init _ rfl ha⟩

/-- C17. TROUGH is unreachable by normal transitions: from a controller in state EXHALE,
for every sequence of classifier calls with arbitrary pressures, timestamps and
thresholds, the state after every call is not TROUGH; and a single call returns TROUGH
only if TROUGH was already the current state. -/
theorem C17_trough_unreachable (w : ℕ) (s s' : BreathController)
    (inputs : List (ℕ × ℚ × ℚ)) (now : ℕ) (p : ℚ) (hs : s.currentState = EXHALE) :
    (∀ c ∈ classifyRunWith w s inputs, c.currentState ≠ TROUGH) ∧
    ((detectBreathState w now p s').1 = TROUGH → s'.currentState = TROUGH) := by
  constructor
  · apply classifyRunWith_no_trough w inputs s
    rw [hs]
    decide
  · exact detect_trough_only_from_trough w now p s'

/-- Witness for C17: the constructed controller and four calls with varying thresholds. -/
theorem C17_trough_unreachable_witness :
    BreathController.init.currentState = EXHALE ∧
    (∀ c ∈ classifyRunWith 32 BreathController.init
        [(0, 10, 0.5), (100, 11, 0.45), (200, 10.5, 0.4), (300, 9, 0.2)],
      c.currentState ≠ TROUGH) :=
  ⟨rfl,
    (C17_trough_unreachable 32 BreathController.init BreathController.init
      [(0, 10, 0.5), (100, 11, 0.45), (200, 10.5, 0.4), (300, 9, 0.2)] 0 0 rfl).1⟩

/-- C18. Control parameters are written only by the tuner: for every input and every prior
state, `detectBreathState`, `controlValve`, `applyMovingAverage` and `applyEWMA` leave
pressureThreshold and responseFactor unchanged. -/
theorem C18_params_frame (w now : ℕ) (p x : ℚ) (s : BreathController) :
    (detectBreathState w now p s).2.pressureThreshold = s.pressureThreshold ∧
    (detectBreathState w now p s).2.responseFactor = s.responseFactor ∧
    (controlValve s).pressureThreshold = s.pressureThreshold ∧
    (controlValve s).responseFactor = s.responseFactor ∧
    (applyMovingAverage x s).2.pressureThreshold = s.pressureThreshold ∧
    (applyMovingAverage x s).2.responseFactor = s.responseFactor ∧
    (applyEWMA x s).2.pressureThreshold = s.pressureThreshold ∧
    (applyEWMA x s).2.responseFactor = s.responseFactor := by
  refine ⟨(detect_params w now p s).1, (detect_params w now p s).2, ?_, ?_, rfl, rfl, ?_, ?_⟩
  · unfold controlValve
    split <;> rfl
  · unfold controlValve
    split <;> rfl
  · unfold applyEWMA
    split_ifs <;> rfl
  · unfold applyEWMA
    split_ifs <;> rfl

/-- C19. Tuner gating: for every state with `breathCount % 5 != 0` and every deviation
history, `adaptiveModelAdjustment` leaves the whole controller, and so pressureThreshold
and responseFactor, unchanged. -/
theorem C19_tuner_gating (s : BreathController)
    (hc : s.breathCount.tmod ADAPT_CYCLES ≠ 0) :
    adaptiveModelAdjustment s = s ∧
    (adaptiveModelAdjustment s).pressureThreshold = s.pressureThreshold ∧
    (adaptiveModelAdjustment s).responseFactor = s.responseFactor := by
  rw [adaptiveModelAdjustment_closed s hc]
  exact ⟨rfl, rfl, rfl⟩

/-- Witness for C19: breath count 3 and a history of large deviations; nothing changes. -/
theorem C19_tuner_gating_witness :
    ({ withHistory [4, 4, 4, 4, 4, 4, 4, 4, 4, 4] with breathCount := 3 }
      : BreathController).breathCount.tmod ADAPT_CYCLES ≠ 0 ∧
    adaptiveModelAdjustment { withHistory [4, 4, 4, 4, 4, 4, 4, 4, 4, 4] with breathCount := 3 }
      = { withHistory [4, 4, 4, 4, 4, 4, 4, 4, 4, 4] with breathCount := 3 } :=
  ⟨by decide,
    (C19_tuner_gating { withHistory [4, 4, 4, 4, 4, 4, 4, 4, 4, 4] with breathCount := 3 }
      (by decide)).1⟩

/-- C20 (as stated, refuted). Two runs from the constructed filter with the same last five
samples 101, 100.5, 6501171/65536, 13120307/131072, 6501171/65536 (the `float` values
nearest 99.2, 100.1, 99.2): the run of these five samples alone returns 100 on its last
call, the run with the sample 100 in front returns 13107201/131072 (about 100.0000076) on
its last call. In the second run the newest sample sits in slot 0 and is added first, and
the `float` additions round differently. -/
theorem C20_older_sample_shifts_result :
    (∀ x ∈ ([100, 101, 201 / 2, 6501171 / 65536, 13120307 / 131072,
        6501171 / 65536] : List ℚ), fl32 x = x) ∧
    ([100, 101, 201 / 2, 6501171 / 65536, 13120307 / 131072,
        6501171 / 65536] : List ℚ).drop (6 - 5)
      = [101, 201 / 2, 6501171 / 65536, 13120307 / 131072, 6501171 / 65536] ∧
    (movingAverageRunF BreathController.init
        [101, 201 / 2, 6501171 / 65536, 13120307 / 131072, 6501171 / 65536]).1.getLast?
      = some 100 ∧
    (movingAverageRunF BreathController.init
        [100, 101, 201 / 2, 6501171 / 65536, 13120307 / 131072, 6501171 / 65536]).1.getLast?
      = some (13107201 / 131072) ∧
    (100 : ℚ) ≠ 13107201 / 131072 := by
  have hr : List.range 5 = [0, 1, 2, 3, 4] := by decide
  have r1 : fl32 (101) = 101 :=
    flRound_near 24 (-126) _ 6 (-17) 13238272 _ (by norm_num)
  have r2 : fl32 (403 / 2) = 403 / 2 :=
    flRound_near 24 (-126) _ 7 (-16) 13205504 _ (by norm_num)
  have r3 : fl32 (403 / 4) = 403 / 4 :=
    flRound_near 24 (-126) _ 6 (-17) 13205504 _ (by norm_num)
  have r4 : fl32 (19706675 / 65536) = 4926669 / 16384 :=
    flRound_tie 24 (-126) _ 8 (-15) 9853337 9853338 _ (by norm_num)
  have r5 : fl32 (1642223 / 16384) = 1642223 / 16384 :=
    flRound_near 24 (-126) _ 6 (-17) 13137784 _ (by norm_num)
  have r6 : fl32 (52533659 / 131072) = 13133415 / 32768 :=
    flRound_near 24 (-126) _ 8 (-15) 13133415 _ (by norm_num)
  have r7 : fl32 (13133415 / 131072) = 13133415 / 131072 :=
    flRound_near 24 (-126) _ 6 (-17) 13133415 _ (by norm_num)
  have r8 : fl32 (32768001 / 65536) = 500 :=
    flRound_tie 24 (-126) _ 8 (-15) 16384000 16384000 _ (by norm_num)
  have r9 : fl32 (100) = 100 :=
    flRound_near 24 (-126) _ 6 (-17) 13107200 _ (by norm_num)
  have r10 : fl32 (201) = 201 :=
    flRound_near 24 (-126) _ 7 (-16) 13172736 _ (by norm_num)
  have r11 : fl32 (201 / 2) = 201 / 2 :=
    flRound_near 24 (-126) _ 6 (-17) 13172736 _ (by norm_num)
  have r12 : fl32 (603 / 2) = 603 / 2 :=
    flRound_near 24 (-126) _ 8 (-15) 9879552 _ (by norm_num)
  have r13 : fl32 (26260275 / 65536) = 6565069 / 16384 :=
    flRound_tie 24 (-126) _ 8 (-15) 13130137 13130138 _ (by norm_num)
  have r14 : fl32 (6565069 / 65536) = 6565069 / 65536 :=
    flRound_near 24 (-126) _ 6 (-17) 13130138 _ (by norm_num)
  have r15 : fl32 (65640859 / 131072) = 16410215 / 32768 :=
    flRound_near 24 (-126) _ 8 (-15) 16410215 _ (by norm_num)
  have r16 : fl32 (3282043 / 32768) = 3282043 / 32768 :=
    flRound_near 24 (-126) _ 6 (-17) 13128172 _ (by norm_num)
  have r17 : fl32 (6501171 / 65536) = 6501171 / 65536 :=
    flRound_near 24 (-126) _ 6 (-17) 13002342 _ (by norm_num)
  have r18 : fl32 (13120307 / 65536) = 13120307 / 65536 :=
    flRound_near 24 (-126) _ 7 (-16) 13120307 _ (by norm_num)
  have r19 : fl32 (26207847 / 65536) = 3275981 / 8192 :=
    flRound_tie 24 (-126) _ 8 (-15) 13103923 13103924 _ (by norm_num)
  have r20 : fl32 (65536003 / 131072) = 16384001 / 32768 :=
    flRound_near 24 (-126) _ 8 (-15) 16384001 _ (by norm_num)
  have r21 : fl32 (16384001 / 163840) = 13107201 / 131072 :=
    flRound_near 24 (-126) _ 6 (-17) 13107201 _ (by norm_num)
  have r22 : fl32 (13120307 / 131072) = 13120307 / 131072 :=
    flRound_near 24 (-126) _ 6 (-17) 13120307 _ (by norm_num)
  refine ⟨?_, rfl, ?_, ?_, by norm_num⟩
  · intro x hx
    simp only [List.mem_cons, List.mem_singleton, List.not_mem_nil, or_false] at hx
    rcases hx with h | h | h | h | h | h <;> rw [h] <;>
      norm_num [r1, r2, r3, r4, r5, r6, r7, r8, r9, r10, r11, r12, r13, r14, r15, r16, r17, r18,
        r19, r20, r21, r22]
  · norm_num [movingAverageRunF, applyMovingAverageF, sumValidF, BreathController.init,
      FILTER_WINDOW, hr, r1, r2, r3, r4, r5, r6, r7, r8, r9, r10, r11, r12, r13, r14, r15, r16,
        r17, r18, r19, r20, r21, r22]
  · norm_num [movingAverageRunF, applyMovingAverageF, sumValidF, BreathController.init,
      FILTER_WINDOW, hr, r1, r2, r3, r4, r5, r6, r7, r8, r9, r10, r11, r12, r13, r14, r15, r16,
        r17, r18, r19, r20, r21, r22]

/-- C20 (amended). Moving-average steady state: from a freshly constructed filter (all 5
history slots NaN, write index 0), for every sequence of `n ≥ 5` samples of magnitude at
most `M` among the last 5 (with `M ≤ 2 ^ 100`, so that no operation overflows), the value
returned by the `n`-th `applyMovingAverage` call is the `float` mean of the last 5 samples
as they lie in the buffer: their `float` sum in slot order (the sample in slot 0 first,
which is the last five samples rotated by `n % 5` places), with a rounding after every
addition, divided by 5 in `float`. This value is within `8 * roundSlack M` of the
arithmetic mean of the last 5 samples. Older samples influence the result only through
`n % 5`: two sequences of at least 5 samples with the same last 5 samples and the same
length modulo 5 give the same `n`-th value. -/
theorem C20_moving_average_steady_state (s : BreathController) (xs xs' : List ℚ)
    (hh : s.pressureHistory = List.replicate FILTER_WINDOW none) (hi : s.historyIndex = 0)
    (h5 : 5 ≤ xs.length) :
    (movingAverageRunF s xs).1.length = xs.length ∧
    (∀ M, (∀ x ∈ xs.drop (xs.length - 5), |x| ≤ M) → M ≤ 2 ^ 100 →
      (movingAverageRunF s xs).1.getLast?
        = some (fl32 (floatSum
            ((xs.drop (xs.length - 5)).rotate ((5 - xs.length % 5) % 5)) / 5)) ∧
      |fl32 (floatSum ((xs.drop (xs.length - 5)).rotate ((5 - xs.length % 5) % 5)) / 5)
        - (xs.drop (xs.length - 5)).sum / 5| ≤ 8 * roundSlack M) ∧
    (5 ≤ xs'.length → xs'.drop (xs'.length - 5) = xs.drop (xs.length - 5) →
      xs'.length % 5 = xs.length % 5 →
      (movingAverageRunF s xs').1.getLast? = (movingAverageRunF s xs).1.getLast?) := by
  obtain ⟨h1, h2⟩ := movingAverageRunF_steady s xs hh hi h5
  refine ⟨movingAverageRunF_length xs s, fun M hM _ => ⟨h1, h2 M hM⟩, ?_⟩
  intro h5' hsame hmod
  rw [h1, (movingAverageRunF_steady s xs' hh hi h5').1, hsame, hmod]

/-- Witness for C20: the constructed controller and the seven samples
100, -40, 1, 2, 3, 4, 5; the seventh call returns 3, the `float` sum 4 + 5 + 1 + 2 + 3
(slot order) divided by 5, as does the seventh call of the run on 7, 9, 1, 2, 3, 4, 5. -/
theorem C20_moving_average_steady_state_witness :
    BreathController.init.pressureHistory = List.replicate FILTER_WINDOW none ∧
    BreathController.init.historyIndex = 0 ∧
    5 ≤ ([100, -40, 1, 2, 3, 4, 5] : List ℚ).length ∧
    (∀ x ∈ ([100, -40, 1, 2, 3, 4, 5] : List ℚ).drop
        (([100, -40, 1, 2, 3, 4, 5] : List ℚ).length - 5), |x| ≤ 5) ∧
    (movingAverageRunF BreathController.init [100, -40, 1, 2, 3, 4, 5]).1.getLast?
      = some 3 ∧
    (movingAverageRunF BreathController.init [7, 9, 1, 2, 3, 4, 5]).1.getLast?
      = (movingAverageRunF BreathController.init [100, -40, 1, 2, 3, 4, 5]).1.getLast? := by
  have m3 : fl32 3 = 3 := flRound_near 24 (-126) _ 1 (-22) 12582912 _ (by norm_num)
  have m4 : fl32 4 = 4 := flRound_near 24 (-126) _ 2 (-21) 8388608 _ (by norm_num)
  have m9 : fl32 9 = 9 := flRound_near 24 (-126) _ 3 (-20) 9437184 _ (by norm_num)
  have m10 : fl32 10 = 10 := flRound_near 24 (-126) _ 3 (-20) 10485760 _ (by norm_num)
  have m12 : fl32 12 = 12 := flRound_near 24 (-126) _ 3 (-20) 12582912 _ (by norm_num)
  have m15 : fl32 15 = 15 := flRound_near 24 (-126) _ 3 (-20) 15728640 _ (by norm_num)
  have hrot : ([1, 2, 3, 4, 5] : List ℚ).rotate 3 = [4, 5, 1, 2, 3] := rfl
  have hM : ∀ x ∈ ([100, -40, 1, 2, 3, 4, 5] : List ℚ).drop
      (([100, -40, 1, 2, 3, 4, 5] : List ℚ).length - 5), |x| ≤ 5 := by
    intro x hx
    simp at hx
    rcases hx with h | h | h | h | h <;> rw [h] <;> norm_num [abs_le]
  exact ⟨rfl, rfl, by decide, hM,
    ((C20_moving_average_steady_state BreathController.init [100, -40, 1, 2, 3, 4, 5] []
      rfl rfl (by decide)).2.1 5 hM (by norm_num)).1.trans
      (by norm_num [floatSum, hrot, m3, m4, m9, m10, m12, m15]),
    (C20_moving_average_steady_state BreathController.init [100, -40, 1, 2, 3, 4, 5]
      [7, 9, 1, 2, 3, 4, 5] rfl rfl (by decide)).2.2 (by decide) (by simp) (by decide)⟩

/-- C21 (as stated, refuted). From state EXHALE with previous pressure 10 and threshold 0.5:
the samples 10.7, 10.9, 10.5 give INHALE, INHALE, PEAK and leave maxPressure = 10.5, below
the sample 10.9 fed during that inhale; the samples 10.7, 9.0 give INHALE, PEAK and leave
minPressure = 10.7, above the sample 9.0 fed on the PEAK call. -/
theorem C21_extremes_are_not_cycle_bounds :
    (classifyRun 32 (seeded EXHALE 10) [(0, 10.7), (100, 10.9), (200, 10.5)]).map
        BreathController.currentState = [INHALE, INHALE, PEAK] ∧
    (classifyFinal 32 (seeded EXHALE 10) [(0, 10.7), (100, 10.9), (200, 10.5)]).maxPressure
      = 10.5 ∧
    ¬ (10.9 : ℚ) ≤
      (classifyFinal 32 (seeded EXHALE 10) [(0, 10.7), (100, 10.9), (200, 10.5)]).maxPressure ∧
    (classifyRun 32 (seeded EXHALE 10) [(0, 10.7), (100, 9.0)]).map
        BreathController.currentState = [INHALE, PEAK] ∧
    (classifyFinal 32 (seeded EXHALE 10) [(0, 10.7), (100, 9.0)]).minPressure = 10.7 ∧
    ¬ (classifyFinal 32 (seeded EXHALE 10) [(0, 10.7), (100, 9.0)]).minPressure
      ≤ (9.0 : ℚ) := by
  simp [classifyRun, classifyFinal, classify, detectBreathState, seeded,
    BreathController.init, BREATH_THRESHOLD]
  norm_num

/-- C21 (amended). Consider calls that take the classifier from EXHALE to INHALE (call
`first`), keep it in INHALE (calls `mid`) and then take it to PEAK (call `last`), with any
thresholds. Afterwards minPressure is the pressure of `first` and is at most every
pressure fed from `first` up to the call before `last`; maxPressure is the pressure of
`last`, which is strictly below the pressure of the call before it. -/
theorem C21_cycle_extremes (w : ℕ) (s fin : BreathController) (first last : ℕ × ℚ × ℚ)
    (mid : List (ℕ × ℚ × ℚ)) (hs : s.currentState = EXHALE)
    (htrace : (classifyRunWith w s (first :: (mid ++ [last]))).map BreathController.currentState
      = List.replicate (mid.length + 1) INHALE ++ [PEAK])
    (hfin : (classifyRunWith w s (first :: (mid ++ [last]))).getLast? = some fin) :
    fin.minPressure = first.2.1 ∧
    (∀ x ∈ first :: mid, fin.minPressure ≤ x.2.1) ∧
    fin.maxPressure = last.2.1 ∧
    (∀ prev, ((first :: mid).map (fun x => x.2.1)).getLast? = some prev →
      fin.maxPressure < prev) := by
  obtain ⟨now, q, t⟩ := first
  rw [classifyRunWith_cons] at htrace hfin
  rw [List.map_cons, List.replicate_succ, List.cons_append] at htrace
  have hhead := (List.cons.inj htrace).1
  have htail := (List.cons.inj htrace).2
  have hne : classifyRunWith w (classify w now q { s with pressureThreshold := t })
      (mid ++ [last]) ≠ [] := by
    intro h0
    have hlen := classifyRunWith_length w (mid ++ [last])
      (classify w now q { s with pressureThreshold := t })
    rw [h0] at hlen
    simp at hlen
  obtain ⟨c, cs, hcs⟩ := List.exists_cons_of_ne_nil hne
  rw [hcs, List.getLast?_cons_cons, ← hcs] at hfin
  have hseed : ¬ (s.firstCall = true ∨ s.lastPressure = none) := by
    intro h
    rw [classify_seed_state w now q { s with pressureThreshold := t } h] at hhead
    rw [show ({ s with pressureThreshold := t } : BreathController).currentState
      = s.currentState from rfl, hs] at hhead
    exact absurd hhead (by decide)
  have hf : s.firstCall = false := by
    cases h : s.firstCall
    · rfl
    · exact absurd (Or.inl h) hseed
  obtain ⟨l, hl⟩ : ∃ l, s.lastPressure = some l := by
    cases h : s.lastPressure with
    | none => exact absurd (Or.inr h) hseed
    | some l => exact ⟨l, rfl⟩
  have hstep := classify_exhale w now q l { s with pressureThreshold := t } hf hl hs
  generalize classify w now q { s with pressureThreshold := t } = s1
    at hstep hhead htail hfin
  by_cases hq : q > l + t
  · rw [if_pos hq] at hstep
    subst hstep
    obtain ⟨h1, h2, h3, h4⟩ := inhale_run w last mid
      { ({ s with pressureThreshold := t } : BreathController) with
        currentState := INHALE, minPressure := q, lastPressure := some q }
      fin q rfl hf rfl htail hfin
    have hmin : fin.minPressure = q := h2
    refine ⟨hmin, ?_, h3, ?_⟩
    · intro x hx
      rw [hmin]
      rcases List.mem_cons.mp hx with hx | hx
      · rw [hx]
      · exact h1 x hx
    · intro prev hprev
      rw [h3]
      exact h4 prev hprev
  · rw [if_neg hq] at hstep
    subst hstep
    rw [show ({ s with pressureThreshold := t, lastPressure := some q }
      : BreathController).currentState = s.currentState from rfl, hs] at hhead
    exact absurd hhead (by decide)

/-- Witness for C21 (amended): state EXHALE, previous pressure 10; the calls 10.7, 10.9,
10.5 at threshold 0.5 give INHALE, INHALE, PEAK; afterwards minPressure = 10.7 and
maxPressure = 10.5. -/
theorem C21_cycle_extremes_witness :
    (seeded EXHALE 10).currentState = EXHALE ∧
    (classifyRunWith 32 (seeded EXHALE 10)
        ((0, 10.7, 0.5) :: ([(100, 10.9, 0.5)] ++ [(200, 10.5, 0.5)]))).map
      BreathController.currentState = List.replicate (1 + 1) INHALE ++ [PEAK] ∧
    (classifyRunWith 32 (seeded EXHALE 10)
        ((0, 10.7, 0.5) :: ([(100, 10.9, 0.5)] ++ [(200, 10.5, 0.5)]))).getLast?.map
      BreathController.minPressure = some 10.7 ∧
    (classifyRunWith 32 (seeded EXHALE 10)
        ((0, 10.7, 0.5) :: ([(100, 10.9, 0.5)] ++ [(200, 10.5, 0.5)]))).getLast?.map
      BreathController.maxPressure = some 10.5 := by
  have htrace : (classifyRunWith 32 (seeded EXHALE 10)
        ((0, 10.7, 0.5) :: ([(100, 10.9, 0.5)] ++ [(200, 10.5, 0.5)]))).map
      BreathController.currentState = List.replicate (1 + 1) INHALE ++ [PEAK] := by
    simp [classifyRunWith, classify, detectBreathState, seeded, BreathController.init,
      BREATH_THRESHOLD]
    norm_num
  obtain ⟨fin, hfin⟩ : ∃ fin, (classifyRunWith 32 (seeded EXHALE 10)
      ((0, 10.7, 0.5) :: ([(100, 10.9, 0.5)] ++ [(200, 10.5, 0.5)]))).getLast? = some fin := by
    simp [classifyRunWith]
  have h := C21_cycle_extremes 32 (seeded EXHALE 10) fin (0, 10.7, 0.5) (200, 10.5, 0.5)
    [(100, 10.9, 0.5)] rfl htrace hfin
  refine ⟨rfl, htrace, ?_, ?_⟩
  · rw [hfin, Option.map_some', h.1]
  · rw [hfin, Option.map_some', h.2.2.1]

/-- C22 (as stated, refuted). Two calls from the constructed controller (state EXHALE,
threshold 0.5), the first with the `float` nearest 15.7 and the second with the `float`
nearest 16.2. The second call is past the seed path and its sample exceeds the first
call's pressure plus the threshold, yet it returns EXHALE: what it compares the sample
with is the `float` sum, which rounds to the sample itself. -/
theorem C22_second_call_compares_rounded_sum :
    (classifyF 64 0 (16462643 / 1048576) BreathController.init).firstCall = false ∧
    (classifyF 64 0 (16462643 / 1048576) BreathController.init).lastPressure
      = some (16462643 / 1048576) ∧
    (classifyF 64 0 (16462643 / 1048576) BreathController.init).currentState = EXHALE ∧
    (classifyF 64 0 (16462643 / 1048576) BreathController.init).pressureThreshold = 1 / 2 ∧
    (4246733 / 262144 : ℚ) > 16462643 / 1048576 + 1 / 2 ∧
    (detectBreathStateF 64 100 (4246733 / 262144)
      (classifyF 64 0 (16462643 / 1048576) BreathController.init)).1 = EXHALE := by
  have r3 : fl32 (16986931 / 1048576) = 4246733 / 262144 :=
    flRound_tie 24 (-126) _ 4 (-19) 8493465 8493466 _ (by norm_num)
  have h1 : classifyF 64 0 (16462643 / 1048576) BreathController.init
      = { BreathController.init with
          lastPressure := some (16462643 / 1048576), firstCall := false } :=
    classifyF_first 64 0 _ _ rfl
  rw [h1]
  refine ⟨rfl, rfl, rfl, by norm_num [BreathController.init, BREATH_THRESHOLD],
    by norm_num, ?_⟩
  rw [detectF_exhale 64 100 _ (16462643 / 1048576) _ rfl rfl rfl]
  norm_num [BreathController.init, BREATH_THRESHOLD, r3]

/-- C22 (amended). The first-call guard is single-shot. Every call, whatever path it takes,
clears `firstCall` and stores its pressure as the previous pressure, so along any run of
calls the controller after each call has `firstCall = false` and holds that call's
pressure. Hence a call that follows a call with pressure `p` is past the seed path:
whatever the threshold `t` then in force, it returns the outcome of the transition guard
of the current state as the program evaluates it, which compares the new pressure with
`p` (from INHALE and TROUGH), with the `float` sum of `p` and `t` (from EXHALE) or with
the `float` difference of `p` and `t` (from PEAK). -/
theorem C22_guard_is_single_shot (w now now' : ℕ) (p q t : ℚ) (s : BreathController)
    (inputs : List (ℕ × ℚ × ℚ)) :
    (detectBreathStateF w now p s).2.firstCall = false ∧
    (detectBreathStateF w now p s).2.lastPressure = some p ∧
    (classifyRunWithF w s inputs).map (fun c => (c.firstCall, c.lastPressure))
      = inputs.map (fun x => (false, some x.2.1)) ∧
    (detectBreathStateF w now' q { classifyF w now p s with pressureThreshold := t }).1
      = match (classifyF w now p s).currentState with
        | EXHALE => if q > fl32 (p + t) then INHALE else EXHALE
        | INHALE => if q < p then PEAK else INHALE
        | PEAK => if q < fl32 (p - t) then EXHALE else PEAK
        | TROUGH => if q > p then INHALE else TROUGH := by
  refine ⟨detectF_firstCall w now p s, detectF_lastPressure w now p s,
    classifyRunWithF_statics w inputs s, ?_⟩
  exact detectF_guard w now' q p { classifyF w now p s with pressureThreshold := t }
    (detectF_firstCall w now p s) (detectF_lastPressure w now p s)

/-- C24 (as stated, refuted). One tick of the constructed controller with pressure reads
on channels 1 and 3 (both pressure sensors, as configured in `main.cpp`): the read on
channel 1 stores the deviation 0 in slot 0 and the read on channel 3 stores 1.5 in the same
slot, so within ten ticks a slot is overwritten more than once, and after the tick the
slot does not hold the deviation of the main channel. -/
theorem C24_two_reads_share_a_slot :
    (pressureChannel 32 0 1 10 BreathController.init).storeIndex = 0 ∧
    (pressureChannel 32 0 1 10 BreathController.init).storedPressures[0]?
      = some (0 : ℚ) ∧
    (pressureChannel 32 0 3 20
      (pressureChannel 32 0 1 10 BreathController.init)).storedPressures[0]?
      = some (3 / 2 : ℚ) ∧
    (update 32 0 true [(1, 10), (3, 20)] BreathController.init).storedPressures[0]?
      = some (3 / 2 : ℚ) ∧
    (update 32 0 true [(1, 10), (3, 20)] BreathController.init).storeIndex = 1 := by
  have hr : List.range 5 = [0, 1, 2, 3, 4] := by decide
  have hr10 : List.range 10 = [0, 1, 2, 3, 4, 5, 6, 7, 8, 9] := by decide
  have hm : Int.tmod 0 5 = 0 := by decide
  simp [update, channelLoop, pressureChannel, filterStep, applyMovingAverage, applyEWMA,
    sumValid, controlTick, classify, detectBreathState, controlValve,
    adaptiveModelAdjustment, avgPressureDiff, constrain, BreathController.init,
    BREATH_THRESHOLD, STORE_SIZE, FILTER_WINDOW, ADAPT_CYCLES, MAX_VALVE_OPEN, EWMA_ALPHA,
    hr, hr10, hm]
  norm_num

/-- C24 (amended). Deviation-history ring buffer, for a controller with `storeIndex` in
0..9 and a 10-slot history (as constructed). `ticks` are completed `update()` ticks.
(1) After any ticks `storeIndex` is in 0..9; one tick advances it by one modulo 10, so
after the ticks it is `(storeIndex + number of ticks) % 10`.
(2) Every pressure read stores `filtered - basePressure` in slot `storeIndex` and leaves
the other slots alone, where `basePressure` is the stored baseline if one is set and
otherwise becomes this very filtered value, making the stored deviation 0. A tick with
one pressure read leaves exactly that history; in a tick with several pressure reads they
all write the same slot and the history after the tick is the one left by the last read.
(3) Once set, the baseline is never changed by later ticks.
(4) For every slot `k` there is exactly one `j < 10` such that the tick following `j`
completed ticks writes slot `k`: of ten consecutive ticks exactly one targets each slot. -/
theorem C24_deviation_history (w now i k : ℕ) (x : ℚ) (ticks : List (ℕ × List (ℕ × ℚ)))
    (reads : List (ℕ × ℚ)) (s : BreathController)
    (hs : s.storeIndex < 10) (hlen : s.storedPressures.length = 10) :
    (updateRun w s ticks).storeIndex < 10 ∧
    (update w now true reads s).storeIndex = (s.storeIndex + 1) % 10 ∧
    (updateRun w s ticks).storeIndex = (s.storeIndex + ticks.length) % 10 ∧
    (pressureChannel w now i x s).storeIndex = s.storeIndex ∧
    (pressureChannel w now i x s).storedPressures[s.storeIndex]?
      = some ((filterStep x s).1
          - (if s.isBaseSet then s.basePressure else (filterStep x s).1)) ∧
    (∀ m, m ≠ s.storeIndex →
      (pressureChannel w now i x s).storedPressures[m]? = s.storedPressures[m]?) ∧
    (pressureChannel w now i x s).basePressure
      = (if s.isBaseSet then s.basePressure else (filterStep x s).1) ∧
    (s.isBaseSet = false →
      (pressureChannel w now i x s).storedPressures[s.storeIndex]? = some 0 ∧
      (pressureChannel w now i x s).basePressure = (filterStep x s).1) ∧
    (i ≠ 2 →
      (update w now true [(i, x)] s).storedPressures
        = s.storedPressures.set s.storeIndex
            ((filterStep x s).1
              - (if s.isBaseSet then s.basePressure else (filterStep x s).1))) ∧
    (i ≠ 2 →
      (update w now true (reads ++ [(i, x)]) s).storedPressures
        = (pressureChannel w now i x (channelLoop w now reads s)).storedPressures ∧
      (channelLoop w now reads s).storeIndex = s.storeIndex) ∧
    (s.isBaseSet = true → (updateRun w s ticks).basePressure = s.basePressure) ∧
    (10 ≤ ticks.length → k < 10 →
      ∃! j, j < 10 ∧ (updateRun w s (ticks.take j)).storeIndex = k) := by
  obtain ⟨p1, p2, p3, p4⟩ := pressureChannel_store w now i x s
  have hidx : s.storeIndex < s.storedPressures.length := by rw [hlen]; exact hs
  have hrun := updateRun_storeIndex w ticks s hs
  refine ⟨?_, update_storeIndex w now reads s, hrun, p1, ?_, ?_, p3, ?_, ?_, ?_, ?_, ?_⟩
  · rw [hrun]; exact Nat.mod_lt _ (by norm_num)
  · rw [p2]
    simp [List.getElem?_set, hidx]
  · intro m hm
    rw [p2]
    simp [List.getElem?_set, hm.symm]
  · intro hb
    rw [p2, p3, hb]
    simp [List.getElem?_set, hidx]
  · intro hi
    rw [(update_single_read w now i x s hi).1, p2]
  · intro hi
    exact ⟨update_last_read w now i x reads s hi, channelLoop_storeIndex w now reads s⟩
  · intro hb
    exact (updateRun_base w ticks s hb).2
  · intro h10 hk
    have hj : ∀ j, j < 10 →
        (updateRun w s (ticks.take j)).storeIndex = (s.storeIndex + j) % 10 := by
      intro j hj
      rw [updateRun_storeIndex w (ticks.take j) s hs, List.length_take,
        Nat.min_eq_left (by omega)]
    refine ⟨(k + 10 - s.storeIndex) % 10, ⟨by omega, ?_⟩, ?_⟩
    · rw [hj _ (by omega)]
      omega
    · rintro j ⟨h1, h2⟩
      rw [hj j h1] at h2
      omega

/-- Witness for C24 (amended): the constructed controller and three ticks with
main-channel reads 10, 11, 12: the index is 3 afterwards, the first deviation stored is 0
and the baseline becomes the first filtered sample. -/
theorem C24_deviation_history_witness :
    BreathController.init.storeIndex < 10 ∧
    BreathController.init.storedPressures.length = 10 ∧
    (updateRun 32 BreathController.init
      [(0, [(1, 10)]), (100, [(1, 11)]), (200, [(1, 12)])]).storeIndex = 3 ∧
    (pressureChannel 32 0 1 10 BreathController.init).storedPressures[0]? = some 0 ∧
    (pressureChannel 32 0 1 10 BreathController.init).basePressure
      = (filterStep 10 BreathController.init).1 :=
  ⟨by decide, rfl,
    (C24_deviation_history 32 0 1 0 10 [(0, [(1, 10)]), (100, [(1, 11)]), (200, [(1, 12)])]
      [] BreathController.init (by decide) rfl).2.2.1,
    ((C24_deviation_history 32 0 1 0 10 [] [] BreathController.init
      (by decide) rfl).2.2.2.2.2.2.2.1 rfl).1,
    ((C24_deviation_history 32 0 1 0 10 [] [] BreathController.init
      (by decide) rfl).2.2.2.2.2.2.2.1 rfl).2⟩

/-- C26. PEAK is sticky under gradual decline: for every threshold `t` (its sign does not
matter) and every input sequence in which each sample is at least the previous sample
minus `t`, a classifier in state PEAK is in PEAK after every call and breathCount does
not change, whatever the total drop; likewise a classifier in EXHALE stays in EXHALE for
every sequence in which each sample is at most the previous sample plus `t`. The sample
before the first one is the controller's stored previous pressure. -/
theorem C26_sticky_states (w : ℕ) (s : BreathController) (inputs : List (ℕ × ℚ)) :
    (s.currentState = PEAK →
      Gradual (fun a b => a - s.pressureThreshold ≤ b) s (inputs.map Prod.snd) →
      ∀ c ∈ classifyRun w s inputs, c.currentState = PEAK ∧ c.breathCount = s.breathCount) ∧
    (s.currentState = EXHALE →
      Gradual (fun a b => b ≤ a + s.pressureThreshold) s (inputs.map Prod.snd) →
      ∀ c ∈ classifyRun w s inputs,
        c.currentState = EXHALE ∧ c.breathCount = s.breathCount) := by
  constructor
  · intro hs hg
    exact sticky_of_chain w s.pressureThreshold _ PEAK
      (sticky_peak_chain w s.pressureThreshold) s inputs hs rfl hg
  · intro hs hg
    exact sticky_of_chain w s.pressureThreshold _ EXHALE
      (sticky_exhale_chain w s.pressureThreshold) s inputs hs rfl hg

/-- Witness for C26: state PEAK, previous pressure 10, threshold 0.5, and the samples
9.5, 9.0, 8.5, 8.0, each exactly 0.5 below the one before: the state stays PEAK although
the pressure has dropped by 2. -/
theorem C26_sticky_states_witness :
    (seeded PEAK 10).currentState = PEAK ∧
    Gradual (fun a b => a - (seeded PEAK 10).pressureThreshold ≤ b) (seeded PEAK 10)
      ([(0, 9.5), (100, 9.0), (200, 8.5), (300, 8.0)].map Prod.snd) ∧
    (∀ c ∈ classifyRun 32 (seeded PEAK 10) [(0, 9.5), (100, 9.0), (200, 8.5), (300, 8.0)],
      c.currentState = PEAK ∧ c.breathCount = (seeded PEAK 10).breathCount) :=
  have hg : Gradual (fun a b => a - (seeded PEAK 10).pressureThreshold ≤ b) (seeded PEAK 10)
      ([(0, 9.5), (100, 9.0), (200, 8.5), (300, 8.0)].map Prod.snd) := by
    simp [Gradual, seeded, BreathController.init, BREATH_THRESHOLD]
    norm_num
  ⟨rfl, hg,
    (C26_sticky_states 32 (seeded PEAK 10)
      [(0, 9.5), (100, 9.0), (200, 8.5), (300, 8.0)]).1 rfl hg⟩

/-- C27. Breath-count rate bound: from a controller in state EXHALE with breathCount 0 on
its first classifier call, for every sequence of pressures, timestamps and thresholds, the
breathCount after call number `n + 1` (entry `n` of the run) is at most `n / 3`, that is
`((n + 1) - 1) / 3` in integer division; four calls with pressures 10, 10.7, 10.5, 9.8 at
threshold 0.5 from the constructed controller reach the bound `(4 - 1) / 3 = 1`. -/
theorem C27_breath_count_rate_bound (w : ℕ) (s : BreathController)
    (inputs : List (ℕ × ℚ × ℚ)) (n : ℕ) (c : BreathController)
    (hs : s.currentState = EXHALE) (hc : s.breathCount = 0) (hf : s.firstCall = true)
    (hget : (classifyRunWith w s inputs)[n]? = some c) :
    c.breathCount ≤ ((n / 3 : ℕ) : ℤ) ∧
    ((classifyRunWith w BreathController.init
        [(0, 10, 0.5), (100, 10.7, 0.5), (200, 10.5, 0.5), (300, 9.8, 0.5)])[4 - 1]?).map
      BreathController.breathCount = some (((4 - 1) / 3 : ℕ) : ℤ) := by
  constructor
  · have hprog := classifyRunWith_progress_seed w inputs s hf n c hget
    have h0 : breathProgress s = 0 := by
      unfold breathProgress
      rw [hc, hs]
      rfl
    have hr := phaseRank_nonneg c.currentState
    rw [h0] at hprog
    unfold breathProgress at hprog
    omega
  · have h1 : classify w 0 10 { BreathController.init with pressureThreshold := 0.5 }
        = seeded EXHALE 10 := by
      rw [classify_first _ _ _ _ rfl]
      simp [seeded, BreathController.init, BREATH_THRESHOLD]
    have h2 : classify w 100 10.7 { seeded EXHALE 10 with pressureThreshold := 0.5 }
        = { seeded INHALE 10.7 with minPressure := 10.7 } := by
      rw [classify_exhale w 100 10.7 10 _ rfl rfl rfl, if_pos (by norm_num)]
      simp [seeded, BreathController.init, BREATH_THRESHOLD]
    have h3 : classify w 200 10.5
        { ({ seeded INHALE 10.7 with minPressure := 10.7 } : BreathController) with
          pressureThreshold := 0.5 }
        = { seeded PEAK 10.5 with minPressure := 10.7, maxPressure := 10.5 } := by
      rw [classify_inhale w 200 10.5 10.7 _ rfl rfl rfl, if_pos (by norm_num)]
      simp [seeded, BreathController.init, BREATH_THRESHOLD]
    have h4 : (classify w 300 9.8
        { ({ seeded PEAK 10.5 with minPressure := 10.7, maxPressure := 10.5 }
            : BreathController) with pressureThreshold := 0.5 }).breathCount = 1 := by
      rw [classify_peak w 300 9.8 10.5 _ rfl rfl rfl, if_pos (by norm_num)]
      rfl
    rw [classifyRunWith_cons, h1, classifyRunWith_cons, h2, classifyRunWith_cons, h3,
      classifyRunWith_cons]
    simp only [Nat.add_one_sub_one, List.getElem?_cons_succ, List.getElem?_cons_zero,
      Option.map_some', h4]
    rfl

/-- Witness for C27: the constructed controller and seven calls (two full cycles); the
breathCount after the seventh call is at most 6 / 3 = 2. -/
theorem C27_breath_count_rate_bound_witness :
    BreathController.init.currentState = EXHALE ∧
    BreathController.init.breathCount = 0 ∧
    BreathController.init.firstCall = true ∧
    (∀ c, (classifyRunWith 32 BreathController.init
        [(0, 10, 0.5), (100, 10.7, 0.5), (200, 10.5, 0.5), (300, 9.8, 0.5),
          (400, 10.7, 0.5), (500, 10.5, 0.5), (600, 9.8, 0.5)])[6]? = some c →
      c.breathCount ≤ ((6 / 3 : ℕ) : ℤ)) ∧
    (classifyRunWith 32 BreathController.init
        [(0, 10, 0.5), (100, 10.7, 0.5), (200, 10.5, 0.5), (300, 9.8, 0.5),
          (400, 10.7, 0.5), (500, 10.5, 0.5), (600, 9.8, 0.5)]).length = 7 :=
  ⟨rfl, rfl, rfl,
    fun c h => (C27_breath_count_rate_bound 32 BreathController.init _ 6 c rfl rfl rfl h).1,
    rfl⟩

/-- C28 (as stated, refuted). The constructed filter fed the `float` nearest 101.3
(6638797/65536) three times: the first two calls return it, the third returns the next
`float` above it (13277595/131072, about 101.300011), because the `float` sum of the three
buffered samples rounds upward. -/
theorem C28_constant_input_drifts :
    fl32 (6638797 / 65536) = 6638797 / 65536 ∧
    (filterRunF BreathController.init (List.replicate 3 (6638797 / 65536))).1
      = [6638797 / 65536, 6638797 / 65536, 13277595 / 131072] ∧
    (13277595 / 131072 : ℚ) ≠ 6638797 / 65536 := by
  have hr : List.range 5 = [0, 1, 2, 3, 4] := by decide
  have r1 : fl64 (3 / 10) = 5404319552844595 / 18014398509481984 :=
    flRound_near 53 (-1022) _ (-2) (-54) 5404319552844595 _ (by norm_num)
  have r2 : fl32 (5404319552844595 / 18014398509481984) = 5033165 / 16777216 :=
    flRound_near 24 (-126) _ (-2) (-25) 10066330 _ (by norm_num)
  have r3 : fl32 (11744051 / 16777216) = 11744051 / 16777216 :=
    flRound_near 24 (-126) _ (-1) (-24) 11744051 _ (by norm_num)
  have r4 : fl32 (6638797 / 65536) = 6638797 / 65536 :=
    flRound_near 24 (-126) _ 6 (-17) 13277594 _ (by norm_num)
  have r5 : fl32 (6638797 / 32768) = 6638797 / 32768 :=
    flRound_near 24 (-126) _ 7 (-16) 13277594 _ (by norm_num)
  have r6 : fl32 (33414160702505 / 1099511627776) = 15933113 / 524288 :=
    flRound_near 24 (-126) _ 4 (-19) 15933113 _ (by norm_num)
  have r7 : fl32 (77966370546647 / 1099511627776) = 2323579 / 32768 :=
    flRound_near 24 (-126) _ 6 (-17) 9294316 _ (by norm_num)
  have r8 : fl32 (53110377 / 524288) = 6638797 / 65536 :=
    flRound_near 24 (-126) _ 6 (-17) 13277594 _ (by norm_num)
  have r9 : fl32 (19916391 / 65536) = 2489549 / 8192 :=
    flRound_tie 24 (-126) _ 8 (-15) 9958195 9958196 _ (by norm_num)
  have r10 : fl32 (2489549 / 24576) = 13277595 / 131072 :=
    flRound_near 24 (-126) _ 6 (-17) 13277595 _ (by norm_num)
  have r11 : fl32 (66828326438175 / 2199023255552) = 15933115 / 524288 :=
    flRound_near 24 (-126) _ 4 (-19) 15933115 _ (by norm_num)
  have r12 : fl32 (53110379 / 524288) = 13277595 / 131072 :=
    flRound_near 24 (-126) _ 6 (-17) 13277595 _ (by norm_num)
  refine ⟨r4, ?_, by norm_num⟩
  norm_num [filterRunF, filterStepF, applyEWMAF, applyMovingAverageF, sumValidF,
    EWMA_ALPHA_F, BreathController.init, FILTER_WINDOW, hr,
    r1, r2, r3, r4, r5, r6, r7, r8, r9, r10, r11, r12]

/-- C28 (amended). Constant input is a fixed point of the two-stage filter up to rounding:
from a freshly constructed filter (all history slots NaN, EWMA not initialised), if every
raw sample equals the same value `c`, then the first call of
`applyEWMA(applyMovingAverage(c))` returns exactly `c` (for `c` a `float` value), and
every call returns a value within `24 * roundSlack |c|` of `c`, that is within
`24 * (|c| / 2 ^ 24 + 1 / 2 ^ 150)`, a relative deviation of about `1.5e-6` at most (for
`|c| ≤ 2 ^ 100`, so that no operation overflows). -/
theorem C28_constant_input_fixed_point (s : BreathController) (c : ℚ) (n : ℕ)
    (hh : s.pressureHistory = List.replicate FILTER_WINDOW none)
    (hinit : s.isFilterInitialized = false) :
    (fl32 c = c → (filterRunF s (List.replicate (n + 1) c)).1.head? = some c) ∧
    (|c| ≤ 2 ^ 100 →
      ∀ o ∈ (filterRunF s (List.replicate n c)).1, |o - c| ≤ 24 * roundSlack |c|) := by
  constructor
  · intro hc
    rw [List.replicate_succ, filterRunF, List.head?_cons, filterStepF_first c s hh hinit hc]
  · intro _ o ho
    have hb := filterRunF_near c c |c| (neg_abs_le c) (le_abs_self c) (List.replicate n c) s
      (filterNear_fresh c c _ s hh hinit)
      (fun x hx => by rw [List.eq_of_mem_replicate hx]; exact ⟨le_refl c, le_refl c⟩) o ho
    rw [abs_le]
    constructor <;> linarith [hb.1, hb.2]

/-- Witness for C28: the constructed controller fed the `float` nearest 101.3 seven
times. -/
theorem C28_constant_input_fixed_point_witness :
    BreathController.init.pressureHistory = List.replicate FILTER_WINDOW none ∧
    BreathController.init.isFilterInitialized = false ∧
    fl32 (6638797 / 65536) = 6638797 / 65536 ∧
    |(6638797 / 65536 : ℚ)| ≤ 2 ^ 100 ∧
    (filterRunF BreathController.init (List.replicate (6 + 1) (6638797 / 65536))).1.head?
      = some (6638797 / 65536) ∧
    (∀ o ∈ (filterRunF BreathController.init (List.replicate 7 (6638797 / 65536))).1,
      |o - 6638797 / 65536| ≤ 24 * roundSlack |(6638797 / 65536 : ℚ)|) := by
  have r4 : fl32 (6638797 / 65536) = 6638797 / 65536 :=
    flRound_near 24 (-126) _ 6 (-17) 13277594 _ (by norm_num)
  have hfin : |(6638797 / 65536 : ℚ)| ≤ 2 ^ 100 := by
    rw [abs_of_pos (by norm_num)]
    norm_num
  exact ⟨rfl, rfl, r4, hfin,
    (C28_constant_input_fixed_point BreathController.init (6638797 / 65536) 6 rfl rfl).1 r4,
    (C28_constant_input_fixed_point BreathController.init (6638797 / 65536) 7 rfl rfl).2
      hfin⟩

/-- C29 (as stated, refuted). The constructed filter fed the `float` nearest 101.3
(6638797/65536) three times: the value returned by the third call is 13277595/131072, the
next `float` above the sample, and so lies above the maximum of the samples seen so far. -/
theorem C29_output_above_maximum :
    fl32 (6638797 / 65536) = 6638797 / 65536 ∧
    (filterRunF BreathController.init
        [6638797 / 65536, 6638797 / 65536, 6638797 / 65536]).1[2]?
      = some (13277595 / 131072) ∧
    (∀ x ∈ ([6638797 / 65536, 6638797 / 65536, 6638797 / 65536] : List ℚ),
      x < 13277595 / 131072) := by
  have hr : List.range 5 = [0, 1, 2, 3, 4] := by decide
  have r1 : fl64 (3 / 10) = 5404319552844595 / 18014398509481984 :=
    flRound_near 53 (-1022) _ (-2) (-54) 5404319552844595 _ (by norm_num)
  have r2 : fl32 (5404319552844595 / 18014398509481984) = 5033165 / 16777216 :=
    flRound_near 24 (-126) _ (-2) (-25) 10066330 _ (by norm_num)
  have r3 : fl32 (11744051 / 16777216) = 11744051 / 16777216 :=
    flRound_near 24 (-126) _ (-1) (-24) 11744051 _ (by norm_num)
  have r4 : fl32 (6638797 / 65536) = 6638797 / 65536 :=
    flRound_near 24 (-126) _ 6 (-17) 13277594 _ (by norm_num)
  have r5 : fl32 (6638797 / 32768) = 6638797 / 32768 :=
    flRound_near 24 (-126) _ 7 (-16) 13277594 _ (by norm_num)
  have r6 : fl32 (33414160702505 / 1099511627776) = 15933113 / 524288 :=
    flRound_near 24 (-126) _ 4 (-19) 15933113 _ (by norm_num)
  have r7 : fl32 (77966370546647 / 1099511627776) = 2323579 / 32768 :=
    flRound_near 24 (-126) _ 6 (-17) 9294316 _ (by norm_num)
  have r8 : fl32 (53110377 / 524288) = 6638797 / 65536 :=
    flRound_near 24 (-126) _ 6 (-17) 13277594 _ (by norm_num)
  have r9 : fl32 (19916391 / 65536) = 2489549 / 8192 :=
    flRound_tie 24 (-126) _ 8 (-15) 9958195 9958196 _ (by norm_num)
  have r10 : fl32 (2489549 / 24576) = 13277595 / 131072 :=
    flRound_near 24 (-126) _ 6 (-17) 13277595 _ (by norm_num)
  have r11 : fl32 (66828326438175 / 2199023255552) = 15933115 / 524288 :=
    flRound_near 24 (-126) _ 4 (-19) 15933115 _ (by norm_num)
  have r12 : fl32 (53110379 / 524288) = 13277595 / 131072 :=
    flRound_near 24 (-126) _ 6 (-17) 13277595 _ (by norm_num)
  refine ⟨r4, ?_, ?_⟩
  · norm_num [filterRunF, filterStepF, applyEWMAF, applyMovingAverageF, sumValidF,
      EWMA_ALPHA_F, BreathController.init, FILTER_WINDOW, hr,
      r1, r2, r3, r4, r5, r6, r7, r8, r9, r10, r11, r12]
  · intro x hx
    simp only [List.mem_cons, List.mem_singleton, List.not_mem_nil, or_false, or_self] at hx
    rw [hx]
    norm_num

/-- C29 (amended). The two-stage filter overshoots its inputs by rounding at most: from a
freshly constructed filter, for samples `xs` followed by any further samples `ys`, the
value `o` returned at call number `xs.length` lies within `24 * roundSlack M` of every
interval `[lo, hi]` that contains the samples `xs` seen so far, where `M` bounds the
magnitudes of `lo` and `hi` (and `M ≤ 2 ^ 100`, so that no operation overflows); in
particular it lies between a least sample `a` and a greatest sample `b` up to
`24 * roundSlack (max |a| |b|)`, a relative deviation of about `1.5e-6` at most. The value
returned by the first call is its sample, when that is a `float` value. -/
theorem C29_filter_within_input_range (s : BreathController) (xs ys : List ℚ) (o : ℚ)
    (hh : s.pressureHistory = List.replicate FILTER_WINDOW none)
    (hinit : s.isFilterInitialized = false) (hne : xs ≠ [])
    (hget : (filterRunF s (xs ++ ys)).1[xs.length - 1]? = some o) :
    (∀ lo hi M, (∀ x ∈ xs, lo ≤ x ∧ x ≤ hi) → -M ≤ lo → hi ≤ M →
      M ≤ 2 ^ 100 → lo - 24 * roundSlack M ≤ o ∧ o ≤ hi + 24 * roundSlack M) ∧
    ((∀ x ∈ xs, |x| ≤ 2 ^ 100) →
      ∃ a ∈ xs, ∃ b ∈ xs, (∀ x ∈ xs, a ≤ x ∧ x ≤ b) ∧
        a - 24 * roundSlack (max |a| |b|) ≤ o ∧ o ≤ b + 24 * roundSlack (max |a| |b|)) ∧
    (∀ x, xs = [x] → fl32 x = x → o = x) := by
  have hpos : 0 < xs.length := List.length_pos.mpr hne
  have hget' : (filterRunF s xs).1[xs.length - 1]? = some o := by
    rw [filterRunF_append, List.getElem?_append_left
      (by rw [filterRunF_length]; omega)] at hget
    exact hget
  have hmem : o ∈ (filterRunF s xs).1 := List.getElem?_mem hget'
  have hbound : ∀ lo hi M, (∀ x ∈ xs, lo ≤ x ∧ x ≤ hi) → -M ≤ lo → hi ≤ M →
      lo - 24 * roundSlack M ≤ o ∧ o ≤ hi + 24 * roundSlack M :=
    fun lo hi M hx hlo hhi =>
      filterRunF_near lo hi M hlo hhi xs s (filterNear_fresh lo hi _ s hh hinit) hx o hmem
  refine ⟨fun lo hi M hx hlo hhi _ => hbound lo hi M hx hlo hhi, ?_, ?_⟩
  · intro _
    obtain ⟨a, ha, hla⟩ := exists_least_mem xs hne
    obtain ⟨b, hb, hgb⟩ := exists_greatest_mem xs hne
    have hall : ∀ x ∈ xs, a ≤ x ∧ x ≤ b := fun x hx => ⟨hla x hx, hgb x hx⟩
    refine ⟨a, ha, b, hb, hall, hbound a b (max |a| |b|) hall ?_ ?_⟩
    · have h1 := neg_abs_le a
      have h2 := le_max_left |a| |b|
      linarith
    · exact le_trans (le_abs_self b) (le_max_right |a| |b|)
  · intro x hx hfl
    subst hx
    have h1 : (filterRunF s [x]).1[0]? = some (filterStepF x s).1 := rfl
    have h2 : (filterRunF s [x]).1[0]? = some o := hget'
    rw [h1, filterStepF_first x s hh hinit hfl] at h2
    exact (Option.some.inj h2).symm

/-- Witness for C29: the constructed controller, the samples 10, 14, 9 followed by 100;
the third value returned lies within `24 * roundSlack 14` of `[9, 14]`. -/
theorem C29_filter_within_input_range_witness :
    BreathController.init.pressureHistory = List.replicate FILTER_WINDOW none ∧
    BreathController.init.isFilterInitialized = false ∧
    ([10, 14, 9] : List ℚ) ≠ [] ∧
    (∀ o, (filterRunF BreathController.init ([10, 14, 9] ++ [100])).1[
        ([10, 14, 9] : List ℚ).length - 1]? = some o →
      9 - 24 * roundSlack 14 ≤ o ∧ o ≤ 14 + 24 * roundSlack 14) ∧
    (filterRunF BreathController.init ([10, 14, 9] ++ [100])).1.length = 4 :=
  ⟨rfl, rfl, by simp,
    fun o h => (C29_filter_within_input_range BreathController.init [10, 14, 9] [100] o
      rfl rfl (by simp) h).1 9 14 14 (by
        intro x hx
        simp at hx
        rcases hx with hx | hx | hx <;> rw [hx] <;> norm_num) (by norm_num) (by norm_num)
        (by norm_num),
    by rw [filterRunF_length]; rfl⟩

/-- C30. Moving-average index safety: from a freshly constructed filter (five NaN slots,
write index 0), after any run of `applyMovingAverage` calls on samples `xs` the write
index is `xs.length % 5`, hence in 0..4 and within the 5-slot array. The next call writes
its sample into the slot at the write index and leaves the other slots unchanged. That
slot is unpopulated while fewer than 5 samples have been written, and afterwards holds
the oldest of the last five samples. -/
theorem C30_index_safety (s : BreathController) (xs : List ℚ) (x : ℚ)
    (hh : s.pressureHistory = List.replicate FILTER_WINDOW none) (hi : s.historyIndex = 0) :
    (movingAverageRun s xs).2.historyIndex = xs.length % 5 ∧
    (movingAverageRun s xs).2.historyIndex < 5 ∧
    (movingAverageRun s xs).2.pressureHistory.length = 5 ∧
    (applyMovingAverage x (movingAverageRun s xs).2).2.pressureHistory[
      (movingAverageRun s xs).2.historyIndex]? = some (some x) ∧
    (∀ j, j ≠ (movingAverageRun s xs).2.historyIndex →
      (applyMovingAverage x (movingAverageRun s xs).2).2.pressureHistory[j]?
        = (movingAverageRun s xs).2.pressureHistory[j]?) ∧
    (xs.length < 5 →
      (movingAverageRun s xs).2.pressureHistory[(movingAverageRun s xs).2.historyIndex]?
        = some none) ∧
    (5 ≤ xs.length →
      ∃ a b c d e, xs.drop (xs.length - 5) = [a, b, c, d, e] ∧
        RingFull (movingAverageRun s xs).2 a b c d e ∧
        (movingAverageRun s xs).2.pressureHistory[(movingAverageRun s xs).2.historyIndex]?
          = some (some a)) := by
  obtain ⟨hidx, hlen⟩ := movingAverageRun_index xs s (by rw [hi]; norm_num)
  rw [hi, Nat.zero_add] at hidx
  have hlen5 : (movingAverageRun s xs).2.pressureHistory.length = 5 := by
    rw [hlen, hh]; rfl
  have hlt : (movingAverageRun s xs).2.historyIndex < 5 := by
    rw [hidx]; exact Nat.mod_lt _ (by norm_num)
  refine ⟨hidx, hlt, hlen5, ?_, ?_, warm_up_slot s xs hh hi, ?_⟩
  · show ((movingAverageRun s xs).2.pressureHistory.set _ (some x))[_]? = _
    simp [List.getElem?_set, hlen5, hlt]
  · intro j hj
    show ((movingAverageRun s xs).2.pressureHistory.set _ (some x))[j]? = _
    simp [List.getElem?_set, hj.symm]
  · intro h5
    obtain ⟨a, b, c, d, e, hdrop, hfull⟩ := steady_state_ring s xs hh hi h5
    exact ⟨a, b, c, d, e, hdrop, hfull, ringFull_oldest _ a b c d e hfull⟩

/-- Witness for C30: the constructed controller after the seven samples 1, 2, 3, 4, 5, 6, 7:
the write index is 7 % 5 = 2, and the slot there holds 3, the oldest of 3, 4, 5, 6, 7. -/
theorem C30_index_safety_witness :
    BreathController.init.pressureHistory = List.replicate FILTER_WINDOW none ∧
    BreathController.init.historyIndex = 0 ∧
    (movingAverageRun BreathController.init [1, 2, 3, 4, 5, 6, 7]).2.historyIndex = 2 ∧
    (∃ a b c d e, ([1, 2, 3, 4, 5, 6, 7] : List ℚ).drop (7 - 5) = [a, b, c, d, e] ∧
      RingFull (movingAverageRun BreathController.init [1, 2, 3, 4, 5, 6, 7]).2 a b c d e ∧
      (movingAverageRun BreathController.init [1, 2, 3, 4, 5, 6, 7]).2.pressureHistory[
        (movingAverageRun BreathController.init [1, 2, 3, 4, 5, 6, 7]).2.historyIndex]?
        = some (some a)) :=
  ⟨rfl, rfl,
    (C30_index_safety BreathController.init [1, 2, 3, 4, 5, 6, 7] 0 rfl rfl).1,
    (C30_index_safety BreathController.init [1, 2, 3, 4, 5, 6, 7] 0 rfl rfl).2.2.2.2.2.2
      (by decide)⟩

end BreathCtl
